import Mathlib

/-!
# The verbosity gate, the sink registry and the macros of `loguru.hpp`

A shallow embedding of the header `src/loguru.hpp` (namespace `aer::log`).

* Everything the header itself defines (the `NamedVerbosity` enumerators,
  `SignalOptions`, the logging, scope and check macros, `format_value`, the
  helpers of the stream-style checks, `EcEntryData`, the move constructor of
  `LogScopeRAII`) is transcribed from the header.
* The header only *declares* `current_verbosity_cutoff`, `add_callback`,
  `add_file`, `remove_callback`, `remove_all_callbacks`, `log`, `raw_log`,
  `log_and_abort`, `textprintf`, `stream_print`, `get_error_context` and the
  constructors and destructors of `LogScopeRAII` and `EcEntryBase`; their bodies
  live in a translation unit that is not part of the sources at hand.  Those
  bodies are modelled from the written specification, and each such definition
  says so in its doc comment.

The program state is passed explicitly (`World`); everything a call does to the
outside (a line on stderr, a sink callback invocation, a close handler
invocation) is appended to the chronological list `World.effects`.
-/

set_option linter.dupNamespace false

namespace aer.log

/-! ## Verbosity levels (loguru.hpp:125-165) -/

/-- The alias `using Verbosity = int;`.  Verbosities are only ever compared and
copied, never computed with, so the unbounded integers stand for `int`. -/
abbrev Verbosity := Int

/-- `Verbosity_INVALID = -10`. -/
def Verbosity_INVALID : Verbosity := -10
/-- `Verbosity_OFF = -9`. -/
def Verbosity_OFF : Verbosity := -9
/-- `Verbosity_FATAL = -3`. -/
def Verbosity_FATAL : Verbosity := -3
/-- `Verbosity_ERROR = -2`. -/
def Verbosity_ERROR : Verbosity := -2
/-- `Verbosity_WARNING = -1`. -/
def Verbosity_WARNING : Verbosity := -1
/-- `Verbosity_INFO = 0`. -/
def Verbosity_INFO : Verbosity := 0
/-- `Verbosity_0 = 0`. -/
def Verbosity_0 : Verbosity := 0
/-- `Verbosity_1 = +1`. -/
def Verbosity_1 : Verbosity := 1
/-- `Verbosity_2 = +2`. -/
def Verbosity_2 : Verbosity := 2
/-- `Verbosity_3 = +3`. -/
def Verbosity_3 : Verbosity := 3
/-- `Verbosity_4 = +4`. -/
def Verbosity_4 : Verbosity := 4
/-- `Verbosity_5 = +5`. -/
def Verbosity_5 : Verbosity := 5
/-- `Verbosity_6 = +6`. -/
def Verbosity_6 : Verbosity := 6
/-- `Verbosity_7 = +7`. -/
def Verbosity_7 : Verbosity := 7
/-- `Verbosity_8 = +8`. -/
def Verbosity_8 : Verbosity := 8
/-- `Verbosity_9 = +9`. -/
def Verbosity_9 : Verbosity := 9
/-- `Verbosity_MAX = +9`. -/
def Verbosity_MAX : Verbosity := 9

/-- The tokens a caller may write as `verbosity_name` in `LOG_F(verbosity_name, ...)`:
the suffixes of the enumerators of `enum NamedVerbosity`.  The digits `0` .. `9`
are written `n0` .. `n9`. -/
inductive NamedVerbosity where
  | INVALID | OFF | FATAL | ERROR | WARNING | INFO
  | n0 | n1 | n2 | n3 | n4 | n5 | n6 | n7 | n8 | n9
  | MAX
deriving DecidableEq, Repr

/-- The token pasting `aer::log::Verbosity_ ## verbosity_name` of `LOG_F`,
`RAW_LOG_F`, ...: the enumerator the name stands for. -/
def Verbosity_ : NamedVerbosity → Verbosity
  | .INVALID => Verbosity_INVALID
  | .OFF => Verbosity_OFF
  | .FATAL => Verbosity_FATAL
  | .ERROR => Verbosity_ERROR
  | .WARNING => Verbosity_WARNING
  | .INFO => Verbosity_INFO
  | .n0 => Verbosity_0
  | .n1 => Verbosity_1
  | .n2 => Verbosity_2
  | .n3 => Verbosity_3
  | .n4 => Verbosity_4
  | .n5 => Verbosity_5
  | .n6 => Verbosity_6
  | .n7 => Verbosity_7
  | .n8 => Verbosity_8
  | .n9 => Verbosity_9
  | .MAX => Verbosity_MAX

/-- The levels a message can be logged at: `FATAL`, `ERROR`, `WARNING`, `INFO`
(and its synonym `0`) and `1` .. `9` (and the synonym `MAX` of `9`).  The header
forbids `LOG_F(INVALID)` and `LOG_F(OFF)`. -/
def NamedVerbosity.deliverable : NamedVerbosity → Bool
  | .INVALID => false
  | .OFF => false
  | _ => true

/-! ## Messages, sinks and the program state -/

/-- The `struct Message` of loguru.hpp:167-178.  The member `prefix` is spelled
`pfx` here. -/
structure Message where
  verbosity : Verbosity
  filename : String
  line : Nat
  preamble : String
  indentation : String
  pfx : String
  message : String
deriving DecidableEq, Repr

/-- One value of a variadic argument list. -/
inductive Arg where
  | int (i : Int)
  | str (s : String)
deriving DecidableEq, Repr

/-- The value of `__VA_ARGS__` in a logging macro: the format string and the
values to be formatted. -/
structure VaArgs where
  format : String
  args : List Arg
deriving DecidableEq, Repr

/-- Modelled from the spec: the Formatter collaborator (`format(fmt, args) -> text`)
that `log` renders its message with, together with the rendering of the
preamble, of the indentation and of the entry and exit lines of a scope, all of
which are defined outside the header. -/
structure Formatter where
  format : String → List Arg → String
  preamble : Verbosity → String → Nat → String
  indentation : Nat → String
  scope_entry : String → String
  scope_exit : String → Int → String

/-- Modelled from the spec: the sink record (`Sink`: unique string id, writer
capability, verbosity threshold, optional close and flush capabilities).  Its
fields are the parameters of `add_callback` (loguru.hpp:392-398); a handler is
identified by a number, and `none` is the `nullptr` default of `on_close` and
`on_flush`. -/
structure Callback where
  id : String
  callback : Nat
  user_data : Nat
  verbosity : Verbosity
  on_close : Option Nat
  on_flush : Option Nat
deriving DecidableEq, Repr

/-- What the logging engine does to the outside, in the order it happens.
`log_called` and `raw_log_called` record the entry into `log` and `raw_log`
with the arguments of the call, `scope_constructed` the entry into the logging
constructor of `LogScopeRAII`. -/
inductive Effect where
  | log_called (verbosity : Verbosity) (file : String) (line : Nat)
      (format : String) (args : List Arg)
  | raw_log_called (verbosity : Verbosity) (file : String) (line : Nat)
      (format : String) (args : List Arg)
  | scope_constructed (verbosity : Verbosity) (file : String) (line : Nat)
      (format : String) (args : List Arg)
  | stderr_write (m : Message)
  | callback_invoked (id : String) (callback user_data : Nat) (m : Message)
  | close_invoked (id : String) (on_close user_data : Nat)
  | flush_invoked (id : String) (on_flush user_data : Nat)
deriving DecidableEq, Repr

/-- The state of the logging engine.  `g_stderr_verbosity` is the global of
loguru.hpp:185.  Modelled from the spec: `sinks` is the SinkRegistry (in
registration order), `sink_cutoff` the derived maximum of the sink thresholds
that is recomputed on every registry mutation (`none` while there is no sink),
`flush_due` says that the configured flush interval has elapsed since the last
flush, and `indent_depth` is the indentation depth of the logging thread. -/
structure World where
  g_stderr_verbosity : Verbosity
  sinks : List Callback
  sink_cutoff : Option Verbosity
  effects : List Effect
  flush_due : Bool
  indent_depth : Nat
deriving DecidableEq, Repr

/-- The state at program start: no sink, nothing done yet, `g_stderr_verbosity`
as the program sets it. -/
def World.init (stderr_verbosity : Verbosity) : World :=
  { g_stderr_verbosity := stderr_verbosity, sinks := [], sink_cutoff := none,
    effects := [], flush_due := false, indent_depth := 0 }

/-- The effects that happened between the state `w` and the later state `w2`. -/
def new_effects (w w2 : World) : List Effect :=
  w2.effects.drop w.effects.length

/-- The calls of `log` and `raw_log` among a list of effects. -/
def log_calls (es : List Effect) : List Effect :=
  es.filter fun e =>
    match e with
    | .log_called _ _ _ _ _ => true
    | .raw_log_called _ _ _ _ _ => true
    | _ => false

/-! ## VerbosityGate and SinkRegistry -/

/-- Modelled from the spec: the recomputation of the derived cutoff on a registry
mutation, the maximum over all sink thresholds (`none` for no sink). -/
def recompute_cutoff (sinks : List Callback) : Option Verbosity :=
  sinks.foldl
    (fun acc s =>
      match acc with
      | none => some s.verbosity
      | some m => some (max m s.verbosity))
    none

/-- Modelled from the spec: the body of `current_verbosity_cutoff`
(loguru.hpp:431-433, "Returns the maximum of g_stderr_verbosity and all
file/custom outputs"): the current `g_stderr_verbosity` joined with the derived
sink cutoff. -/
def current_verbosity_cutoff (w : World) : Verbosity :=
  match w.sink_cutoff with
  | none => w.g_stderr_verbosity
  | some m => max w.g_stderr_verbosity m

/-- The failure of `SinkRegistry.add`. -/
inductive AddError where
  | AlreadyExists
deriving DecidableEq, Repr

/-- Modelled from the spec: `add(id, sink) -> Result<(), AlreadyExists>` of the
SinkRegistry: fails if the id is already registered, otherwise registers the
sink and recomputes the cutoff. -/
def SinkRegistry.add (s : Callback) (w : World) : Except AddError World :=
  if w.sinks.any (fun c => c.id == s.id) then
    .error .AlreadyExists
  else
    .ok { w with sinks := w.sinks ++ [s], sink_cutoff := recompute_cutoff (w.sinks ++ [s]) }

/-- Modelled from the spec: the body of `add_callback`.  The signature is the
header's (loguru.hpp:392-398): the function returns `void`, so the caller gets
the unit value and the next state. -/
def add_callback (id : String) (callback user_data : Nat) (verbosity : Verbosity)
    (on_close on_flush : Option Nat) (w : World) : Unit × World :=
  match SinkRegistry.add
      { id := id, callback := callback, user_data := user_data, verbosity := verbosity,
        on_close := on_close, on_flush := on_flush } w with
  | .ok w2 => ((), w2)
  | .error _ => ((), w)

/-- The `enum FileMode { Truncate, Append }` of loguru.hpp:357. -/
inductive FileMode where
  | Truncate | Append
deriving DecidableEq, Repr

/-- The writer of a file sink. -/
def file_log : Nat := 0
/-- The close handler of a file sink. -/
def file_close : Nat := 1
/-- The flush handler of a file sink. -/
def file_flush : Nat := 2

/-- Modelled from the spec: the body of `add_file` (declared `bool` at
loguru.hpp:367): fails with `false` on I/O failure, otherwise registers a sink
keyed by the path string.  `opened mode` is the outcome of creating the missing
directories and opening the file in that mode: the file handle, or `none` on
I/O failure. -/
def add_file (path : String) (mode : FileMode) (verbosity : Verbosity)
    (opened : FileMode → Option Nat) (w : World) : Bool × World :=
  match opened mode with
  | none => (false, w)
  | some handle =>
    match SinkRegistry.add
        { id := path, callback := file_log, user_data := handle, verbosity := verbosity,
          on_close := some file_close, on_flush := some file_flush } w with
    | .ok w2 => (true, w2)
    | .error _ => (false, w)

/-- The invocation of a sink's close capability, if it has one. -/
def close_effects (s : Callback) : List Effect :=
  match s.on_close with
  | some h => [Effect.close_invoked s.id h s.user_data]
  | none => []

/-- Modelled from the spec: the body of `remove_callback` (declared `bool` at
loguru.hpp:425, "Returns true iff the callback was found (and removed)"):
`false` and no change for an unknown id; for a known id it invokes the sink's
close capability, removes the sink, recomputes the cutoff and returns `true`. -/
def remove_callback (id : String) (w : World) : Bool × World :=
  match w.sinks.find? (fun c => c.id == id) with
  | none => (false, w)
  | some s =>
    let sinks2 := w.sinks.eraseP (fun c => c.id == id)
    (true, { w with effects := w.effects ++ close_effects s,
                    sinks := sinks2,
                    sink_cutoff := recompute_cutoff sinks2 })

/-- Modelled from the spec: the body of `remove_all_callbacks`: closes and removes
every sink, then recomputes the cutoff. -/
def remove_all_callbacks (w : World) : World :=
  { w with effects := w.effects ++ (w.sinks.map close_effects).flatten,
           sinks := [],
           sink_cutoff := recompute_cutoff [] }

/-! ## Dispatcher -/

/-- Modelled from the spec: step 2 of `dispatch`: the `Message` of a call, with
preamble and indentation unless `raw` is set. -/
def make_message (F : Formatter) (depth : Nat) (verbosity : Verbosity) (file : String)
    (line : Nat) (rendered_text : String) (raw : Bool) : Message :=
  { verbosity := verbosity, filename := file, line := line,
    preamble := if raw then "" else F.preamble verbosity file line,
    indentation := if raw then "" else F.indentation depth,
    pfx := "",
    message := rendered_text }

/-- The writes of one message: to stderr iff `verbosity <= stderr_cutoff`, and to
each sink of the snapshot whose threshold is `>= verbosity`. -/
def deliveries (stderr_cutoff : Verbosity) (snapshot : List Callback) (m : Message) :
    List Effect :=
  (if m.verbosity ≤ stderr_cutoff then [Effect.stderr_write m] else []) ++
    snapshot.filterMap fun s =>
      if s.verbosity ≥ m.verbosity then
        some (Effect.callback_invoked s.id s.callback s.user_data m)
      else none

/-- The flushes of step 4 of `dispatch`: each sink's flush capability. -/
def flushes (snapshot : List Callback) : List Effect :=
  snapshot.filterMap fun s =>
    match s.on_flush with
    | some h => some (Effect.flush_invoked s.id h s.user_data)
    | none => none

/-- Modelled from the spec: `dispatch(verbosity, file, line, rendered_text, raw)`:
a no-op above the cutoff; otherwise it builds the message, takes a snapshot of
the registry, writes to stderr and to every sink whose threshold admits the
message, and flushes the sinks if the flush interval has elapsed. -/
def dispatch (F : Formatter) (verbosity : Verbosity) (file : String) (line : Nat)
    (rendered_text : String) (raw : Bool) (w : World) : World :=
  if verbosity > current_verbosity_cutoff w then w
  else
    let m := make_message F w.indent_depth verbosity file line rendered_text raw
    let snapshot := w.sinks
    let written := deliveries w.g_stderr_verbosity snapshot m
    if w.flush_due then
      { w with effects := w.effects ++ written ++ flushes snapshot, flush_due := false }
    else
      { w with effects := w.effects ++ written }

/-- What `dispatch` appends to the effects. -/
def dispatch_effects (F : Formatter) (verbosity : Verbosity) (file : String) (line : Nat)
    (rendered_text : String) (raw : Bool) (w : World) : List Effect :=
  if verbosity > current_verbosity_cutoff w then []
  else
    deliveries w.g_stderr_verbosity w.sinks
        (make_message F w.indent_depth verbosity file line rendered_text raw) ++
      (if w.flush_due then flushes w.sinks else [])

/-- Modelled from the spec: the body of `log` (declared at loguru.hpp:437): renders
the text through the Formatter and dispatches it. -/
def log (F : Formatter) (verbosity : Verbosity) (file : String) (line : Nat)
    (format : String) (args : List Arg) (w : World) : World :=
  dispatch F verbosity file line (F.format format args) false
    { w with effects := w.effects ++ [Effect.log_called verbosity file line format args] }

/-- Modelled from the spec: the body of `raw_log` (declared at loguru.hpp:445):
the same as `log`, without preamble and indentation. -/
def raw_log (F : Formatter) (verbosity : Verbosity) (file : String) (line : Nat)
    (format : String) (args : List Arg) (w : World) : World :=
  dispatch F verbosity file line (F.format format args) true
    { w with effects := w.effects ++ [Effect.raw_log_called verbosity file line format args] }

/-! ## The logging macros (loguru.hpp:823-849) -/

/-- An operand expression of a macro: evaluating it yields its value and the
state it leaves behind. -/
abbrev Expr (α : Type) := World → α × World

/-- An expression without side effects, such as a literal or a variable. -/
def Expr.value {α : Type} (a : α) : Expr α := fun w => (a, w)

/-- The macro `VLOG_F(verbosity, ...)`:
`((verbosity) > current_verbosity_cutoff()) ? (void)0 : log(verbosity, __FILE__, __LINE__, __VA_ARGS__)`.
The operand `verbosity` occurs twice in the expansion and is evaluated again for
the call; `file` and `line` are `__FILE__` and `__LINE__` of the call site. -/
def VLOG_F (F : Formatter) (verbosity : Expr Verbosity) (file : String) (line : Nat)
    (va_args : Expr VaArgs) (w : World) : World :=
  let (v, w1) := verbosity w
  if v > current_verbosity_cutoff w1 then w1
  else
    let (v2, w2) := verbosity w1
    let (a, w3) := va_args w2
    log F v2 file line a.format a.args w3

/-- The macro `LOG_F(verbosity_name, ...)`:
`VLOG_F(aer::log::Verbosity_ ## verbosity_name, __VA_ARGS__)`. -/
def LOG_F (F : Formatter) (verbosity_name : NamedVerbosity) (file : String) (line : Nat)
    (va_args : Expr VaArgs) (w : World) : World :=
  VLOG_F F (Expr.value (Verbosity_ verbosity_name)) file line va_args w

/-- The macro `RAW_VLOG_F(verbosity, ...)`:
`((verbosity) > current_verbosity_cutoff()) ? (void)0 : raw_log(verbosity, __FILE__, __LINE__, __VA_ARGS__)`. -/
def RAW_VLOG_F (F : Formatter) (verbosity : Expr Verbosity) (file : String) (line : Nat)
    (va_args : Expr VaArgs) (w : World) : World :=
  let (v, w1) := verbosity w
  if v > current_verbosity_cutoff w1 then w1
  else
    let (v2, w2) := verbosity w1
    let (a, w3) := va_args w2
    raw_log F v2 file line a.format a.args w3

/-- The macro `RAW_LOG_F(verbosity_name, ...)`:
`RAW_VLOG_F(aer::log::Verbosity_ ## verbosity_name, __VA_ARGS__)`. -/
def RAW_LOG_F (F : Formatter) (verbosity_name : NamedVerbosity) (file : String) (line : Nat)
    (va_args : Expr VaArgs) (w : World) : World :=
  RAW_VLOG_F F (Expr.value (Verbosity_ verbosity_name)) file line va_args w

/-! ## Operations of a program on the logging engine -/

/-- One step of a program that uses the logging engine: a call of one of the
registration functions, an assignment to `g_stderr_verbosity`, a call of `log` or
`raw_log`, or the passing of the flush interval.  `add_file` carries the outcome
of opening the file. -/
inductive Op where
  | add_callback (id : String) (callback user_data : Nat) (verbosity : Verbosity)
      (on_close on_flush : Option Nat)
  | add_file (path : String) (mode : FileMode) (verbosity : Verbosity) (opened : Option Nat)
  | remove_callback (id : String)
  | remove_all_callbacks
  | set_stderr_verbosity (verbosity : Verbosity)
  | log (verbosity : Verbosity) (file : String) (line : Nat) (format : String)
      (args : List Arg)
  | raw_log (verbosity : Verbosity) (file : String) (line : Nat) (format : String)
      (args : List Arg)
  | flush_interval_elapsed
deriving DecidableEq, Repr

/-- The state after one step. -/
def step (F : Formatter) (op : Op) (w : World) : World :=
  match op with
  | .add_callback id callback user_data verbosity on_close on_flush =>
    (add_callback id callback user_data verbosity on_close on_flush w).2
  | .add_file path mode verbosity opened => (add_file path mode verbosity (fun _ => opened) w).2
  | .remove_callback id => (remove_callback id w).2
  | .remove_all_callbacks => remove_all_callbacks w
  | .set_stderr_verbosity verbosity => { w with g_stderr_verbosity := verbosity }
  | .log verbosity file line format args => log F verbosity file line format args w
  | .raw_log verbosity file line format args => raw_log F verbosity file line format args w
  | .flush_interval_elapsed => { w with flush_due := true }

/-- The state after a sequence of steps. -/
def run (F : Formatter) (ops : List Op) (w : World) : World :=
  ops.foldl (fun acc op => step F op acc) w

/-- Whether a step registers a sink under the given id. -/
def Op.registers (id : String) : Op → Bool
  | .add_callback id2 _ _ _ _ _ => id2 == id
  | .add_file path _ _ _ => path == id
  | _ => false

/-! ## LogScopeRAII (loguru.hpp:447-490) -/

/-- `LOG_SCOPE_TEXT_SIZE` (loguru.hpp:20-24), the length of the `_name` buffer. -/
def LOG_SCOPE_TEXT_SIZE : Nat := 196

/-- The data members of `class LogScopeRAII`.  `_file` is `none` for the null
pointer ("Set to null if we are disabled due to verbosity"); `_name` is the
buffer `char _name[LOG_SCOPE_TEXT_SIZE]`. -/
structure LogScopeRAII where
  _verbosity : Verbosity
  _file : Option String
  _line : Nat
  _indent_stderr : Bool
  _start_time_ns : Int
  _name : List Char
deriving DecidableEq, Repr

/-- The loop
`for (unsigned int i = 0; i < LOG_SCOPE_TEXT_SIZE; ++i) { _name[i] = other._name[i]; }`
of the hand-written move constructor. -/
def copy_name (name other_name : List Char) : List Char :=
  (List.range LOG_SCOPE_TEXT_SIZE).foldl
    (fun acc i => acc.set i (other_name.getD i (Char.ofNat 0))) name

/-- The move constructor compiled under `#if defined(_MSC_VER) && _MSC_VER > 1800`
(loguru.hpp:461-474).  `storage_name` is what the `_name` buffer of the object
under construction holds before the loop fills it.  The result is the new
object and the moved-from object. -/
def LogScopeRAII.move_msvc (storage_name : List Char) (other : LogScopeRAII) :
    LogScopeRAII × LogScopeRAII :=
  let this : LogScopeRAII :=
    { _verbosity := other._verbosity, _file := other._file, _line := other._line,
      _indent_stderr := other._indent_stderr, _start_time_ns := other._start_time_ns,
      _name := storage_name }
  let other2 : LogScopeRAII := { other with _file := none }
  ({ this with _name := copy_name this._name other2._name }, other2)

/-- The move constructor of the `#else` branch, `LogScopeRAII(LogScopeRAII&&) = default;`
(loguru.hpp:476): the language initialises every member of the new object from
the corresponding member of `other`, which for these scalar and array members
is a copy that leaves `other` as it was. -/
def LogScopeRAII.move_default (other : LogScopeRAII) : LogScopeRAII × LogScopeRAII :=
  ({ _verbosity := other._verbosity, _file := other._file, _line := other._line,
     _indent_stderr := other._indent_stderr, _start_time_ns := other._start_time_ns,
     _name := other._name }, other)

/-- The move constructor the preprocessor selects: `msc_ver` is the value of
`_MSC_VER`, `none` when the compiler does not define it. -/
def LogScopeRAII.move (msc_ver : Option Nat) (storage_name : List Char)
    (other : LogScopeRAII) : LogScopeRAII × LogScopeRAII :=
  match msc_ver with
  | some ver => if ver > 1800 then LogScopeRAII.move_msvc storage_name other
                else LogScopeRAII.move_default other
  | none => LogScopeRAII.move_default other

/-- The text in a `char` buffer: the characters before the first NUL. -/
def c_string (buffer : List Char) : String :=
  String.mk (buffer.takeWhile fun c => c != Char.ofNat 0)

/-- Modelled from the spec: the destructor `~LogScopeRAII` (declared at
loguru.hpp:454): "On destruction: if enabled, decrements indentation depth and
dispatches an exit message containing elapsed wall-time since construction."
An object is enabled when its `_file` is not null; `now_ns` is the time of the
destruction. -/
def LogScopeRAII.destroy (F : Formatter) (now_ns : Int) (s : LogScopeRAII) (w : World) :
    World :=
  match s._file with
  | none => w
  | some file =>
    dispatch F s._verbosity file s._line
      (F.scope_exit (c_string s._name) (now_ns - s._start_time_ns)) false
      { w with indent_depth := if s._indent_stderr then w.indent_depth - 1 else w.indent_depth }

/-! ## Registry invariant and sample data -/

/-- The invariant of the registry: the derived sink cutoff is the one recomputed
from the registered sinks, and no two registered sinks share an id. -/
def World.consistent (w : World) : Prop :=
  w.sink_cutoff = recompute_cutoff w.sinks ∧ (w.sinks.map fun c => c.id).Nodup

instance (w : World) : Decidable w.consistent := by
  unfold World.consistent
  infer_instance

/-- A concrete formatter for evaluating the definitions on examples. -/
def sample_formatter : Formatter :=
  { format := fun fmt args => fmt ++ toString args.length,
    preamble := fun v file line => toString v ++ file ++ toString line,
    indentation := fun depth => String.mk (List.replicate depth (Char.ofNat 32)),
    scope_entry := fun name => name,
    scope_exit := fun name elapsed => name ++ toString elapsed }

/-- A concrete argument list whose evaluation has a visible side effect: it
raises `g_stderr_verbosity` to 9. -/
def sample_args : Expr VaArgs :=
  fun w => ({ format := "x=%d", args := [Arg.int 1] }, { w with g_stderr_verbosity := 9 })

/-- The state a program reaches from its start by a sequence of steps. -/
def state_after (F : Formatter) (stderr_verbosity : Verbosity) (ops : List Op) : World :=
  run F ops (World.init stderr_verbosity)

/-- A concrete enabled scope object: verbosity 0, created at main.cpp:42, with
indentation applied, started at 1000 ns, named "scope". -/
def sample_scope : LogScopeRAII :=
  { _verbosity := 0, _file := some "main.cpp", _line := 42, _indent_stderr := true,
    _start_time_ns := 1000,
    _name := [Char.ofNat 115, Char.ofNat 99, Char.ofNat 111, Char.ofNat 112, Char.ofNat 101] ++
      List.replicate (LOG_SCOPE_TEXT_SIZE - 5) (Char.ofNat 0) }

/-- The storage of a `_name` buffer before a constructor has written to it. -/
def sample_storage : List Char := List.replicate LOG_SCOPE_TEXT_SIZE (Char.ofNat 63)

/-- A concrete state inside one scope: `g_stderr_verbosity = 0`, no sink,
indentation depth 1. -/
def sample_world : World := { World.init 0 with indent_depth := 1 }

/-! ## SignalOptions (loguru.hpp:220-261) -/

/-- The `struct SignalOptions` with its default member initialisers. -/
structure SignalOptions where
  unsafe_signal_handler : Bool := true
  sigabrt : Bool := true
  sigbus : Bool := true
  sigfpe : Bool := true
  sigill : Bool := true
  sigint : Bool := true
  sigsegv : Bool := true
  sigterm : Bool := true
deriving DecidableEq, Repr

/-- The static member function `SignalOptions::none()`: a default-constructed
object whose eight members are then assigned `false` one after the other. -/
def SignalOptions.none : SignalOptions :=
  let options : SignalOptions := {}
  let options := { options with unsafe_signal_handler := false }
  let options := { options with sigabrt := false }
  let options := { options with sigbus := false }
  let options := { options with sigfpe := false }
  let options := { options with sigill := false }
  let options := { options with sigint := false }
  let options := { options with sigsegv := false }
  let options := { options with sigterm := false }
  options

/-- The eight members of `SignalOptions`. -/
inductive SignalFlag where
  | unsafe_signal_handler | sigabrt | sigbus | sigfpe | sigill | sigint | sigsegv | sigterm
deriving DecidableEq, Repr

/-- Reading a member: `options.flag`. -/
def SignalOptions.get (options : SignalOptions) : SignalFlag → Bool
  | .unsafe_signal_handler => options.unsafe_signal_handler
  | .sigabrt => options.sigabrt
  | .sigbus => options.sigbus
  | .sigfpe => options.sigfpe
  | .sigill => options.sigill
  | .sigint => options.sigint
  | .sigsegv => options.sigsegv
  | .sigterm => options.sigterm

/-- Assigning to a member: `options.flag = value;`. -/
def SignalOptions.set (options : SignalOptions) (flag : SignalFlag) (value : Bool) :
    SignalOptions :=
  match flag with
  | .unsafe_signal_handler => { options with unsafe_signal_handler := value }
  | .sigabrt => { options with sigabrt := value }
  | .sigbus => { options with sigbus := value }
  | .sigfpe => { options with sigfpe := value }
  | .sigill => { options with sigill := value }
  | .sigint => { options with sigint := value }
  | .sigsegv => { options with sigsegv := value }
  | .sigterm => { options with sigterm := value }

/-! ## The scope macros (loguru.hpp:448-456, 839-855) -/

/-- The constructor `LogScopeRAII() : _file(nullptr) {}` ("No logging"): it sets
`_file` to null and leaves the other members as the storage of the object holds
them. -/
def LogScopeRAII.default (storage : LogScopeRAII) : LogScopeRAII :=
  { storage with _file := none }

/-- Writing a text into a `char` buffer of `LOG_SCOPE_TEXT_SIZE` bytes: at most
`LOG_SCOPE_TEXT_SIZE - 1` characters, then the terminating NUL; the rest of the
buffer keeps what it held. -/
def store_label (buffer : List Char) (text : String) : List Char :=
  text.toList.take (LOG_SCOPE_TEXT_SIZE - 1) ++ [Char.ofNat 0] ++
    buffer.drop ((text.toList.take (LOG_SCOPE_TEXT_SIZE - 1)).length + 1)

/-- Modelled from the spec: the logging constructor
`LogScopeRAII(verbosity, file, line, format, ...)` (declared at loguru.hpp:453):
"On construction: if verbosity > cutoff, stores a disabled marker and does
nothing further.  Otherwise: renders the label via Formatter, dispatches an entry
message, records a start timestamp, and increments the thread's indentation
depth."  `now_ns` is the time of the construction, `storage` what the storage
of the object holds before. -/
def LogScopeRAII.construct (F : Formatter) (now_ns : Int) (storage : LogScopeRAII)
    (verbosity : Verbosity) (file : String) (line : Nat) (format : String) (args : List Arg)
    (w : World) : LogScopeRAII × World :=
  let w0 : World :=
    { w with effects := w.effects ++ [Effect.scope_constructed verbosity file line format args] }
  if verbosity > current_verbosity_cutoff w0 then
    ({ storage with _file := none }, w0)
  else
    let w1 := dispatch F verbosity file line (F.scope_entry (F.format format args)) false w0
    ({ _verbosity := verbosity, _file := some file, _line := line, _indent_stderr := true,
       _start_time_ns := now_ns,
       _name := store_label storage._name (F.format format args) },
     { w1 with indent_depth := w1.indent_depth + 1 })

/-- The macro `VLOG_SCOPE_F(verbosity, ...)`:
`LogScopeRAII <anonymous> = ((verbosity) > current_verbosity_cutoff()) ? LogScopeRAII() : LogScopeRAII(verbosity, __FILE__, __LINE__, __VA_ARGS__)`.
The result is the object the declared variable is initialised with, and the state
after the initialisation. -/
def VLOG_SCOPE_F (F : Formatter) (now_ns : Int) (storage : LogScopeRAII)
    (verbosity : Expr Verbosity) (file : String) (line : Nat) (va_args : Expr VaArgs)
    (w : World) : LogScopeRAII × World :=
  let (v, w1) := verbosity w
  if v > current_verbosity_cutoff w1 then (LogScopeRAII.default storage, w1)
  else
    let (v2, w2) := verbosity w1
    let (a, w3) := va_args w2
    LogScopeRAII.construct F now_ns storage v2 file line a.format a.args w3

/-- The macro `LOG_SCOPE_F(verbosity_name, ...)`:
`VLOG_SCOPE_F(aer::log::Verbosity_ ## verbosity_name, __VA_ARGS__)`. -/
def LOG_SCOPE_F (F : Formatter) (now_ns : Int) (storage : LogScopeRAII)
    (verbosity_name : NamedVerbosity) (file : String) (line : Nat) (va_args : Expr VaArgs)
    (w : World) : LogScopeRAII × World :=
  VLOG_SCOPE_F F now_ns storage (Expr.value (Verbosity_ verbosity_name)) file line va_args w

/-- The calls of the logging constructor of `LogScopeRAII` among a list of
effects. -/
def scope_calls (es : List Effect) : List Effect :=
  es.filter fun e =>
    match e with
    | .scope_constructed _ _ _ _ _ => true
    | _ => false

/-! ## Text and the error context (loguru.hpp:89-116, 607-767) -/

/-- The class `Text`, "Simple RAII ownership of a char*", with the type `P` of the
non-null values of a `char*` as a parameter: `_str` is `none` for the null
pointer. -/
structure TextOf (P : Type) where
  _str : Option P
deriving DecidableEq, Repr

/-- The class `Text` where a non-null pointer is given by the C string it points
to, which is all that matters where only the text is read. -/
abbrev Text := TextOf String

/-- The member function `c_str()`: `return _str;`. -/
def TextOf.c_str {P : Type} (t : TextOf P) : Option P := t._str

/-- Modelled from the spec: `struct StringStream` (only declared, loguru.hpp:610):
the text streamed so far. -/
structure StringStream where
  str : String
deriving DecidableEq, Repr

/-- Modelled from the spec: `stream_print(out_string_stream, text)` (only declared,
loguru.hpp:614, "Use this in your EcEntryBase::print_value overload"): appends
the text to the stream; nothing is appended for a null pointer. -/
def stream_print (out_string_stream : StringStream) (text : Option String) : StringStream :=
  match text with
  | some t => { str := out_string_stream.str ++ t }
  | none => out_string_stream

/-- The function pointer type `Printer = Text(*)(T data)`.  What a printer does
besides returning its text is recorded in a state of type `σ`, so that the
invocations of a printer can be observed. -/
abbrev Printer (σ T : Type) := T → σ → Text × σ

/-- The class `EcEntryBase`: `_file`, `_line`, `_descr` and the virtual member
function `print_value`.  The member `_previous` is not a field: an entry is
kept in the chain of its thread (`EcHandle`), whose tail is what `previous()`
returns.  `serial` numbers the entries of a thread in the order of their
construction and tells apart two entries with equal contents. -/
structure EcEntryBase (σ : Type) where
  _file : String
  _line : Nat
  _descr : String
  print_value : StringStream → σ → StringStream × σ
  serial : Nat

/-- The type `EcHandle = const EcEntryBase*`: the empty list is the null pointer,
and `e :: previous` points to the entry `e` whose `_previous` is `previous`. -/
abbrev EcHandle (σ : Type) := List (EcEntryBase σ)

/-- The member function `previous()`: `return _previous;`. -/
def EcHandle.previous {σ : Type} (h : EcHandle σ) : EcHandle σ := h.tail

/-- The class template `EcEntryData<T>`: the members of its base class and
`_data`, `_printer`. -/
structure EcEntryData (σ T : Type) where
  _file : String
  _line : Nat
  _descr : String
  serial : Nat
  _data : T
  _printer : Printer σ T

/-- The override `EcEntryData<T>::print_value`:
`const auto str = _printer(_data); stream_print(out_string_stream, str.c_str());`. -/
def EcEntryData.print_value {σ T : Type} (e : EcEntryData σ T)
    (out_string_stream : StringStream) (s : σ) : StringStream × σ :=
  let (str, s2) := e._printer e._data s
  (stream_print out_string_stream str.c_str, s2)

/-- An `EcEntryData<T>` seen through a pointer to its base class. -/
def EcEntryData.toBase {σ T : Type} (e : EcEntryData σ T) : EcEntryBase σ :=
  { _file := e._file, _line := e._line, _descr := e._descr, serial := e.serial,
    print_value := e.print_value }

/-- The error-context state of one thread: the thread-local top of the chain,
the serial number of the next entry, and the state the printers act on. -/
structure EcThread (σ : Type) where
  top : EcHandle σ
  next_serial : Nat
  user : σ

/-- A thread with no error context. -/
def EcThread.init {σ : Type} (user : σ) : EcThread σ :=
  { top := [], next_serial := 0, user := user }

/-- Modelled from the spec: the constructor `EcEntryBase(file, line, descr)`
(declared at loguru.hpp:619): "push(entry) links entry.previous = current_top;
current_top = &entry". -/
def EcEntryBase.push {σ : Type} (e : EcEntryBase σ) (th : EcThread σ) : EcThread σ :=
  { th with top := e :: th.top, next_serial := th.next_serial + 1 }

/-- Modelled from the spec: the destructor `~EcEntryBase()` (declared at
loguru.hpp:620) of the innermost entry: "pop() restores current_top =
entry.previous".  Entries can be neither copied nor moved, so scopes end in the
reverse order of their beginning and the entry destroyed is the top one. -/
def EcEntryBase.pop {σ : Type} (th : EcThread σ) : EcThread σ :=
  { th with top := EcHandle.previous th.top }

/-- The constructor of `EcEntryData<T>` (loguru.hpp:643-644):
`: EcEntryBase(file, line, descr), _data(data), _printer(printer) {}`.
The result is the new entry and the state of the thread. -/
def EcEntryData.construct {σ T : Type} (file : String) (line : Nat) (descr : String)
    (data : T) (printer : Printer σ T) (th : EcThread σ) : EcEntryData σ T × EcThread σ :=
  let e : EcEntryData σ T :=
    { _file := file, _line := line, _descr := descr, serial := th.next_serial,
      _data := data, _printer := printer }
  (e, EcEntryBase.push e.toBase th)

/-- The macro `ERROR_CONTEXT(descr, data)`: an `EcEntryData` constructed from
`__FILE__`, `__LINE__`, `descr`, `data` and the overload of `ec_to_text` for the
type of `data`. -/
def ERROR_CONTEXT {σ T : Type} (ec_to_text : Printer σ T) (file : String) (line : Nat)
    (descr : String) (data : T) (th : EcThread σ) : EcEntryData σ T × EcThread σ :=
  EcEntryData.construct file line descr data ec_to_text th

/-- Modelled from the spec: `get_thread_ec_handle()` (declared at loguru.hpp:759):
"returns the current top pointer". -/
def get_thread_ec_handle {σ : Type} (th : EcThread σ) : EcHandle σ := th.top

/-- One line of a rendered error context: the entry it is the line of, named by
its serial number, and its text. -/
structure EcLine where
  serial : Nat
  text : String
deriving DecidableEq, Repr

/-- The rendering of one entry into a line: "file:line  descr:  value" and a line
break, the value being whatever `print_value` writes to the stream. -/
def render_entry {σ : Type} (e : EcEntryBase σ) (s : σ) : EcLine × σ :=
  let out1 : StringStream :=
    stream_print { str := "" }
      (some (e._file ++ ":" ++ toString e._line ++ "  " ++ e._descr ++ ":  "))
  let (out2, s2) := e.print_value out1 s
  ({ serial := e.serial, text := (stream_print out2 (some "\n")).str }, s2)

/-- Modelled from the spec: the walk of `get_error_context_for`, "walks the chain
from top to bottom, rendering "file:line  descr:  value" per entry, most-recent
first": the line of the entry the handle points to, then the lines of the chain
that its `previous()` points to; no line for the null handle. -/
def render_lines {σ : Type} : EcHandle σ → σ → List EcLine × σ
  | [], s => ([], s)
  | e :: previous, s =>
    let (line, s1) := render_entry e s
    let (lines, s2) := render_lines previous s1
    (line :: lines, s2)

/-- Modelled from the spec: `get_error_context_for(ec_handle)` (declared at
loguru.hpp:767): "walks the chain from top to bottom, rendering
"file:line  descr:  value" per entry, most-recent first, each entry's value
rendered lazily only when render is called".  The text is the lines of
`render_lines` one after the other; it is empty if there is no entry. -/
def get_error_context_for {σ : Type} (ec_handle : EcHandle σ) (s : σ) : Text × σ :=
  let (lines, s2) := render_lines ec_handle s
  ({ _str := some (String.join (lines.map fun l => l.text)) }, s2)

/-- Modelled from the spec: `get_error_context()` (declared at loguru.hpp:763):
the error context of the calling thread. -/
def get_error_context {σ : Type} (th : EcThread σ) : Text × EcThread σ :=
  let (text, s2) := get_error_context_for (get_thread_ec_handle th) th.user
  (text, { th with user := s2 })

/-- One step of a thread that uses error contexts: the beginning of the scope of
an `ERROR_CONTEXT(descr, data)`, or the end of the innermost such scope. -/
inductive EcOp (σ T : Type) where
  | enter (file : String) (line : Nat) (descr : String) (data : T)
      (ec_to_text : Printer σ T)
  | exit

/-- The state of the thread after one step. -/
def ec_step {σ T : Type} (op : EcOp σ T) (th : EcThread σ) : EcThread σ :=
  match op with
  | .enter file line descr data ec_to_text =>
    (ERROR_CONTEXT ec_to_text file line descr data th).2
  | .exit => EcEntryBase.pop th

/-- The state of the thread after a sequence of steps. -/
def ec_run {σ T : Type} (ops : List (EcOp σ T)) (th : EcThread σ) : EcThread σ :=
  ops.foldl (fun acc op => ec_step op acc) th

/-- The scopes that are open after a sequence of steps, most recent first, each
named by the number of the `ERROR_CONTEXT` that opened it (the first one of the
thread is number 0): a beginning opens a scope, an end closes the innermost
open scope.  `opened` counts the scopes begun so far and `scopes` are the open
ones. -/
def open_scopes {σ T : Type} : List (EcOp σ T) → Nat → List Nat → List Nat
  | [], _, scopes => scopes
  | .enter _ _ _ _ _ :: ops, opened, scopes => open_scopes ops (opened + 1) (opened :: scopes)
  | .exit :: ops, opened, scopes => open_scopes ops opened scopes.tail

/-- A printer that counts its invocations in the state and returns its data as
the text. -/
def counting_printer : Printer Nat String :=
  fun data count => ({ _str := some data }, count + 1)

/-- The steps of the example documented in the header (loguru.hpp:699-707): the
scope of "Processing file" and, inside it, the scope of "Customer index". -/
def documented_example : List (EcOp Nat String) :=
  [EcOp.enter "main.cpp" 416 "Processing file" "customers.json" counting_printer,
   EcOp.enter "main.cpp" 417 "Customer index" "42" counting_printer]

/-- The serial numbers along the chain of a thread decrease from the top, and
all of them are below the number of the next entry. -/
def EcThread.ordered {σ : Type} (th : EcThread σ) : Prop :=
  (th.top.map fun e => e.serial).Pairwise (fun a b => b < a) ∧
    ∀ e ∈ th.top, e.serial < th.next_serial

/-! ## The check macros (loguru.hpp:857-925) -/

/-- The arguments of a call of `log_and_abort`; `message` is `none` for the
overload without a format string. -/
structure AbortCall where
  stack_trace_skip : Int
  expr : String
  file : String
  line : Nat
  message : Option VaArgs
deriving DecidableEq, Repr

/-- What can go wrong in a call of `textprintf`: a conversion specification that
the format string does not complete, one the model does not cover, or an
argument that is missing or of the wrong kind. -/
inductive FormatError where
  | incomplete_conversion
  | unsupported_conversion
  | argument_mismatch
deriving DecidableEq, Repr

/-- How the evaluation of a check macro ends: the check passes and control goes
on, or `log_and_abort` is called (`w` is the state at the call), or a call of
`textprintf` on the way has no defined result. -/
inductive CheckOutcome where
  | passed (w : World)
  | aborted (call : AbortCall) (w : World)
  | undefined (e : FormatError)
deriving DecidableEq, Repr

/-- Modelled from the spec: `log_and_abort` (declared `LOG_NORETURN` at
loguru.hpp:494-496): "this step never returns".  The call ends the evaluation;
what the crash pipeline then does with its arguments is not part of this
model. -/
def log_and_abort (stack_trace_skip : Int) (expr : String) (file : String) (line : Nat)
    (message : Option VaArgs) (w : World) : CheckOutcome :=
  .aborted { stack_trace_skip := stack_trace_skip, expr := expr, file := file, line := line,
             message := message } w

/-- The macro `CHECK_WITH_INFO_F(test, info, ...)`:
`LOG_PREDICT_TRUE((test) == true) ? (void)0 : log_and_abort(0, "CHECK FAILED:  " info "  ", __FILE__, __LINE__, ##__VA_ARGS__)`.
`va_args` is `none` when the optional user message is left out. -/
def CHECK_WITH_INFO_F (test : Expr Bool) (info : String) (file : String) (line : Nat)
    (va_args : Option (Expr VaArgs)) (w : World) : CheckOutcome :=
  let (t, w1) := test w
  if t == true then .passed w1
  else
    match va_args with
    | none => log_and_abort 0 ("CHECK FAILED:  " ++ info ++ "  ") file line none w1
    | some args =>
      let (a, w2) := args w1
      log_and_abort 0 ("CHECK FAILED:  " ++ info ++ "  ") file line (some a) w2

/-- The macro `CHECK_F(test, ...)`: `CHECK_WITH_INFO_F(test, #test, ##__VA_ARGS__)`;
`test_text` is the source text `#test` of the test. -/
def CHECK_F (test : Expr Bool) (test_text : String) (file : String) (line : Nat)
    (va_args : Option (Expr VaArgs)) (w : World) : CheckOutcome :=
  CHECK_WITH_INFO_F test test_text file line va_args w

/-- The macro `CHECK_NOTNULL_F(x, ...)`:
`CHECK_WITH_INFO_F((x) != nullptr, #x " != nullptr", ##__VA_ARGS__)`; the pointer
`x` is `none` when it is null, and `x_text` is its source text `#x`. -/
def CHECK_NOTNULL_F (x : Expr (Option Nat)) (x_text : String) (file : String) (line : Nat)
    (va_args : Option (Expr VaArgs)) (w : World) : CheckOutcome :=
  CHECK_WITH_INFO_F (fun w0 => ((x w0).1 != none, (x w0).2)) (x_text ++ " != nullptr")
    file line va_args w

/-- The expansion of a printf format string over its arguments, for the
conversions `%s`, `%d`, `%ld`, `%lld` and `%%`.  A `%` that the format string
does not complete to a conversion specification (as in "%", "%l", "%ll") has no
defined result. -/
def printf_chars : List Char → List Arg → Except FormatError (List Char)
  | [], _ => .ok []
  | c :: rest, args =>
    if c = '%' then
      match rest with
      | [] => .error .incomplete_conversion
      | d :: rest2 =>
        if d = '%' then (fun out => '%' :: out) <$> printf_chars rest2 args
        else if d = 's' then
          match args with
          | Arg.str t :: args2 => (fun out => t.toList ++ out) <$> printf_chars rest2 args2
          | _ => .error .argument_mismatch
        else if d = 'd' then
          match args with
          | Arg.int i :: args2 => (fun out => (toString i).toList ++ out) <$> printf_chars rest2 args2
          | _ => .error .argument_mismatch
        else if d = 'l' then
          match rest2 with
          | [] => .error .incomplete_conversion
          | d2 :: rest3 =>
            if d2 = 'd' then
              match args with
              | Arg.int i :: args2 =>
                (fun out => (toString i).toList ++ out) <$> printf_chars rest3 args2
              | _ => .error .argument_mismatch
            else if d2 = 'l' then
              match rest3 with
              | [] => .error .incomplete_conversion
              | d3 :: rest4 =>
                if d3 = 'd' then
                  match args with
                  | Arg.int i :: args2 =>
                    (fun out => (toString i).toList ++ out) <$> printf_chars rest4 args2
                  | _ => .error .argument_mismatch
                else .error .unsupported_conversion
            else .error .unsupported_conversion
        else .error .unsupported_conversion
    else (fun out => c :: out) <$> printf_chars rest args

/-- Modelled from the spec: `textprintf(format, ...)` (declared at loguru.hpp:119,
"Like printf, but returns the formated text"). -/
def textprintf (format : String) (args : List Arg) : Except FormatError Text :=
  (fun out => ({ _str := some (String.mk out) } : Text)) <$> printf_chars format.toList args

/-- Modelled from the spec: the overload `textprintf()` without arguments
(declared at loguru.hpp:123): the empty text. -/
def textprintf_empty : Text := { _str := some "" }

/-- The C string a `Text` hands to a `%s` conversion; the texts built by
`textprintf` are never null. -/
def Text.chars (t : Text) : String := t.c_str.getD ""

/-- An argument of a function-like macro, as the preprocessor sees it:
`spelling` is the argument as it is written at the call, `replaced` is the
argument after the macros named in it have been replaced.  For an operand both
are texts, as the operator `#` writes them; for a verbosity name both are name
tokens.  The two agree for an argument that names no macro. -/
structure MacroArg (α : Type) where
  spelling : α
  replaced : α
deriving DecidableEq, Repr

/-- An argument that names no macro. -/
def MacroArg.plain {α : Type} (t : α) : MacroArg α := { spelling := t, replaced := t }

/-- The argument an inner macro receives when an outer macro hands on its
parameter, as in `#define DCHECK_F(test, ...) CHECK_F(test, ##__VA_ARGS__)`: a
parameter that is not an operand of `#` or `##` in the replacement list is
substituted by the completely macro-replaced argument, and the tokens of a
replacement are not replaced a second time.  An operand of `#` or `##`, as in
`#test` or `Verbosity_ ## verbosity_name`, is the `spelling` of the argument the
macro itself receives. -/
def MacroArg.handed_on {α : Type} (a : MacroArg α) : MacroArg α :=
  { spelling := a.replaced, replaced := a.replaced }

/-- The operand types that `format_value` tells apart: the types with a
specialisation (loguru.hpp:505-514) and every other type. -/
inductive CType where
  | char | int | float | double | unsigned_int
  | long | unsigned_long | long_long | unsigned_long_long
  | other
deriving DecidableEq, Repr

/-- The value of an operand of `CHECK_OP_F`: its type and the number it holds
(for an operand that holds no integer, `value` only names the value). -/
structure CValue where
  type : CType
  value : Int
deriving DecidableEq, Repr

/-- The function template `format_value` with its specialisations, as the header
has them (loguru.hpp:504-514): `textprintf("N/A")` for a type without a
specialisation, `textprintf("%", v)` for `char`, `int`, `float`, `double` and
`unsigned int`, `textprintf("%l", v)` for `long` and `unsigned long`, and
`textprintf("%ll", v)` for `long long` and `unsigned long long`. -/
def format_value (v : CValue) : Except FormatError Text :=
  match v.type with
  | .other => textprintf "N/A" []
  | .char => textprintf "%" [Arg.int v.value]
  | .int => textprintf "%" [Arg.int v.value]
  | .float => textprintf "%" [Arg.int v.value]
  | .double => textprintf "%" [Arg.int v.value]
  | .unsigned_int => textprintf "%" [Arg.int v.value]
  | .long => textprintf "%l" [Arg.int v.value]
  | .unsigned_long => textprintf "%l" [Arg.int v.value]
  | .long_long => textprintf "%ll" [Arg.int v.value]
  | .unsigned_long_long => textprintf "%ll" [Arg.int v.value]

/-- The comparison operators of the `CHECK_xx` macros. -/
inductive CmpOp where
  | EQ | NE | LT | GT | LE | GE
deriving DecidableEq, Repr

/-- The source text `#op` of an operator. -/
def CmpOp.text : CmpOp → String
  | .EQ => "=="
  | .NE => "!="
  | .LT => "<"
  | .GT => ">"
  | .LE => "<="
  | .GE => ">="

/-- The comparison `a op b` of two integers. -/
def CmpOp.holds : CmpOp → Int → Int → Bool
  | .EQ, a, b => decide (a = b)
  | .NE, a, b => decide (a ≠ b)
  | .LT, a, b => decide (a < b)
  | .GT, a, b => decide (a > b)
  | .LE, a, b => decide (a ≤ b)
  | .GE, a, b => decide (a ≥ b)

/-- What the language and the C library decide and the header does not:
`compare op val_left val_right` is the value of the expression
`val_left op val_right`, which depends on the types of the two operands (the
usual arithmetic conversions, an overloaded operator); `textprintf_other` is the
text `textprintf` returns for a format string with a conversion specification
that `printf_chars` does not cover ("%u", "%f", "%5d", ...). -/
structure Implementation where
  compare : CmpOp → CValue → CValue → Bool
  textprintf_other : String → List Arg → Text

/-- The user message of `CHECK_OP_F`: `textprintf(__VA_ARGS__)`, which is the
overload without arguments when the message is left out. -/
def user_message (I : Implementation) (va_args : Option VaArgs) : Except FormatError Text :=
  match va_args with
  | none => .ok textprintf_empty
  | some a =>
    match textprintf a.format a.args with
    | .error .unsupported_conversion => .ok (I.textprintf_other a.format a.args)
    | r => r

/-- The macro `CHECK_OP_F(expr_left, expr_right, op, ...)` (loguru.hpp:877-892).
Both operands are evaluated, left first, into `val_left` and `val_right`; if
`val_left op val_right` is false, `format_value` renders the two values,
`textprintf` builds `fail_info` from the template and renders the user message,
and `log_and_abort` is called with the format "%s" and the rendered user
message.  `left_text` and `right_text` are `#expr_left` and `#expr_right`. -/
def CHECK_OP_F (I : Implementation) (expr_left expr_right : Expr CValue)
    (left_text right_text : String) (op : CmpOp) (file : String) (line : Nat)
    (va_args : Option (Expr VaArgs)) (w : World) : CheckOutcome :=
  let (val_left, w1) := expr_left w
  let (val_right, w2) := expr_right w1
  if I.compare op val_left val_right then .passed w2
  else
    match format_value val_left with
    | .error e => .undefined e
    | .ok str_left =>
      match format_value val_right with
      | .error e => .undefined e
      | .ok str_right =>
        match textprintf "CHECK FAILED:  %s %s %s  (%s %s %s)  "
            [Arg.str left_text, Arg.str op.text, Arg.str right_text,
             Arg.str str_left.chars, Arg.str op.text, Arg.str str_right.chars] with
        | .error e => .undefined e
        | .ok fail_info =>
          let (a, w3) : Option VaArgs × World :=
            match va_args with
            | none => (none, w2)
            | some args => ((args w2).1, (args w2).2)
          match user_message I a with
          | .error e => .undefined e
          | .ok user_msg =>
            log_and_abort 0 fail_info.chars file line
              (some { format := "%s", args := [Arg.str user_msg.chars] }) w3

/-- The macro `CHECK_EQ_F(a, b, ...)`: `CHECK_OP_F(a, b, ==, ##__VA_ARGS__)`.  The
operands are handed on to `CHECK_OP_F`, whose `#expr_left` and `#expr_right` are
therefore the texts of the macro-replaced operands. -/
def CHECK_EQ_F (I : Implementation) (a b : Expr CValue) (a_text b_text : MacroArg String)
    (file : String) (line : Nat) (va_args : Option (Expr VaArgs)) (w : World) :
    CheckOutcome :=
  CHECK_OP_F I a b a_text.handed_on.spelling b_text.handed_on.spelling .EQ file line va_args w

/-- The macro `CHECK_NE_F(a, b, ...)`: `CHECK_OP_F(a, b, !=, ##__VA_ARGS__)`.  The
operands are handed on to `CHECK_OP_F`, whose `#expr_left` and `#expr_right` are
therefore the texts of the macro-replaced operands. -/
def CHECK_NE_F (I : Implementation) (a b : Expr CValue) (a_text b_text : MacroArg String)
    (file : String) (line : Nat) (va_args : Option (Expr VaArgs)) (w : World) :
    CheckOutcome :=
  CHECK_OP_F I a b a_text.handed_on.spelling b_text.handed_on.spelling .NE file line va_args w

/-- The macro `CHECK_LT_F(a, b, ...)`: `CHECK_OP_F(a, b, < , ##__VA_ARGS__)`.  The
operands are handed on to `CHECK_OP_F`, whose `#expr_left` and `#expr_right` are
therefore the texts of the macro-replaced operands. -/
def CHECK_LT_F (I : Implementation) (a b : Expr CValue) (a_text b_text : MacroArg String)
    (file : String) (line : Nat) (va_args : Option (Expr VaArgs)) (w : World) :
    CheckOutcome :=
  CHECK_OP_F I a b a_text.handed_on.spelling b_text.handed_on.spelling .LT file line va_args w

/-- The macro `CHECK_GT_F(a, b, ...)`: `CHECK_OP_F(a, b, > , ##__VA_ARGS__)`.  The
operands are handed on to `CHECK_OP_F`, whose `#expr_left` and `#expr_right` are
therefore the texts of the macro-replaced operands. -/
def CHECK_GT_F (I : Implementation) (a b : Expr CValue) (a_text b_text : MacroArg String)
    (file : String) (line : Nat) (va_args : Option (Expr VaArgs)) (w : World) :
    CheckOutcome :=
  CHECK_OP_F I a b a_text.handed_on.spelling b_text.handed_on.spelling .GT file line va_args w

/-- The macro `CHECK_LE_F(a, b, ...)`: `CHECK_OP_F(a, b, <=, ##__VA_ARGS__)`.  The
operands are handed on to `CHECK_OP_F`, whose `#expr_left` and `#expr_right` are
therefore the texts of the macro-replaced operands. -/
def CHECK_LE_F (I : Implementation) (a b : Expr CValue) (a_text b_text : MacroArg String)
    (file : String) (line : Nat) (va_args : Option (Expr VaArgs)) (w : World) :
    CheckOutcome :=
  CHECK_OP_F I a b a_text.handed_on.spelling b_text.handed_on.spelling .LE file line va_args w

/-- The macro `CHECK_GE_F(a, b, ...)`: `CHECK_OP_F(a, b, >=, ##__VA_ARGS__)`.  The
operands are handed on to `CHECK_OP_F`, whose `#expr_left` and `#expr_right` are
therefore the texts of the macro-replaced operands. -/
def CHECK_GE_F (I : Implementation) (a b : Expr CValue) (a_text b_text : MacroArg String)
    (file : String) (line : Nat) (va_args : Option (Expr VaArgs)) (w : World) :
    CheckOutcome :=
  CHECK_OP_F I a b a_text.handed_on.spelling b_text.handed_on.spelling .GE file line va_args w

/-! ## Conditional logging and the stream macros (loguru.hpp:831-837, 990-1134) -/

/-- The macro `VLOG_IF_F(verbosity, cond, ...)`:
`((verbosity) > current_verbosity_cutoff() || (cond) == false) ? (void)0 : log(verbosity, __FILE__, __LINE__, __VA_ARGS__)`.
The operator `||` evaluates `cond` only if the first comparison is false. -/
def VLOG_IF_F (F : Formatter) (verbosity : Expr Verbosity) (cond : Expr Bool) (file : String)
    (line : Nat) (va_args : Expr VaArgs) (w : World) : World :=
  let (v, w1) := verbosity w
  if v > current_verbosity_cutoff w1 then w1
  else
    let (c, w2) := cond w1
    if c == false then w2
    else
      let (v2, w3) := verbosity w2
      let (a, w4) := va_args w3
      log F v2 file line a.format a.args w4

/-- The macro `LOG_IF_F(verbosity_name, cond, ...)`:
`VLOG_IF_F(aer::log::Verbosity_ ## verbosity_name, cond, __VA_ARGS__)`. -/
def LOG_IF_F (F : Formatter) (verbosity_name : NamedVerbosity) (cond : Expr Bool)
    (file : String) (line : Nat) (va_args : Expr VaArgs) (w : World) : World :=
  VLOG_IF_F F (Expr.value (Verbosity_ verbosity_name)) cond file line va_args w

/-- The data members of `class StreamLogger`; `_ss` is the text streamed into the
`std::ostringstream` so far. -/
structure StreamLogger where
  _verbosity : Verbosity
  _file : String
  _line : Nat
  _ss : String
deriving DecidableEq, Repr

/-- The constructor `StreamLogger(verbosity, file, line)` (loguru.hpp:993). -/
def StreamLogger.construct (verbosity : Verbosity) (file : String) (line : Nat) :
    StreamLogger :=
  { _verbosity := verbosity, _file := file, _line := line, _ss := "" }

/-- The member `operator<<` of `StreamLogger`: `_ss << t; return *this;`, with `t`
given by the text the stream writes for it. -/
def StreamLogger.shl (logger : StreamLogger) (t : String) : StreamLogger :=
  { logger with _ss := logger._ss ++ t }

/-- The macro `VLOG_IF_S(verbosity, cond)` together with the operands streamed
into it, `VLOG_IF_S(verbosity, cond) << t1 << t2 ...`:
`((verbosity) > current_verbosity_cutoff() || (cond) == false) ? (void)0 : Voidify() & StreamLogger(verbosity, __FILE__, __LINE__)`.
Since `<<` binds tighter than `&`, which binds tighter than `?:`, the operands
belong to the last branch.  The result is the `StreamLogger` constructed, if any,
as it is when the full expression ends, and the state then; the destructor of
the logger, which is defined outside the header, is not part of the model. -/
def VLOG_IF_S (verbosity : Expr Verbosity) (cond : Expr Bool) (file : String) (line : Nat)
    (operands : Expr (List String)) (w : World) : Option StreamLogger × World :=
  let (v, w1) := verbosity w
  if v > current_verbosity_cutoff w1 then (none, w1)
  else
    let (c, w2) := cond w1
    if c == false then (none, w2)
    else
      let (v2, w3) := verbosity w2
      let (ts, w4) := operands w3
      (some (ts.foldl StreamLogger.shl (StreamLogger.construct v2 file line)), w4)

/-- The macro `LOG_IF_S(verbosity_name, cond)`:
`VLOG_IF_S(aer::log::Verbosity_ ## verbosity_name, cond)`. -/
def LOG_IF_S (verbosity_name : NamedVerbosity) (cond : Expr Bool) (file : String) (line : Nat)
    (operands : Expr (List String)) (w : World) : Option StreamLogger × World :=
  VLOG_IF_S (Expr.value (Verbosity_ verbosity_name)) cond file line operands w

/-- The data members of `class AbortLogger`. -/
structure AbortLogger where
  _expr : String
  _file : String
  _line : Nat
  _ss : String
deriving DecidableEq, Repr

/-- The constructor `AbortLogger(expr, file, line)` (loguru.hpp:1020). -/
def AbortLogger.construct (expr : String) (file : String) (line : Nat) : AbortLogger :=
  { _expr := expr, _file := file, _line := line, _ss := "" }

/-- The function template that `DEFINE_CHECK_OP_IMPL(name, op)` defines
(loguru.hpp:1056-1064): `holds v1 v2` is the value of `v1 op v2` for the operand
types, `put1` and `put2` are the texts `<<` writes for the operands.  The result
is `none` for `NULL` and otherwise the string the returned pointer points to. -/
def DEFINE_CHECK_OP_IMPL {T1 T2 : Type} (holds : T1 → T2 → Bool) (put1 : T1 → String)
    (put2 : T2 → String) (expr : String) (v1 : T1) (op_str : String) (v2 : T2) :
    Option String :=
  if holds v1 v2 then none
  else
    some ("CHECK FAILED:  " ++ expr ++ "  (" ++ put1 v1 ++ " " ++ op_str ++ " " ++ put2 v2 ++ ")  ")

/-- `DEFINE_CHECK_OP_IMPL(check_EQ_impl, ==)` for `int` operands. -/
def check_EQ_impl (expr : String) (v1 : Int) (op_str : String) (v2 : Int) : Option String :=
  DEFINE_CHECK_OP_IMPL (fun a b : Int => decide (a = b)) toString toString expr v1 op_str v2

/-- `DEFINE_CHECK_OP_IMPL(check_NE_impl, !=)` for `int` operands. -/
def check_NE_impl (expr : String) (v1 : Int) (op_str : String) (v2 : Int) : Option String :=
  DEFINE_CHECK_OP_IMPL (fun a b : Int => decide (a ≠ b)) toString toString expr v1 op_str v2

/-- `DEFINE_CHECK_OP_IMPL(check_LE_impl, <=)` for `int` operands. -/
def check_LE_impl (expr : String) (v1 : Int) (op_str : String) (v2 : Int) : Option String :=
  DEFINE_CHECK_OP_IMPL (fun a b : Int => decide (a ≤ b)) toString toString expr v1 op_str v2

/-- `DEFINE_CHECK_OP_IMPL(check_LT_impl, < )` for `int` operands. -/
def check_LT_impl (expr : String) (v1 : Int) (op_str : String) (v2 : Int) : Option String :=
  DEFINE_CHECK_OP_IMPL (fun a b : Int => decide (a < b)) toString toString expr v1 op_str v2

/-- `DEFINE_CHECK_OP_IMPL(check_GE_impl, >=)` for `int` operands. -/
def check_GE_impl (expr : String) (v1 : Int) (op_str : String) (v2 : Int) : Option String :=
  DEFINE_CHECK_OP_IMPL (fun a b : Int => decide (a ≥ b)) toString toString expr v1 op_str v2

/-- `DEFINE_CHECK_OP_IMPL(check_GT_impl, > )` for `int` operands. -/
def check_GT_impl (expr : String) (v1 : Int) (op_str : String) (v2 : Int) : Option String :=
  DEFINE_CHECK_OP_IMPL (fun a b : Int => decide (a > b)) toString toString expr v1 op_str v2

/-- The overload `inline int referenceable_value(int t) { return t; }`
(loguru.hpp:1087). -/
def referenceable_value (t : Int) : Int := t

/-- The macro `CHECK_OP_S(function_name, expr1, op, expr2)` (loguru.hpp:1123-1127):
`while (auto error_string = function_name(#expr1 " " #op " " #expr2, referenceable_value(expr1), #op, referenceable_value(expr2))) AbortLogger(error_string->c_str(), __FILE__, __LINE__)`.
The destructor of `AbortLogger` does not return, so the body runs at most once.
The result is the `AbortLogger` constructed, if any, and the state after the
evaluation of the operands. -/
def CHECK_OP_S (function_name : String → Int → String → Int → Option String)
    (expr1 expr2 : Expr Int) (expr1_text op_text expr2_text : String) (file : String)
    (line : Nat) (w : World) : Option AbortLogger × World :=
  let (v1, w1) := expr1 w
  let (v2, w2) := expr2 w1
  match function_name (expr1_text ++ " " ++ op_text ++ " " ++ expr2_text)
      (referenceable_value v1) op_text (referenceable_value v2) with
  | none => (none, w2)
  | some error_string => (some (AbortLogger.construct error_string file line), w2)

/-- The macro `CHECK_EQ_S(expr1, expr2)`: `CHECK_OP_S(check_EQ_impl, expr1, ==, expr2)`.
The operands are handed on to `CHECK_OP_S`, whose `#expr1` and `#expr2` are
therefore the texts of the macro-replaced operands. -/
def CHECK_EQ_S (expr1 expr2 : Expr Int) (expr1_text expr2_text : MacroArg String)
    (file : String) (line : Nat) (w : World) : Option AbortLogger × World :=
  CHECK_OP_S check_EQ_impl expr1 expr2 expr1_text.handed_on.spelling "=="
    expr2_text.handed_on.spelling file line w

/-- The macro `CHECK_NE_S(expr1, expr2)`: `CHECK_OP_S(check_NE_impl, expr1, !=, expr2)`.
The operands are handed on to `CHECK_OP_S`, whose `#expr1` and `#expr2` are
therefore the texts of the macro-replaced operands. -/
def CHECK_NE_S (expr1 expr2 : Expr Int) (expr1_text expr2_text : MacroArg String)
    (file : String) (line : Nat) (w : World) : Option AbortLogger × World :=
  CHECK_OP_S check_NE_impl expr1 expr2 expr1_text.handed_on.spelling "!="
    expr2_text.handed_on.spelling file line w

/-- The macro `CHECK_LE_S(expr1, expr2)`: `CHECK_OP_S(check_LE_impl, expr1, <=, expr2)`.
The operands are handed on to `CHECK_OP_S`, whose `#expr1` and `#expr2` are
therefore the texts of the macro-replaced operands. -/
def CHECK_LE_S (expr1 expr2 : Expr Int) (expr1_text expr2_text : MacroArg String)
    (file : String) (line : Nat) (w : World) : Option AbortLogger × World :=
  CHECK_OP_S check_LE_impl expr1 expr2 expr1_text.handed_on.spelling "<="
    expr2_text.handed_on.spelling file line w

/-- The macro `CHECK_LT_S(expr1, expr2)`: `CHECK_OP_S(check_LT_impl, expr1, < , expr2)`.
The operands are handed on to `CHECK_OP_S`, whose `#expr1` and `#expr2` are
therefore the texts of the macro-replaced operands. -/
def CHECK_LT_S (expr1 expr2 : Expr Int) (expr1_text expr2_text : MacroArg String)
    (file : String) (line : Nat) (w : World) : Option AbortLogger × World :=
  CHECK_OP_S check_LT_impl expr1 expr2 expr1_text.handed_on.spelling "<"
    expr2_text.handed_on.spelling file line w

/-- The macro `CHECK_GE_S(expr1, expr2)`: `CHECK_OP_S(check_GE_impl, expr1, >=, expr2)`.
The operands are handed on to `CHECK_OP_S`, whose `#expr1` and `#expr2` are
therefore the texts of the macro-replaced operands. -/
def CHECK_GE_S (expr1 expr2 : Expr Int) (expr1_text expr2_text : MacroArg String)
    (file : String) (line : Nat) (w : World) : Option AbortLogger × World :=
  CHECK_OP_S check_GE_impl expr1 expr2 expr1_text.handed_on.spelling ">="
    expr2_text.handed_on.spelling file line w

/-- The macro `CHECK_GT_S(expr1, expr2)`: `CHECK_OP_S(check_GT_impl, expr1, > , expr2)`.
The operands are handed on to `CHECK_OP_S`, whose `#expr1` and `#expr2` are
therefore the texts of the macro-replaced operands. -/
def CHECK_GT_S (expr1 expr2 : Expr Int) (expr1_text expr2_text : MacroArg String)
    (file : String) (line : Nat) (w : World) : Option AbortLogger × World :=
  CHECK_OP_S check_GT_impl expr1 expr2 expr1_text.handed_on.spelling ">"
    expr2_text.handed_on.spelling file line w

/-- A concrete test with a visible side effect: it is false and raises
`indent_depth` by one each time it is evaluated. -/
def sample_test : Expr Bool :=
  fun w => (false, { w with indent_depth := w.indent_depth + 1 })

/-- The string that the helpers defined by `DEFINE_CHECK_OP_IMPL` return for a
failed comparison, given the texts `p1` and `p2` that `<<` writes for the two
operands. -/
def check_failed_string (expr p1 op_str p2 : String) : String :=
  "CHECK FAILED:  " ++ expr ++ "  (" ++ p1 ++ " " ++ op_str ++ " " ++ p2 ++ ")  "

/-- An operand of a type without a `format_value` specialisation (a `bool`, say)
that holds the given number. -/
def other_operand (value : Int) : Expr CValue := Expr.value { type := .other, value := value }

/-- An operand of type `int` that holds the given number. -/
def int_operand (value : Int) : Expr CValue := Expr.value { type := .int, value := value }

/-- An operand of type `unsigned int` that holds the given number. -/
def unsigned_operand (value : Int) : Expr CValue :=
  Expr.value { type := .unsigned_int, value := value }

/-- A concrete implementation with `int` and `unsigned int` of 32 bits.  Two
operands of one type are compared as the numbers they hold; if one operand is an
`int` and the other an `unsigned int`, the `int` is converted to `unsigned int`,
that is reduced modulo 2^32, before the comparison; operands of two other
different types are not among the samples and are compared as the numbers they
hold.  The text for a format string outside `printf_chars` is a fixed one. -/
def sample_implementation : Implementation :=
  { compare := fun op a b =>
      if a.type = .int ∧ b.type = .unsigned_int then op.holds (a.value % 2 ^ 32) b.value
      else if a.type = .unsigned_int ∧ b.type = .int then op.holds a.value (b.value % 2 ^ 32)
      else op.holds a.value b.value,
    textprintf_other := fun _ _ => { _str := some "?" } }

/-! ## The debug macros (loguru.hpp:894-955, 1115-1121, 1136-1174) -/

/-- The expression `a || b`: `b` is evaluated only if `a` is false. -/
def Expr.lor (a b : Expr Bool) : Expr Bool :=
  fun w =>
    let (x, w1) := a w
    if x then (true, w1) else b w1

/-- The expression `(a) op (b)` on two `int` operands, `holds` being the
comparison `op`. -/
def Expr.compare (holds : Int → Int → Bool) (a b : Expr Int) : Expr Bool :=
  fun w =>
    let (x, w1) := a w
    let (y, w2) := b w1
    (holds x y, w2)

/-- The expression `(x) != nullptr` on a pointer, `none` being the null pointer. -/
def Expr.not_null (x : Expr (Option Nat)) : Expr Bool :=
  fun w => ((x w).1 != none, (x w).2)

/-- The macro `CHECK_WITH_INFO_S(cond, info)`:
`LOG_PREDICT_TRUE((cond) == true) ? (void)0 : Voidify() & AbortLogger("CHECK FAILED:  " info "  ", __FILE__, __LINE__)`.
The result is the `AbortLogger` constructed, if any, and the state after the
evaluation of the condition. -/
def CHECK_WITH_INFO_S (cond : Expr Bool) (info : String) (file : String) (line : Nat)
    (w : World) : Option AbortLogger × World :=
  let (c, w1) := cond w
  if c == true then (none, w1)
  else (some (AbortLogger.construct ("CHECK FAILED:  " ++ info ++ "  ") file line), w1)

/-- The macro `CHECK_S(cond)`: `CHECK_WITH_INFO_S(cond, #cond)`. -/
def CHECK_S (cond : Expr Bool) (cond_text : String) (file : String) (line : Nat) (w : World) :
    Option AbortLogger × World :=
  CHECK_WITH_INFO_S cond cond_text file line w

/-- The macro `CHECK_NOTNULL_S(x)`: `CHECK_WITH_INFO_S((x) != nullptr, #x " != nullptr")`. -/
def CHECK_NOTNULL_S (x : Expr (Option Nat)) (x_text : String) (file : String) (line : Nat)
    (w : World) : Option AbortLogger × World :=
  CHECK_WITH_INFO_S (Expr.not_null x) (x_text ++ " != nullptr") file line w

/-- The macro `DCHECK_S(cond)`: `CHECK_S(cond)` with debug checks enabled,
`CHECK_S(true || (cond))` with debug checks disabled.  Either way the operand is
handed on to `CHECK_S`, whose `#cond` is therefore the text of the macro-replaced
operand. -/
def DCHECK_S (LOG_DEBUG_CHECKS : Bool) (cond : Expr Bool) (cond_text : MacroArg String)
    (file : String) (line : Nat) (w : World) : Option AbortLogger × World :=
  if LOG_DEBUG_CHECKS then CHECK_S cond cond_text.handed_on.spelling file line w
  else
    CHECK_S (Expr.lor (Expr.value true) cond)
      ("true || (" ++ cond_text.handed_on.spelling ++ ")") file line w

/-- The macro `DCHECK_NOTNULL_S(x)`: `CHECK_NOTNULL_S(x)` with debug checks enabled,
`CHECK_S(true || (x) != nullptr)` with debug checks disabled. -/
def DCHECK_NOTNULL_S (LOG_DEBUG_CHECKS : Bool) (x : Expr (Option Nat)) (x_text : MacroArg String)
    (file : String) (line : Nat) (w : World) : Option AbortLogger × World :=
  if LOG_DEBUG_CHECKS then CHECK_NOTNULL_S x x_text.handed_on.spelling file line w
  else
    CHECK_S (Expr.lor (Expr.value true) (Expr.not_null x))
      ("true || (" ++ x_text.handed_on.spelling ++ ") != nullptr") file line w

/-- The macro `DCHECK_EQ_S(a, b)`: `CHECK_EQ_S(a, b)` with debug checks enabled,
`CHECK_S(true || (a) == (b))` with debug checks disabled. -/
def DCHECK_EQ_S (LOG_DEBUG_CHECKS : Bool) (a b : Expr Int) (a_text b_text : MacroArg String)
    (file : String) (line : Nat) (w : World) : Option AbortLogger × World :=
  if LOG_DEBUG_CHECKS then CHECK_EQ_S a b a_text.handed_on b_text.handed_on file line w
  else
    CHECK_S (Expr.lor (Expr.value true) (Expr.compare (fun x y => decide (x = y)) a b))
      ("true || (" ++ a_text.handed_on.spelling ++ ") == (" ++ b_text.handed_on.spelling ++ ")")
      file line w

/-- The macro `DCHECK_NE_S(a, b)`: `CHECK_NE_S(a, b)` with debug checks enabled,
`CHECK_S(true || (a) != (b))` with debug checks disabled. -/
def DCHECK_NE_S (LOG_DEBUG_CHECKS : Bool) (a b : Expr Int) (a_text b_text : MacroArg String)
    (file : String) (line : Nat) (w : World) : Option AbortLogger × World :=
  if LOG_DEBUG_CHECKS then CHECK_NE_S a b a_text.handed_on b_text.handed_on file line w
  else
    CHECK_S (Expr.lor (Expr.value true) (Expr.compare (fun x y => decide (x ≠ y)) a b))
      ("true || (" ++ a_text.handed_on.spelling ++ ") != (" ++ b_text.handed_on.spelling ++ ")")
      file line w

/-- The macro `DCHECK_LT_S(a, b)`: `CHECK_LT_S(a, b)` with debug checks enabled,
`CHECK_S(true || (a) <  (b))` with debug checks disabled. -/
def DCHECK_LT_S (LOG_DEBUG_CHECKS : Bool) (a b : Expr Int) (a_text b_text : MacroArg String)
    (file : String) (line : Nat) (w : World) : Option AbortLogger × World :=
  if LOG_DEBUG_CHECKS then CHECK_LT_S a b a_text.handed_on b_text.handed_on file line w
  else
    CHECK_S (Expr.lor (Expr.value true) (Expr.compare (fun x y => decide (x < y)) a b))
      ("true || (" ++ a_text.handed_on.spelling ++ ") < (" ++ b_text.handed_on.spelling ++ ")")
      file line w

/-- The macro `DCHECK_LE_S(a, b)`: `CHECK_LE_S(a, b)` with debug checks enabled,
`CHECK_S(true || (a) <= (b))` with debug checks disabled. -/
def DCHECK_LE_S (LOG_DEBUG_CHECKS : Bool) (a b : Expr Int) (a_text b_text : MacroArg String)
    (file : String) (line : Nat) (w : World) : Option AbortLogger × World :=
  if LOG_DEBUG_CHECKS then CHECK_LE_S a b a_text.handed_on b_text.handed_on file line w
  else
    CHECK_S (Expr.lor (Expr.value true) (Expr.compare (fun x y => decide (x ≤ y)) a b))
      ("true || (" ++ a_text.handed_on.spelling ++ ") <= (" ++ b_text.handed_on.spelling ++ ")")
      file line w

/-- The macro `DCHECK_GT_S(a, b)`: `CHECK_GT_S(a, b)` with debug checks enabled,
`CHECK_S(true || (a) >  (b))` with debug checks disabled. -/
def DCHECK_GT_S (LOG_DEBUG_CHECKS : Bool) (a b : Expr Int) (a_text b_text : MacroArg String)
    (file : String) (line : Nat) (w : World) : Option AbortLogger × World :=
  if LOG_DEBUG_CHECKS then CHECK_GT_S a b a_text.handed_on b_text.handed_on file line w
  else
    CHECK_S (Expr.lor (Expr.value true) (Expr.compare (fun x y => decide (x > y)) a b))
      ("true || (" ++ a_text.handed_on.spelling ++ ") > (" ++ b_text.handed_on.spelling ++ ")")
      file line w

/-- The macro `DCHECK_GE_S(a, b)`: `CHECK_GE_S(a, b)` with debug checks enabled,
`CHECK_S(true || (a) >= (b))` with debug checks disabled. -/
def DCHECK_GE_S (LOG_DEBUG_CHECKS : Bool) (a b : Expr Int) (a_text b_text : MacroArg String)
    (file : String) (line : Nat) (w : World) : Option AbortLogger × World :=
  if LOG_DEBUG_CHECKS then CHECK_GE_S a b a_text.handed_on b_text.handed_on file line w
  else
    CHECK_S (Expr.lor (Expr.value true) (Expr.compare (fun x y => decide (x ≥ y)) a b))
      ("true || (" ++ a_text.handed_on.spelling ++ ") >= (" ++ b_text.handed_on.spelling ++ ")")
      file line w

/-- The macro `DCHECK_F(test, ...)`: `CHECK_F(test, ##__VA_ARGS__)` with debug checks
enabled, nothing with debug checks disabled.  The operand is handed on to
`CHECK_F`, whose `#test` is therefore the text of the macro-replaced operand. -/
def DCHECK_F (LOG_DEBUG_CHECKS : Bool) (test : Expr Bool) (test_text : MacroArg String)
    (file : String) (line : Nat) (va_args : Option (Expr VaArgs)) (w : World) : CheckOutcome :=
  if LOG_DEBUG_CHECKS then CHECK_F test test_text.handed_on.spelling file line va_args w
  else .passed w

/-- The macro `DCHECK_NOTNULL_F(x, ...)`: `CHECK_NOTNULL_F(x, ##__VA_ARGS__)` with debug
checks enabled, nothing with debug checks disabled.  The operand is handed on to
`CHECK_NOTNULL_F`, whose `#x` is therefore the text of the macro-replaced
operand. -/
def DCHECK_NOTNULL_F (LOG_DEBUG_CHECKS : Bool) (x : Expr (Option Nat)) (x_text : MacroArg String)
    (file : String) (line : Nat) (va_args : Option (Expr VaArgs)) (w : World) : CheckOutcome :=
  if LOG_DEBUG_CHECKS then CHECK_NOTNULL_F x x_text.handed_on.spelling file line va_args w
  else .passed w

/-- The macro `DCHECK_EQ_F(a, b, ...)`: `CHECK_EQ_F(a, b, ##__VA_ARGS__)` with debug checks
enabled, nothing with debug checks disabled. -/
def DCHECK_EQ_F (LOG_DEBUG_CHECKS : Bool) (I : Implementation) (a b : Expr CValue)
    (a_text b_text : MacroArg String) (file : String) (line : Nat)
    (va_args : Option (Expr VaArgs)) (w : World) : CheckOutcome :=
  if LOG_DEBUG_CHECKS then CHECK_EQ_F I a b a_text.handed_on b_text.handed_on file line va_args w
  else .passed w

/-- The macro `DCHECK_NE_F(a, b, ...)`: `CHECK_NE_F(a, b, ##__VA_ARGS__)` with debug checks
enabled, nothing with debug checks disabled. -/
def DCHECK_NE_F (LOG_DEBUG_CHECKS : Bool) (I : Implementation) (a b : Expr CValue)
    (a_text b_text : MacroArg String) (file : String) (line : Nat)
    (va_args : Option (Expr VaArgs)) (w : World) : CheckOutcome :=
  if LOG_DEBUG_CHECKS then CHECK_NE_F I a b a_text.handed_on b_text.handed_on file line va_args w
  else .passed w

/-- The macro `DCHECK_LT_F(a, b, ...)`: `CHECK_LT_F(a, b, ##__VA_ARGS__)` with debug checks
enabled, nothing with debug checks disabled. -/
def DCHECK_LT_F (LOG_DEBUG_CHECKS : Bool) (I : Implementation) (a b : Expr CValue)
    (a_text b_text : MacroArg String) (file : String) (line : Nat)
    (va_args : Option (Expr VaArgs)) (w : World) : CheckOutcome :=
  if LOG_DEBUG_CHECKS then CHECK_LT_F I a b a_text.handed_on b_text.handed_on file line va_args w
  else .passed w

/-- The macro `DCHECK_LE_F(a, b, ...)`: `CHECK_LE_F(a, b, ##__VA_ARGS__)` with debug checks
enabled, nothing with debug checks disabled. -/
def DCHECK_LE_F (LOG_DEBUG_CHECKS : Bool) (I : Implementation) (a b : Expr CValue)
    (a_text b_text : MacroArg String) (file : String) (line : Nat)
    (va_args : Option (Expr VaArgs)) (w : World) : CheckOutcome :=
  if LOG_DEBUG_CHECKS then CHECK_LE_F I a b a_text.handed_on b_text.handed_on file line va_args w
  else .passed w

/-- The macro `DCHECK_GT_F(a, b, ...)`: `CHECK_GT_F(a, b, ##__VA_ARGS__)` with debug checks
enabled, nothing with debug checks disabled. -/
def DCHECK_GT_F (LOG_DEBUG_CHECKS : Bool) (I : Implementation) (a b : Expr CValue)
    (a_text b_text : MacroArg String) (file : String) (line : Nat)
    (va_args : Option (Expr VaArgs)) (w : World) : CheckOutcome :=
  if LOG_DEBUG_CHECKS then CHECK_GT_F I a b a_text.handed_on b_text.handed_on file line va_args w
  else .passed w

/-- The macro `DCHECK_GE_F(a, b, ...)`: `CHECK_GE_F(a, b, ##__VA_ARGS__)` with debug checks
enabled, nothing with debug checks disabled. -/
def DCHECK_GE_F (LOG_DEBUG_CHECKS : Bool) (I : Implementation) (a b : Expr CValue)
    (a_text b_text : MacroArg String) (file : String) (line : Nat)
    (va_args : Option (Expr VaArgs)) (w : World) : CheckOutcome :=
  if LOG_DEBUG_CHECKS then CHECK_GE_F I a b a_text.handed_on b_text.handed_on file line va_args w
  else .passed w

/-- The macro `DLOG_F(verbosity_name, ...)`: `LOG_F(verbosity_name, __VA_ARGS__)` with
debug logging enabled, nothing with debug logging disabled.  The name is handed
on to `LOG_F`, which therefore pastes the macro-replaced name to `Verbosity_`. -/
def DLOG_F (LOG_DEBUG_LOGGING : Bool) (F : Formatter)
    (verbosity_name : MacroArg NamedVerbosity) (file : String) (line : Nat)
    (va_args : Expr VaArgs) (w : World) : World :=
  if LOG_DEBUG_LOGGING then LOG_F F verbosity_name.handed_on.spelling file line va_args w
  else w

/-- The macro `DVLOG_F(verbosity, ...)`: `VLOG_F(verbosity, __VA_ARGS__)` with debug
logging enabled, nothing with debug logging disabled. -/
def DVLOG_F (LOG_DEBUG_LOGGING : Bool) (F : Formatter) (verbosity : Expr Verbosity)
    (file : String) (line : Nat) (va_args : Expr VaArgs) (w : World) : World :=
  if LOG_DEBUG_LOGGING then VLOG_F F verbosity file line va_args w else w

/-- The macro `DLOG_IF_F(verbosity_name, ...)`: `LOG_IF_F(verbosity_name, __VA_ARGS__)`
with debug logging enabled, nothing with debug logging disabled. -/
def DLOG_IF_F (LOG_DEBUG_LOGGING : Bool) (F : Formatter)
    (verbosity_name : MacroArg NamedVerbosity) (cond : Expr Bool) (file : String) (line : Nat)
    (va_args : Expr VaArgs) (w : World) : World :=
  if LOG_DEBUG_LOGGING then
    LOG_IF_F F verbosity_name.handed_on.spelling cond file line va_args w
  else w

/-- The macro `DVLOG_IF_F(verbosity, ...)`: `VLOG_IF_F(verbosity, __VA_ARGS__)` with debug
logging enabled, nothing with debug logging disabled. -/
def DVLOG_IF_F (LOG_DEBUG_LOGGING : Bool) (F : Formatter) (verbosity : Expr Verbosity)
    (cond : Expr Bool) (file : String) (line : Nat) (va_args : Expr VaArgs) (w : World) :
    World :=
  if LOG_DEBUG_LOGGING then VLOG_IF_F F verbosity cond file line va_args w else w

/-- The macro `DRAW_LOG_F(verbosity_name, ...)`: `RAW_LOG_F(verbosity_name, __VA_ARGS__)`
with debug logging enabled, nothing with debug logging disabled. -/
def DRAW_LOG_F (LOG_DEBUG_LOGGING : Bool) (F : Formatter)
    (verbosity_name : MacroArg NamedVerbosity) (file : String) (line : Nat)
    (va_args : Expr VaArgs) (w : World) : World :=
  if LOG_DEBUG_LOGGING then RAW_LOG_F F verbosity_name.handed_on.spelling file line va_args w
  else w

/-- The macro `DRAW_VLOG_F(verbosity, ...)`: `RAW_VLOG_F(verbosity, __VA_ARGS__)` with
debug logging enabled, nothing with debug logging disabled. -/
def DRAW_VLOG_F (LOG_DEBUG_LOGGING : Bool) (F : Formatter) (verbosity : Expr Verbosity)
    (file : String) (line : Nat) (va_args : Expr VaArgs) (w : World) : World :=
  if LOG_DEBUG_LOGGING then RAW_VLOG_F F verbosity file line va_args w else w

/-- The macro `VLOG_S(verbosity)`: `VLOG_IF_S(verbosity, true)`. -/
def VLOG_S (verbosity : Expr Verbosity) (file : String) (line : Nat)
    (operands : Expr (List String)) (w : World) : Option StreamLogger × World :=
  VLOG_IF_S verbosity (Expr.value true) file line operands w

/-- The macro `LOG_S(verbosity_name)`: `VLOG_S(aer::log::Verbosity_ ## verbosity_name)`. -/
def LOG_S (verbosity_name : NamedVerbosity) (file : String) (line : Nat)
    (operands : Expr (List String)) (w : World) : Option StreamLogger × World :=
  VLOG_S (Expr.value (Verbosity_ verbosity_name)) file line operands w

/-- The expression `(verbosity) > current_verbosity_cutoff() || (cond) == false` of the
stream macros. -/
def gate_closed (verbosity : Expr Verbosity) (cond : Expr Bool) : Expr Bool :=
  fun w =>
    let (v, w1) := verbosity w
    if v > current_verbosity_cutoff w1 then (true, w1)
    else
      let (c, w2) := cond w1
      (c == false, w2)

/-- The macro `DVLOG_IF_S(verbosity, cond)` with the operands streamed into it:
`VLOG_IF_S(verbosity, cond)` with debug logging enabled, and with debug logging
disabled
`(true || (verbosity) > current_verbosity_cutoff() || (cond) == false) ? (void)0 : Voidify() & StreamLogger(verbosity, __FILE__, __LINE__)`. -/
def DVLOG_IF_S (LOG_DEBUG_LOGGING : Bool) (verbosity : Expr Verbosity) (cond : Expr Bool)
    (file : String) (line : Nat) (operands : Expr (List String)) (w : World) :
    Option StreamLogger × World :=
  if LOG_DEBUG_LOGGING then VLOG_IF_S verbosity cond file line operands w
  else
    let (closed, w1) := Expr.lor (Expr.value true) (gate_closed verbosity cond) w
    if closed then (none, w1)
    else
      let (v2, w2) := verbosity w1
      let (ts, w3) := operands w2
      (some (ts.foldl StreamLogger.shl (StreamLogger.construct v2 file line)), w3)

/-- The macro `DLOG_IF_S(verbosity_name, cond)`: `LOG_IF_S(verbosity_name, cond)` with
debug logging enabled, where the name is handed on to `LOG_IF_S`;
`DVLOG_IF_S(aer::log::Verbosity_ ## verbosity_name, cond)` with debug logging
disabled, where the name is pasted as it is written. -/
def DLOG_IF_S (LOG_DEBUG_LOGGING : Bool) (verbosity_name : MacroArg NamedVerbosity)
    (cond : Expr Bool) (file : String) (line : Nat) (operands : Expr (List String))
    (w : World) : Option StreamLogger × World :=
  if LOG_DEBUG_LOGGING then LOG_IF_S verbosity_name.handed_on.spelling cond file line operands w
  else
    DVLOG_IF_S false (Expr.value (Verbosity_ verbosity_name.spelling)) cond file line operands w

/-- The macro `DVLOG_S(verbosity)`: `VLOG_S(verbosity)` with debug logging enabled,
`DVLOG_IF_S(verbosity, true)` with debug logging disabled. -/
def DVLOG_S (LOG_DEBUG_LOGGING : Bool) (verbosity : Expr Verbosity) (file : String)
    (line : Nat) (operands : Expr (List String)) (w : World) : Option StreamLogger × World :=
  if LOG_DEBUG_LOGGING then VLOG_S verbosity file line operands w
  else DVLOG_IF_S false verbosity (Expr.value true) file line operands w

/-- The macro `DLOG_S(verbosity_name)`: `LOG_S(verbosity_name)` with debug logging
enabled, where the name is handed on to `LOG_S`;
`DVLOG_S(aer::log::Verbosity_ ## verbosity_name)` with debug logging disabled,
where the name is pasted as it is written. -/
def DLOG_S (LOG_DEBUG_LOGGING : Bool) (verbosity_name : MacroArg NamedVerbosity)
    (file : String) (line : Nat) (operands : Expr (List String)) (w : World) :
    Option StreamLogger × World :=
  if LOG_DEBUG_LOGGING then LOG_S verbosity_name.handed_on.spelling file line operands w
  else DVLOG_S false (Expr.value (Verbosity_ verbosity_name.spelling)) file line operands w

/-- A concrete `int` operand with a visible side effect: it has the given value
and raises `indent_depth` by one each time it is evaluated. -/
def sample_operand (value : Int) : Expr Int :=
  fun w => (value, { w with indent_depth := w.indent_depth + 1 })

/-! ## Ownership of a `Text` (loguru.hpp:89-116) -/

/-- The constructor `explicit Text(char* owned_str) : _str(owned_str) {}`. -/
def TextOf.construct {P : Type} (owned_str : Option P) : TextOf P :=
  { _str := owned_str }

/-- The move constructor `Text(Text&& t)`: `_str = t._str; t._str = nullptr;`.  The
result is the new object and the object `t` afterwards. -/
def TextOf.move {P : Type} (t : TextOf P) : TextOf P × TextOf P :=
  let this : TextOf P := { _str := t._str }
  (this, { t with _str := none })

/-- The member function `empty()`: `return _str == nullptr || *_str == '\0';`.
`pointee p` is the C string stored where `p` points to; the first byte there is
the first character of the string, or the terminating NUL if there is none. -/
def TextOf.empty {P : Type} (pointee : P → String) (t : TextOf P) : Bool :=
  match t._str with
  | none => true
  | some p => (pointee p).data.headD (Char.ofNat 0) == Char.ofNat 0

/-- The member function `release()`:
`auto result = _str; _str = nullptr; return result;`.  The result is the
returned pointer and the object afterwards. -/
def TextOf.release {P : Type} (t : TextOf P) : Option P × TextOf P :=
  let result := t._str
  (result, { t with _str := none })

/-- What a program does with its `Text` objects, which are numbered in the order
of their construction: it move-constructs a new object from object `i`, or calls
`release()` on object `i`.  Copy construction and the assignments are deleted
(loguru.hpp:100-102). -/
inductive TextOp where
  | move (i : Nat)
  | release (i : Nat)
deriving DecidableEq, Repr

/-- The objects after one step; a step on an object that does not exist changes
nothing. -/
def text_step {P : Type} (op : TextOp) (objects : List (TextOf P)) : List (TextOf P) :=
  match op with
  | .move i =>
    match objects[i]? with
    | none => objects
    | some t => objects.set i t.move.2 ++ [t.move.1]
  | .release i =>
    match objects[i]? with
    | none => objects
    | some t => objects.set i t.release.2

/-- The objects after a sequence of steps. -/
def text_run {P : Type} (ops : List TextOp) (objects : List (TextOf P)) : List (TextOf P) :=
  ops.foldl (fun acc op => text_step op acc) objects

/-- The non-null pointers held by the objects, one entry for each object that
holds one: no two objects hold the same non-null pointer exactly when this list
has no duplicates. -/
def held_pointers {P : Type} (objects : List (TextOf P)) : List P :=
  objects.filterMap fun t => t._str

/-! ## Theorems -/

/-! ### Which effects a dispatch adds -/

theorem log_calls_append (a b : List Effect) :
    log_calls (a ++ b) = log_calls a ++ log_calls b := by
  simp [log_calls]

theorem log_calls_deliveries (c : Verbosity) (snapshot : List Callback) (m : Message) :
    log_calls (deliveries c snapshot m) = [] := by
  unfold log_calls
  rw [List.filter_eq_nil_iff]
  intro e he
  unfold deliveries at he
  rcases List.mem_append.1 he with h | h
  · split_ifs at h
    · rw [List.mem_singleton.1 h]; simp
    · simp at h
  · obtain ⟨s, _, hs⟩ := List.mem_filterMap.1 h
    split_ifs at hs
    rw [← Option.some.inj hs]; simp

theorem log_calls_flushes (snapshot : List Callback) : log_calls (flushes snapshot) = [] := by
  unfold log_calls
  rw [List.filter_eq_nil_iff]
  intro e he
  obtain ⟨s, _, hs⟩ := List.mem_filterMap.1 he
  cases hf : s.on_flush with
  | none => simp [hf] at hs
  | some h => simp [hf] at hs; rw [← hs]; simp

theorem dispatch_effects_eq (F : Formatter) (verbosity : Verbosity) (file : String)
    (line : Nat) (rendered_text : String) (raw : Bool) (w : World) :
    (dispatch F verbosity file line rendered_text raw w).effects
      = w.effects ++ dispatch_effects F verbosity file line rendered_text raw w := by
  unfold dispatch dispatch_effects
  by_cases h : verbosity > current_verbosity_cutoff w
  · simp [h]
  · cases hf : w.flush_due <;> simp [h, hf, List.append_assoc]

theorem log_calls_dispatch (F : Formatter) (verbosity : Verbosity) (file : String)
    (line : Nat) (rendered_text : String) (raw : Bool) (w : World) :
    log_calls (dispatch F verbosity file line rendered_text raw w).effects
      = log_calls w.effects := by
  rw [dispatch_effects_eq, log_calls_append]
  unfold dispatch_effects
  by_cases h : verbosity > current_verbosity_cutoff w
  · simp [h, log_calls]
  · cases hf : w.flush_due <;>
      simp [h, log_calls_append, log_calls_deliveries, log_calls_flushes]

theorem log_calls_log (F : Formatter) (v : Verbosity) (file : String) (line : Nat)
    (format : String) (args : List Arg) (w : World) :
    log_calls (log F v file line format args w).effects
      = log_calls w.effects ++ [Effect.log_called v file line format args] := by
  unfold log
  rw [log_calls_dispatch, log_calls_append]
  simp [log_calls]

theorem log_calls_raw_log (F : Formatter) (v : Verbosity) (file : String) (line : Nat)
    (format : String) (args : List Arg) (w : World) :
    log_calls (raw_log F v file line format args w).effects
      = log_calls w.effects ++ [Effect.raw_log_called v file line format args] := by
  unfold raw_log
  rw [log_calls_dispatch, log_calls_append]
  simp [log_calls]

/-! ### The gate of the logging macros -/

theorem VLOG_F_value (F : Formatter) (v : Verbosity) (file : String) (line : Nat)
    (va_args : Expr VaArgs) (w : World) :
    VLOG_F F (Expr.value v) file line va_args w
      = if v > current_verbosity_cutoff w then w
        else log F v file line (va_args w).1.format (va_args w).1.args (va_args w).2 := by
  simp [VLOG_F, Expr.value]

theorem RAW_VLOG_F_value (F : Formatter) (v : Verbosity) (file : String) (line : Nat)
    (va_args : Expr VaArgs) (w : World) :
    RAW_VLOG_F F (Expr.value v) file line va_args w
      = if v > current_verbosity_cutoff w then w
        else raw_log F v file line (va_args w).1.format (va_args w).1.args (va_args w).2 := by
  simp [RAW_VLOG_F, Expr.value]

/-- C1: for every verbosity `v` and every cutoff `c = current_verbosity_cutoff()`:
if `v <= c`, `VLOG_F(v, ...)` (and `LOG_F` for a name standing for `v`) is exactly
one call of `log` with `v`, the file and line of the call site and the evaluated
format arguments, and `RAW_VLOG_F` / `RAW_LOG_F` exactly one call of `raw_log`;
if `v > c` the macros leave the state as it was, so nothing is called and the
format arguments are not evaluated. -/
theorem gate_macros_call_log_once (F : Formatter) (v : Verbosity) (file : String)
    (line : Nat) (va_args : Expr VaArgs) (w : World) :
    (v ≤ current_verbosity_cutoff w →
      VLOG_F F (Expr.value v) file line va_args w
        = log F v file line (va_args w).1.format (va_args w).1.args (va_args w).2 ∧
      log_calls (VLOG_F F (Expr.value v) file line va_args w).effects
        = log_calls (va_args w).2.effects ++
            [Effect.log_called v file line (va_args w).1.format (va_args w).1.args] ∧
      RAW_VLOG_F F (Expr.value v) file line va_args w
        = raw_log F v file line (va_args w).1.format (va_args w).1.args (va_args w).2 ∧
      log_calls (RAW_VLOG_F F (Expr.value v) file line va_args w).effects
        = log_calls (va_args w).2.effects ++
            [Effect.raw_log_called v file line (va_args w).1.format (va_args w).1.args]) ∧
    (v > current_verbosity_cutoff w →
      VLOG_F F (Expr.value v) file line va_args w = w ∧
      RAW_VLOG_F F (Expr.value v) file line va_args w = w) ∧
    (∀ n : NamedVerbosity, Verbosity_ n = v →
      LOG_F F n file line va_args w = VLOG_F F (Expr.value v) file line va_args w ∧
      RAW_LOG_F F n file line va_args w = RAW_VLOG_F F (Expr.value v) file line va_args w) := by
  refine ⟨fun h => ?_, fun h => ?_, fun n hn => ?_⟩
  · have hn : ¬ v > current_verbosity_cutoff w := not_lt.2 h
    rw [VLOG_F_value, RAW_VLOG_F_value, if_neg hn, if_neg hn]
    exact ⟨rfl, log_calls_log _ _ _ _ _ _ _, rfl, log_calls_raw_log _ _ _ _ _ _ _⟩
  · rw [VLOG_F_value, RAW_VLOG_F_value, if_pos h, if_pos h]
    exact ⟨rfl, rfl⟩
  · subst hn
    exact ⟨rfl, rfl⟩

/-- Instance of C1 at cutoff 0: `VLOG_F(0, "x=%d", 1)` is one call of `log`, and
`VLOG_F(1, ...)` leaves the state untouched although evaluating its arguments
would change it. -/
theorem gate_macros_call_log_once_witness :
    log_calls (VLOG_F sample_formatter (Expr.value 0) "main.cpp" 7 sample_args
        (World.init 0)).effects
      = [Effect.log_called 0 "main.cpp" 7 "x=%d" [Arg.int 1]] ∧
    VLOG_F sample_formatter (Expr.value 1) "main.cpp" 7 sample_args (World.init 0)
      = World.init 0 ∧
    (sample_args (World.init 0)).2 ≠ World.init 0 :=
  ⟨((gate_macros_call_log_once sample_formatter 0 "main.cpp" 7 sample_args
      (World.init 0)).1 (by decide)).2.1,
   ((gate_macros_call_log_once sample_formatter 1 "main.cpp" 7 sample_args
      (World.init 0)).2.1 (by decide)).1,
   by decide⟩

/-! ### The registry invariant -/

theorem recompute_cutoff_fold (l : List Callback) (acc : Option Verbosity) (c : Verbosity) :
    (match l.foldl
        (fun acc s =>
          match acc with
          | none => some s.verbosity
          | some m => some (max m s.verbosity)) acc with
      | none => c
      | some m => max c m)
      = (l.map fun s => s.verbosity).foldl max
          (match acc with
            | none => c
            | some m => max c m) := by
  induction l generalizing acc with
  | nil => rfl
  | cons s l ih =>
    rw [List.foldl_cons, ih, List.map_cons, List.foldl_cons]
    cases acc with
    | none => rfl
    | some m => simp only [max_assoc]

theorem cutoff_of_consistent (w : World) (h : w.consistent) :
    current_verbosity_cutoff w
      = (w.sinks.map fun s => s.verbosity).foldl max w.g_stderr_verbosity := by
  unfold current_verbosity_cutoff
  rw [h.1]
  exact recompute_cutoff_fold w.sinks none w.g_stderr_verbosity

theorem init_consistent (c : Verbosity) : (World.init c).consistent :=
  ⟨rfl, List.nodup_nil⟩

theorem add_ok_consistent (s : Callback) (w w2 : World) (h : w.consistent)
    (hadd : SinkRegistry.add s w = .ok w2) : w2.consistent := by
  unfold SinkRegistry.add at hadd
  split_ifs at hadd with hany
  cases hadd
  refine ⟨rfl, ?_⟩
  simp only [List.map_append, List.map_cons, List.map_nil]
  refine List.Nodup.append h.2 (List.nodup_singleton _) ?_
  intro a ha hs
  rw [List.mem_singleton] at hs
  subst hs
  obtain ⟨c, hc, hid⟩ := List.mem_map.1 ha
  exact hany (List.any_eq_true.2 ⟨c, hc, by simpa using hid⟩)

theorem add_callback_consistent (id : String) (callback user_data : Nat) (verbosity : Verbosity)
    (on_close on_flush : Option Nat) (w : World) (h : w.consistent) :
    (add_callback id callback user_data verbosity on_close on_flush w).2.consistent := by
  unfold add_callback
  split
  · next w2 hadd => exact add_ok_consistent _ _ _ h hadd
  · exact h

theorem add_file_consistent (path : String) (mode : FileMode) (verbosity : Verbosity)
    (opened : FileMode → Option Nat) (w : World) (h : w.consistent) :
    (add_file path mode verbosity opened w).2.consistent := by
  unfold add_file
  split
  · exact h
  · split
    · next w2 hadd => exact add_ok_consistent _ _ _ h hadd
    · exact h

theorem remove_callback_consistent (id : String) (w : World) (h : w.consistent) :
    (remove_callback id w).2.consistent := by
  unfold remove_callback
  split
  · exact h
  · exact ⟨rfl, List.Nodup.sublist ((List.eraseP_sublist _).map _) h.2⟩

theorem remove_all_callbacks_consistent (w : World) : (remove_all_callbacks w).consistent :=
  ⟨rfl, List.nodup_nil⟩

theorem dispatch_registry (F : Formatter) (verbosity : Verbosity) (file : String)
    (line : Nat) (rendered_text : String) (raw : Bool) (w : World) :
    (dispatch F verbosity file line rendered_text raw w).sinks = w.sinks ∧
    (dispatch F verbosity file line rendered_text raw w).sink_cutoff = w.sink_cutoff ∧
    (dispatch F verbosity file line rendered_text raw w).g_stderr_verbosity
      = w.g_stderr_verbosity := by
  unfold dispatch
  by_cases h : verbosity > current_verbosity_cutoff w
  · simp [h]
  · cases hf : w.flush_due <;> simp [h, hf]

theorem dispatch_consistent (F : Formatter) (verbosity : Verbosity) (file : String)
    (line : Nat) (rendered_text : String) (raw : Bool) (w : World) (h : w.consistent) :
    (dispatch F verbosity file line rendered_text raw w).consistent := by
  obtain ⟨h1, h2, _⟩ := dispatch_registry F verbosity file line rendered_text raw w
  unfold World.consistent
  rw [h1, h2]
  exact h

theorem step_consistent (F : Formatter) (op : Op) (w : World) (h : w.consistent) :
    (step F op w).consistent := by
  cases op with
  | add_callback id callback user_data verbosity on_close on_flush =>
    exact add_callback_consistent _ _ _ _ _ _ _ h
  | add_file path mode verbosity opened => exact add_file_consistent _ _ _ _ _ h
  | remove_callback id => exact remove_callback_consistent _ _ h
  | remove_all_callbacks => exact remove_all_callbacks_consistent _
  | set_stderr_verbosity verbosity => exact h
  | log verbosity file line format args => exact dispatch_consistent _ _ _ _ _ _ _ h
  | raw_log verbosity file line format args => exact dispatch_consistent _ _ _ _ _ _ _ h
  | flush_interval_elapsed => exact h

theorem run_consistent (F : Formatter) (ops : List Op) (w : World) (h : w.consistent) :
    (run F ops w).consistent := by
  induction ops generalizing w with
  | nil => exact h
  | cons op ops ih => exact ih _ (step_consistent F op w h)

/-! ### Facts about the maximum and about sinks with unique ids -/

theorem le_foldl_max_init (l : List Verbosity) (c : Verbosity) : c ≤ l.foldl max c := by
  induction l generalizing c with
  | nil => exact le_refl c
  | cons a l ih => exact le_trans (le_max_left c a) (ih (max c a))

theorem le_foldl_max_of_mem (l : List Verbosity) (c x : Verbosity) (hx : x ∈ l) :
    x ≤ l.foldl max c := by
  induction l generalizing c with
  | nil => cases hx
  | cons a l ih =>
    rcases List.mem_cons.1 hx with h | h
    · subst h
      exact le_trans (le_max_right c x) (le_foldl_max_init l (max c x))
    · exact ih (max c a) h

theorem foldl_max_attained (l : List Verbosity) (c : Verbosity) :
    l.foldl max c = c ∨ l.foldl max c ∈ l := by
  induction l generalizing c with
  | nil => exact Or.inl rfl
  | cons a l ih =>
    rcases ih (max c a) with h | h
    · rcases max_choice c a with hc | ha
      · exact Or.inl (by rw [List.foldl_cons, h, hc])
      · exact Or.inr (by rw [List.foldl_cons, h, ha]; exact List.mem_cons_self _ _)
    · exact Or.inr (List.mem_cons_of_mem _ h)

theorem stderr_le_cutoff (w : World) : w.g_stderr_verbosity ≤ current_verbosity_cutoff w := by
  unfold current_verbosity_cutoff
  cases w.sink_cutoff with
  | none => exact le_refl _
  | some m => exact le_max_left _ _

theorem sink_le_cutoff (w : World) (h : w.consistent) (s : Callback) (hs : s ∈ w.sinks) :
    s.verbosity ≤ current_verbosity_cutoff w := by
  rw [cutoff_of_consistent w h]
  exact le_foldl_max_of_mem _ _ _ (List.mem_map.2 ⟨s, hs, rfl⟩)

theorem sink_unique (w : World) (h : w.consistent) (s s2 : Callback) (hs : s ∈ w.sinks)
    (hs2 : s2 ∈ w.sinks) (hid : s2.id = s.id) : s2 = s :=
  List.inj_on_of_nodup_map h.2 hs2 hs hid

theorem mem_eraseP_id (id : String) (x : Callback) (l : List Callback)
    (hnd : (l.map fun c => c.id).Nodup) :
    x ∈ l.eraseP (fun c => c.id == id) ↔ x ∈ l ∧ x.id ≠ id := by
  induction l with
  | nil => simp
  | cons a l ih =>
    rw [List.map_cons, List.nodup_cons] at hnd
    by_cases ha : a.id = id
    · have hp : (a.id == id) = true := by simpa using ha
      simp only [List.eraseP_cons, hp, cond_true]
      constructor
      · intro hx
        refine ⟨List.mem_cons_of_mem _ hx, fun hxid => hnd.1 ?_⟩
        exact List.mem_map.2 ⟨x, hx, by rw [hxid, ha]⟩
      · rintro ⟨hx, hxid⟩
        rcases List.mem_cons.1 hx with h | h
        · exact absurd (h ▸ ha) hxid
        · exact h
    · have hp : (a.id == id) = false := by simpa using ha
      simp only [List.eraseP_cons, hp, cond_false]
      rw [List.mem_cons, ih hnd.2, List.mem_cons]
      constructor
      · rintro (h | ⟨h1, h2⟩)
        · exact ⟨Or.inl h, h ▸ ha⟩
        · exact ⟨Or.inr h1, h2⟩
      · rintro ⟨h | h, h2⟩
        · exact Or.inl h
        · exact Or.inr ⟨h, h2⟩

/-! ### What one call of `log` or `raw_log` adds to the effects -/

theorem new_effects_append (w w2 : World) (es : List Effect)
    (h : w2.effects = w.effects ++ es) : new_effects w w2 = es := by
  unfold new_effects
  rw [h]
  exact List.drop_left _ _

theorem new_effects_log (F : Formatter) (v : Verbosity) (file : String) (line : Nat)
    (format : String) (args : List Arg) (w : World) :
    new_effects w (log F v file line format args w)
      = Effect.log_called v file line format args ::
          dispatch_effects F v file line (F.format format args) false w := by
  apply new_effects_append
  unfold log
  rw [dispatch_effects_eq]
  simp only [List.append_assoc, List.singleton_append]
  rfl

theorem new_effects_raw_log (F : Formatter) (v : Verbosity) (file : String) (line : Nat)
    (format : String) (args : List Arg) (w : World) :
    new_effects w (raw_log F v file line format args w)
      = Effect.raw_log_called v file line format args ::
          dispatch_effects F v file line (F.format format args) true w := by
  apply new_effects_append
  unfold raw_log
  rw [dispatch_effects_eq]
  simp only [List.append_assoc, List.singleton_append]
  rfl

theorem callback_invoked_not_mem_flushes (snapshot : List Callback) (id : String)
    (cb ud : Nat) (m : Message) :
    Effect.callback_invoked id cb ud m ∉ flushes snapshot := by
  intro he
  obtain ⟨s, _, hs⟩ := List.mem_filterMap.1 he
  cases hf : s.on_flush with
  | none => simp [hf] at hs
  | some h => simp [hf] at hs

theorem stderr_write_not_mem_flushes (snapshot : List Callback) (m : Message) :
    Effect.stderr_write m ∉ flushes snapshot := by
  intro he
  obtain ⟨s, _, hs⟩ := List.mem_filterMap.1 he
  cases hf : s.on_flush with
  | none => simp [hf] at hs
  | some h => simp [hf] at hs

/-- A sink callback invocation is among the effects of a dispatch exactly when
the gate is open and a registered sink with these data admits the verbosity. -/
theorem callback_invoked_mem_dispatch_effects (F : Formatter) (v : Verbosity) (file : String)
    (line : Nat) (text : String) (raw : Bool) (w : World) (id : String) (cb ud : Nat)
    (m : Message) :
    Effect.callback_invoked id cb ud m ∈ dispatch_effects F v file line text raw w ↔
      v ≤ current_verbosity_cutoff w ∧
      m = make_message F w.indent_depth v file line text raw ∧
      ∃ s ∈ w.sinks, v ≤ s.verbosity ∧ s.id = id ∧ s.callback = cb ∧ s.user_data = ud := by
  unfold dispatch_effects
  by_cases hg : v > current_verbosity_cutoff w
  · simp [hg]
  · have hflush : Effect.callback_invoked id cb ud m ∉
        (if w.flush_due then flushes w.sinks else []) := by
      split_ifs
      · exact callback_invoked_not_mem_flushes _ _ _ _ _
      · simp
    simp only [hg, if_false, List.mem_append, hflush, or_false, deliveries,
      List.mem_filterMap]
    have hmv : (make_message F w.indent_depth v file line text raw).verbosity = v := rfl
    constructor
    · rintro (h | ⟨s, hs, h⟩)
      · split_ifs at h <;> simp at h
      · rw [hmv] at h
        split_ifs at h with hv
        simp only [Option.some.injEq, Effect.callback_invoked.injEq] at h
        exact ⟨not_lt.1 hg, h.2.2.2.symm, s, hs, hv, h.1, h.2.1, h.2.2.1⟩
    · rintro ⟨_, hm, s, hs, hv, h1, h2, h3⟩
      refine Or.inr ⟨s, hs, ?_⟩
      rw [hmv, if_pos (ge_iff_le.2 hv), hm, h1, h2, h3]

/-- A write to stderr is among the effects of a dispatch exactly when the
verbosity is at most `g_stderr_verbosity`. -/
theorem stderr_write_mem_dispatch_effects (F : Formatter) (v : Verbosity) (file : String)
    (line : Nat) (text : String) (raw : Bool) (w : World) (m : Message) :
    Effect.stderr_write m ∈ dispatch_effects F v file line text raw w ↔
      v ≤ w.g_stderr_verbosity ∧ m = make_message F w.indent_depth v file line text raw := by
  unfold dispatch_effects
  by_cases hg : v > current_verbosity_cutoff w
  · have : ¬ v ≤ w.g_stderr_verbosity := fun h =>
      absurd (le_trans h (stderr_le_cutoff w)) (not_le.2 hg)
    simp [hg, this]
  · have hflush : Effect.stderr_write m ∉ (if w.flush_due then flushes w.sinks else []) := by
      split_ifs
      · exact stderr_write_not_mem_flushes _ _
      · simp
    simp only [hg, if_false, List.mem_append, hflush, or_false, deliveries,
      List.mem_filterMap]
    have hmv : (make_message F w.indent_depth v file line text raw).verbosity = v := rfl
    rw [hmv]
    constructor
    · rintro (h | ⟨s, _, h⟩)
      · split_ifs at h with hv
        · exact ⟨hv, Effect.stderr_write.inj (List.mem_singleton.1 h)⟩
        · simp at h
      · split_ifs at h
        simp at h
    · rintro ⟨hv, hm⟩
      exact Or.inl (by rw [if_pos hv, hm]; exact List.mem_singleton_self _)

/-! ### Sinks that are not registered -/

theorem state_after_consistent (F : Formatter) (c : Verbosity) (ops : List Op) :
    (state_after F c ops).consistent :=
  run_consistent F ops _ (init_consistent c)

/-- C2: after every sequence of sink registrations and removals (`add_callback`,
`add_file`, `remove_callback`, `remove_all_callbacks`), assignments to
`g_stderr_verbosity` and log calls, `current_verbosity_cutoff()` is the maximum
of `g_stderr_verbosity` and the thresholds of the sinks still registered (it is
the fold of `max` over them, it bounds each of them, and it is one of them), and
it is `g_stderr_verbosity` alone when no sink is registered. -/
theorem cutoff_is_max_of_stderr_and_sinks (F : Formatter) (stderr_verbosity : Verbosity)
    (ops : List Op) :
    current_verbosity_cutoff (state_after F stderr_verbosity ops)
      = ((state_after F stderr_verbosity ops).sinks.map fun s => s.verbosity).foldl max
          (state_after F stderr_verbosity ops).g_stderr_verbosity ∧
    (state_after F stderr_verbosity ops).g_stderr_verbosity
      ≤ current_verbosity_cutoff (state_after F stderr_verbosity ops) ∧
    (∀ s ∈ (state_after F stderr_verbosity ops).sinks,
      s.verbosity ≤ current_verbosity_cutoff (state_after F stderr_verbosity ops)) ∧
    (current_verbosity_cutoff (state_after F stderr_verbosity ops)
        = (state_after F stderr_verbosity ops).g_stderr_verbosity ∨
      ∃ s ∈ (state_after F stderr_verbosity ops).sinks,
        s.verbosity = current_verbosity_cutoff (state_after F stderr_verbosity ops)) ∧
    ((state_after F stderr_verbosity ops).sinks = [] →
      current_verbosity_cutoff (state_after F stderr_verbosity ops)
        = (state_after F stderr_verbosity ops).g_stderr_verbosity) := by
  have hc := state_after_consistent F stderr_verbosity ops
  have h := cutoff_of_consistent _ hc
  refine ⟨h, stderr_le_cutoff _, fun s hs => sink_le_cutoff _ hc s hs, ?_, fun hnil => ?_⟩
  · rw [h]
    rcases foldl_max_attained
        ((state_after F stderr_verbosity ops).sinks.map fun s => s.verbosity)
        (state_after F stderr_verbosity ops).g_stderr_verbosity with hm | hm
    · exact Or.inl hm
    · obtain ⟨s, hs, hsv⟩ := List.mem_map.1 hm
      exact Or.inr ⟨s, hs, hsv⟩
  · rw [h, hnil]
    rfl

theorem add_not_registered (s : Callback) (w w2 : World) (id : String)
    (h : ∀ x ∈ w.sinks, x.id ≠ id) (hid : s.id ≠ id) (hadd : SinkRegistry.add s w = .ok w2) :
    ∀ x ∈ w2.sinks, x.id ≠ id := by
  unfold SinkRegistry.add at hadd
  split_ifs at hadd
  cases hadd
  intro x hx
  rcases List.mem_append.1 hx with hx | hx
  · exact h x hx
  · rw [List.mem_singleton.1 hx]
    exact hid

theorem step_not_registered (F : Formatter) (op : Op) (w : World) (id : String)
    (h : ∀ x ∈ w.sinks, x.id ≠ id) (hop : op.registers id = false) :
    ∀ x ∈ (step F op w).sinks, x.id ≠ id := by
  cases op with
  | add_callback id2 callback user_data verbosity on_close on_flush =>
    have hid : id2 ≠ id := by simpa [Op.registers] using hop
    simp only [step, add_callback]
    split
    · next w2 hadd => exact add_not_registered _ _ _ _ h hid hadd
    · exact h
  | add_file path mode verbosity opened =>
    have hid : path ≠ id := by simpa [Op.registers] using hop
    simp only [step, add_file]
    split
    · exact h
    · split
      · next w2 hadd => exact add_not_registered _ _ _ _ h hid hadd
      · exact h
  | remove_callback id2 =>
    simp only [step, remove_callback]
    split
    · exact h
    · intro x hx
      exact h x ((List.eraseP_sublist _).subset hx)
  | remove_all_callbacks =>
    intro x hx
    simp [step, remove_all_callbacks] at hx
  | set_stderr_verbosity verbosity => exact h
  | log verbosity file line format args =>
    simp only [step, log, (dispatch_registry _ _ _ _ _ _ _).1]
    exact h
  | raw_log verbosity file line format args =>
    simp only [step, raw_log, (dispatch_registry _ _ _ _ _ _ _).1]
    exact h
  | flush_interval_elapsed => exact h

theorem run_not_registered (F : Formatter) (ops : List Op) (w : World) (id : String)
    (h : ∀ x ∈ w.sinks, x.id ≠ id) (hops : ∀ op ∈ ops, op.registers id = false) :
    ∀ x ∈ (run F ops w).sinks, x.id ≠ id := by
  induction ops generalizing w with
  | nil => exact h
  | cons op ops ih =>
    exact ih _ (step_not_registered F op w id h (hops op (List.mem_cons_self _ _)))
      (fun o ho => hops o (List.mem_cons_of_mem _ ho))

theorem remove_callback_sinks (id : String) (w : World) (h : w.consistent) (x : Callback) :
    x ∈ (remove_callback id w).2.sinks ↔ x ∈ w.sinks ∧ x.id ≠ id := by
  unfold remove_callback
  split
  · next hnone =>
    have hno := List.find?_eq_none.1 hnone
    constructor
    · intro hx
      exact ⟨hx, fun hid => hno x hx (by simpa using hid)⟩
    · exact fun hx => hx.1
  · exact mem_eraseP_id id x w.sinks h.2

theorem not_registered_not_invoked (F : Formatter) (v : Verbosity) (file : String)
    (line : Nat) (format : String) (args : List Arg) (w : World) (id : String)
    (h : ∀ x ∈ w.sinks, x.id ≠ id) (cb ud : Nat) (m : Message) :
    Effect.callback_invoked id cb ud m ∉ new_effects w (log F v file line format args w) ∧
    Effect.callback_invoked id cb ud m ∉
      new_effects w (raw_log F v file line format args w) := by
  rw [new_effects_log, new_effects_raw_log]
  constructor
  · intro hmem
    rcases List.mem_cons.1 hmem with hc | hc
    · cases hc
    · obtain ⟨_, _, s, hs, _, hid, _⟩ :=
        (callback_invoked_mem_dispatch_effects _ _ _ _ _ _ _ _ _ _ _).1 hc
      exact h s hs hid
  · intro hmem
    rcases List.mem_cons.1 hmem with hc | hc
    · cases hc
    · obtain ⟨_, _, s, hs, _, hid, _⟩ :=
        (callback_invoked_mem_dispatch_effects _ _ _ _ _ _ _ _ _ _ _).1 hc
      exact h s hs hid

/-- In a consistent state a registered sink is invoked by `log` (by `raw_log` when
`raw`) exactly when the verbosity is within its threshold. -/
theorem registered_invoked_iff (F : Formatter) (v : Verbosity) (file : String) (line : Nat)
    (text : String) (raw : Bool) (w : World) (h : w.consistent) (s : Callback)
    (hs : s ∈ w.sinks) (cb ud : Nat) (m : Message) :
    Effect.callback_invoked s.id cb ud m ∈ dispatch_effects F v file line text raw w ↔
      v ≤ s.verbosity ∧ cb = s.callback ∧ ud = s.user_data ∧
        m = make_message F w.indent_depth v file line text raw := by
  rw [callback_invoked_mem_dispatch_effects]
  constructor
  · rintro ⟨_, hm, s2, hs2, hv, hid, hcb, hud⟩
    have := sink_unique w h s s2 hs hs2 hid
    subst this
    exact ⟨hv, hcb.symm, hud.symm, hm⟩
  · rintro ⟨hv, hcb, hud, hm⟩
    exact ⟨le_trans hv (sink_le_cutoff w h s hs), hm, s, hs, hv, rfl, hcb.symm, hud.symm⟩

/-- C3: for every logged message of verbosity `v` and every sink registered with
threshold `t` at dispatch time, the sink's callback is invoked with the message
if and only if `v <= t` (by `log` and by `raw_log` alike, and with no other
message); a sink that has been removed, by `remove_callback` or by
`remove_all_callbacks`, is not invoked by any later log call as long as its id is
not registered again. -/
theorem sink_invoked_iff_within_threshold (F : Formatter) (stderr_verbosity : Verbosity)
    (ops : List Op) (v : Verbosity) (file : String) (line : Nat) (format : String)
    (args : List Arg) :
    (∀ s ∈ (state_after F stderr_verbosity ops).sinks,
      (Effect.callback_invoked s.id s.callback s.user_data
          (make_message F (state_after F stderr_verbosity ops).indent_depth v file line
            (F.format format args) false)
        ∈ new_effects (state_after F stderr_verbosity ops)
            (log F v file line format args (state_after F stderr_verbosity ops))
        ↔ v ≤ s.verbosity) ∧
      (Effect.callback_invoked s.id s.callback s.user_data
          (make_message F (state_after F stderr_verbosity ops).indent_depth v file line
            (F.format format args) true)
        ∈ new_effects (state_after F stderr_verbosity ops)
            (raw_log F v file line format args (state_after F stderr_verbosity ops))
        ↔ v ≤ s.verbosity) ∧
      (∀ cb ud m, Effect.callback_invoked s.id cb ud m
          ∈ new_effects (state_after F stderr_verbosity ops)
              (log F v file line format args (state_after F stderr_verbosity ops)) →
        v ≤ s.verbosity ∧ cb = s.callback ∧ ud = s.user_data ∧
          m = make_message F (state_after F stderr_verbosity ops).indent_depth v file line
            (F.format format args) false)) ∧
    (∀ (id : String) (later : List Op), (∀ op ∈ later, op.registers id = false) →
      ∀ cb ud m,
        Effect.callback_invoked id cb ud m ∉
          new_effects (run F later (remove_callback id (state_after F stderr_verbosity ops)).2)
            (log F v file line format args
              (run F later (remove_callback id (state_after F stderr_verbosity ops)).2)) ∧
        Effect.callback_invoked id cb ud m ∉
          new_effects (run F later (remove_all_callbacks (state_after F stderr_verbosity ops)))
            (log F v file line format args
              (run F later (remove_all_callbacks (state_after F stderr_verbosity ops))))) := by
  have hc := state_after_consistent F stderr_verbosity ops
  refine ⟨fun s hs => ⟨?_, ?_, ?_⟩, fun id later hlater cb ud m => ⟨?_, ?_⟩⟩
  · rw [new_effects_log, List.mem_cons, registered_invoked_iff _ _ _ _ _ _ _ hc s hs]
    constructor
    · rintro (h | h)
      · cases h
      · exact h.1
    · exact fun h => Or.inr ⟨h, rfl, rfl, rfl⟩
  · rw [new_effects_raw_log, List.mem_cons, registered_invoked_iff _ _ _ _ _ _ _ hc s hs]
    constructor
    · rintro (h | h)
      · cases h
      · exact h.1
    · exact fun h => Or.inr ⟨h, rfl, rfl, rfl⟩
  · intro cb ud m hmem
    rw [new_effects_log, List.mem_cons] at hmem
    rcases hmem with h | h
    · cases h
    · exact (registered_invoked_iff _ _ _ _ _ _ _ hc s hs cb ud m).1 h
  · refine (not_registered_not_invoked F v file line format args _ id ?_ cb ud m).1
    exact run_not_registered F later _ id
      (fun x hx => ((remove_callback_sinks id _ hc x).1 hx).2) hlater
  · refine (not_registered_not_invoked F v file line format args _ id ?_ cb ud m).1
    exact run_not_registered F later _ id
      (fun x hx => by simp [remove_all_callbacks] at hx) hlater

/-- Scenario A of the specification: sinks "f1" (threshold 0) and "f2"
(threshold 3) with `g_stderr_verbosity = 0`; the cutoff is 3 and a message of
verbosity 2 reaches "f2" only. -/
theorem scenario_A :
    current_verbosity_cutoff
        (state_after sample_formatter 0
          [Op.add_callback "f1" 10 0 0 none none, Op.add_callback "f2" 11 0 3 none none]) = 3 ∧
    new_effects
        (state_after sample_formatter 0
          [Op.add_callback "f1" 10 0 0 none none, Op.add_callback "f2" 11 0 3 none none])
        (log sample_formatter 2 "main.cpp" 7 "x=%d" [Arg.int 1]
          (state_after sample_formatter 0
            [Op.add_callback "f1" 10 0 0 none none, Op.add_callback "f2" 11 0 3 none none]))
      = [Effect.log_called 2 "main.cpp" 7 "x=%d" [Arg.int 1],
         Effect.callback_invoked "f2" 11 0
           (make_message sample_formatter 0 2 "main.cpp" 7
             (sample_formatter.format "x=%d" [Arg.int 1]) false)] := by
  decide

theorem new_effects_self (w : World) : new_effects w w = [] := by
  unfold new_effects
  exact List.drop_length _

/-- C4: for every message verbosity `v` and every value `c` of
`g_stderr_verbosity`, the message is delivered to stderr if and only if `v <= c`:
by `log` and `raw_log` called directly, and by `VLOG_F` and `RAW_VLOG_F` with
side-effect-free arguments; and no other message is written to stderr. -/
theorem stderr_write_iff_within_stderr_verbosity (F : Formatter) (v : Verbosity)
    (file : String) (line : Nat) (a : VaArgs) (w : World) :
    (Effect.stderr_write
        (make_message F w.indent_depth v file line (F.format a.format a.args) false)
      ∈ new_effects w (log F v file line a.format a.args w) ↔ v ≤ w.g_stderr_verbosity) ∧
    (Effect.stderr_write
        (make_message F w.indent_depth v file line (F.format a.format a.args) true)
      ∈ new_effects w (raw_log F v file line a.format a.args w) ↔ v ≤ w.g_stderr_verbosity) ∧
    (Effect.stderr_write
        (make_message F w.indent_depth v file line (F.format a.format a.args) false)
      ∈ new_effects w (VLOG_F F (Expr.value v) file line (Expr.value a) w)
        ↔ v ≤ w.g_stderr_verbosity) ∧
    (Effect.stderr_write
        (make_message F w.indent_depth v file line (F.format a.format a.args) true)
      ∈ new_effects w (RAW_VLOG_F F (Expr.value v) file line (Expr.value a) w)
        ↔ v ≤ w.g_stderr_verbosity) ∧
    (∀ m, Effect.stderr_write m ∈ new_effects w (log F v file line a.format a.args w) →
      v ≤ w.g_stderr_verbosity ∧
        m = make_message F w.indent_depth v file line (F.format a.format a.args) false) ∧
    (∀ m, Effect.stderr_write m ∈ new_effects w (raw_log F v file line a.format a.args w) →
      v ≤ w.g_stderr_verbosity ∧
        m = make_message F w.indent_depth v file line (F.format a.format a.args) true) := by
  have hlog : ∀ m, Effect.stderr_write m ∈ new_effects w (log F v file line a.format a.args w) ↔
      v ≤ w.g_stderr_verbosity ∧
        m = make_message F w.indent_depth v file line (F.format a.format a.args) false := by
    intro m
    rw [new_effects_log, List.mem_cons, stderr_write_mem_dispatch_effects]
    constructor
    · rintro (h | h)
      · cases h
      · exact h
    · exact fun h => Or.inr h
  have hraw : ∀ m,
      Effect.stderr_write m ∈ new_effects w (raw_log F v file line a.format a.args w) ↔
      v ≤ w.g_stderr_verbosity ∧
        m = make_message F w.indent_depth v file line (F.format a.format a.args) true := by
    intro m
    rw [new_effects_raw_log, List.mem_cons, stderr_write_mem_dispatch_effects]
    constructor
    · rintro (h | h)
      · cases h
      · exact h
    · exact fun h => Or.inr h
  refine ⟨?_, ?_, ?_, ?_, fun m h => (hlog m).1 h, fun m h => (hraw m).1 h⟩
  · rw [hlog]
    exact ⟨fun h => h.1, fun h => ⟨h, rfl⟩⟩
  · rw [hraw]
    exact ⟨fun h => h.1, fun h => ⟨h, rfl⟩⟩
  · rw [VLOG_F_value]
    by_cases hg : v > current_verbosity_cutoff w
    · rw [if_pos hg, new_effects_self]
      have : ¬ v ≤ w.g_stderr_verbosity := fun h =>
        absurd (le_trans h (stderr_le_cutoff w)) (not_le.2 hg)
      simp [this]
    · rw [if_neg hg]
      show _ ∈ new_effects w (log F v file line a.format a.args w) ↔ _
      rw [hlog]
      exact ⟨fun h => h.1, fun h => ⟨h, rfl⟩⟩
  · rw [RAW_VLOG_F_value]
    by_cases hg : v > current_verbosity_cutoff w
    · rw [if_pos hg, new_effects_self]
      have : ¬ v ≤ w.g_stderr_verbosity := fun h =>
        absurd (le_trans h (stderr_le_cutoff w)) (not_le.2 hg)
      simp [this]
    · rw [if_neg hg]
      show _ ∈ new_effects w (raw_log F v file line a.format a.args w) ↔ _
      rw [hraw]
      exact ⟨fun h => h.1, fun h => ⟨h, rfl⟩⟩

/-- C5, as the code has it: everything with a verbosity equal to or *less* than
`g_stderr_verbosity` is written to stderr: for every message verbosity `v` and
every value `c` of `g_stderr_verbosity`, `v <= c` implies that `log`, and
`VLOG_F(v, ...)` with side-effect-free arguments, write the message to stderr. -/
theorem stderr_written_of_le_stderr_verbosity (F : Formatter) (v : Verbosity)
    (file : String) (line : Nat) (a : VaArgs) (w : World) (h : v ≤ w.g_stderr_verbosity) :
    Effect.stderr_write
        (make_message F w.indent_depth v file line (F.format a.format a.args) false)
      ∈ new_effects w (log F v file line a.format a.args w) ∧
    Effect.stderr_write
        (make_message F w.indent_depth v file line (F.format a.format a.args) false)
      ∈ new_effects w (VLOG_F F (Expr.value v) file line (Expr.value a) w) := by
  have hg : ¬ v > current_verbosity_cutoff w := not_lt.2 (le_trans h (stderr_le_cutoff w))
  have hlog : Effect.stderr_write
        (make_message F w.indent_depth v file line (F.format a.format a.args) false)
      ∈ new_effects w (log F v file line a.format a.args w) := by
    rw [new_effects_log]
    exact List.mem_cons_of_mem _
      ((stderr_write_mem_dispatch_effects _ _ _ _ _ _ _ _).2 ⟨h, rfl⟩)
  refine ⟨hlog, ?_⟩
  rw [VLOG_F_value, if_neg hg]
  exact hlog

/-- Instance of the amended C5: with `g_stderr_verbosity = 0`, a WARNING is
written to stderr. -/
theorem stderr_written_of_le_stderr_verbosity_witness :
    Effect.stderr_write
        (make_message sample_formatter 0 Verbosity_WARNING "main.cpp" 7
          (sample_formatter.format "x=%d" [Arg.int 1]) false)
      ∈ new_effects (World.init 0)
          (log sample_formatter Verbosity_WARNING "main.cpp" 7 "x=%d" [Arg.int 1]
            (World.init 0)) :=
  (stderr_written_of_le_stderr_verbosity sample_formatter Verbosity_WARNING "main.cpp" 7
    { format := "x=%d", args := [Arg.int 1] } (World.init 0) (by decide)).1

/-- Counterexample to C5 as stated: with the default `g_stderr_verbosity = 0` and
no sink, a message of verbosity 1 has a verbosity equal or greater than
`g_stderr_verbosity`, yet `VLOG_F(1, ...)` does nothing at all and a direct call
of `log` writes nothing to stderr. -/
theorem verbosity_above_stderr_not_written :
    Verbosity_1 ≥ (World.init 0).g_stderr_verbosity ∧
    new_effects (World.init 0)
        (VLOG_F sample_formatter (Expr.value Verbosity_1) "main.cpp" 7
          (Expr.value { format := "x=%d", args := [Arg.int 1] }) (World.init 0)) = [] ∧
    new_effects (World.init 0)
        (log sample_formatter Verbosity_1 "main.cpp" 7 "x=%d" [Arg.int 1] (World.init 0))
      = [Effect.log_called Verbosity_1 "main.cpp" 7 "x=%d" [Arg.int 1]] := by
  decide

/-! ### Removal and duplicate registration -/

theorem remove_callback_unknown (id : String) (w : World) (h : ∀ x ∈ w.sinks, x.id ≠ id) :
    remove_callback id w = (false, w) := by
  unfold remove_callback
  have hnone : w.sinks.find? (fun c => c.id == id) = none :=
    List.find?_eq_none.2 (fun x hx => by simpa using h x hx)
  rw [hnone]

theorem remove_callback_known (id : String) (w : World) (h : w.consistent) (s : Callback)
    (hs : s ∈ w.sinks) (hid : s.id = id) :
    remove_callback id w
      = (true, { w with effects := w.effects ++ close_effects s,
                        sinks := w.sinks.eraseP (fun c => c.id == id),
                        sink_cutoff :=
                          recompute_cutoff (w.sinks.eraseP (fun c => c.id == id)) }) := by
  unfold remove_callback
  split
  · next hnone =>
    exact absurd (by simpa using hid) (List.find?_eq_none.1 hnone s hs)
  · next s2 hsome =>
    have h2 : s2.id = id := by simpa using List.find?_some hsome
    have := sink_unique w h s s2 hs (List.mem_of_find?_eq_some hsome) (h2.trans hid.symm)
    subst this
    rfl

theorem remove_callback_true_iff (id : String) (w : World) :
    (remove_callback id w).1 = true ↔ ∃ s ∈ w.sinks, s.id = id := by
  unfold remove_callback
  split
  · next hnone =>
    have hno := List.find?_eq_none.1 hnone
    constructor
    · intro h
      cases h
    · rintro ⟨s, hs, hid⟩
      exact absurd (by simpa using hid) (hno s hs)
  · next s2 hsome =>
    exact ⟨fun _ => ⟨s2, List.mem_of_find?_eq_some hsome, by simpa using List.find?_some hsome⟩,
      fun _ => rfl⟩

/-- C6: `remove_callback(id)` returns true if and only if a sink with that id is
registered at the time of the call; for an unknown id it returns false and leaves
the whole state (the registered sinks and the cutoff included) as it was; for a
known id it returns true, invokes that sink's `on_close` (when the sink has one)
exactly once and does nothing else to the outside, removes exactly that sink, and
no later `log` or `raw_log` reaches the id unless it is registered again. -/
theorem remove_callback_contract (F : Formatter) (stderr_verbosity : Verbosity)
    (ops : List Op) (id : String) :
    ((remove_callback id (state_after F stderr_verbosity ops)).1 = true ↔
      ∃ s ∈ (state_after F stderr_verbosity ops).sinks, s.id = id) ∧
    ((∀ s ∈ (state_after F stderr_verbosity ops).sinks, s.id ≠ id) →
      remove_callback id (state_after F stderr_verbosity ops)
        = (false, state_after F stderr_verbosity ops)) ∧
    (∀ s ∈ (state_after F stderr_verbosity ops).sinks, s.id = id →
      (remove_callback id (state_after F stderr_verbosity ops)).1 = true ∧
      (∀ h, s.on_close = some h →
        new_effects (state_after F stderr_verbosity ops)
            (remove_callback id (state_after F stderr_verbosity ops)).2
          = [Effect.close_invoked id h s.user_data]) ∧
      (s.on_close = none →
        new_effects (state_after F stderr_verbosity ops)
            (remove_callback id (state_after F stderr_verbosity ops)).2 = []) ∧
      (∀ x, x ∈ (remove_callback id (state_after F stderr_verbosity ops)).2.sinks ↔
        x ∈ (state_after F stderr_verbosity ops).sinks ∧ x ≠ s) ∧
      (∀ later : List Op, (∀ op ∈ later, op.registers id = false) →
        ∀ v file line format args cb ud m,
          Effect.callback_invoked id cb ud m ∉
            new_effects (run F later (remove_callback id (state_after F stderr_verbosity ops)).2)
              (log F v file line format args
                (run F later (remove_callback id (state_after F stderr_verbosity ops)).2)) ∧
          Effect.callback_invoked id cb ud m ∉
            new_effects (run F later (remove_callback id (state_after F stderr_verbosity ops)).2)
              (raw_log F v file line format args
                (run F later
                  (remove_callback id (state_after F stderr_verbosity ops)).2)))) := by
  have hc := state_after_consistent F stderr_verbosity ops
  refine ⟨remove_callback_true_iff id _, remove_callback_unknown id _, fun s hs hid => ?_⟩
  have hknown := remove_callback_known id _ hc s hs hid
  refine ⟨by rw [hknown], fun h hclose => ?_, fun hclose => ?_, fun x => ?_,
    fun later hlater v file line format args cb ud m => ?_⟩
  · rw [hknown]
    apply new_effects_append
    simp [close_effects, hclose, hid]
  · rw [hknown]
    apply new_effects_append
    simp [close_effects, hclose]
  · rw [remove_callback_sinks id _ hc x]
    constructor
    · rintro ⟨hx, hne⟩
      exact ⟨hx, fun hxs => hne (hxs ▸ hid)⟩
    · rintro ⟨hx, hne⟩
      exact ⟨hx, fun hxid => hne (sink_unique _ hc s x hs hx (hxid.trans hid.symm))⟩
  · exact not_registered_not_invoked F v file line format args _ id
      (run_not_registered F later _ id
        (fun x hx => ((remove_callback_sinks id _ hc x).1 hx).2) hlater) cb ud m

theorem add_duplicate (s : Callback) (w : World) (x : Callback) (hx : x ∈ w.sinks)
    (hid : x.id = s.id) : SinkRegistry.add s w = .error .AlreadyExists := by
  unfold SinkRegistry.add
  rw [if_pos (List.any_eq_true.2 ⟨x, hx, by simpa using hid⟩)]

theorem filter_id_eq_singleton (l : List Callback) (hnd : (l.map fun c => c.id).Nodup)
    (s : Callback) (hs : s ∈ l) : l.filter (fun c => c.id == s.id) = [s] := by
  induction l with
  | nil => cases hs
  | cons a l ih =>
    rw [List.map_cons, List.nodup_cons] at hnd
    rcases List.mem_cons.1 hs with h | h
    · subst h
      have hnil : l.filter (fun c => c.id == s.id) = [] := by
        rw [List.filter_eq_nil_iff]
        intro c hc hcid
        exact hnd.1 (List.mem_map.2 ⟨c, hc, by simpa using hcid⟩)
      simp [List.filter_cons, hnil]
    · have hne : a.id ≠ s.id := fun ha => hnd.1 (List.mem_map.2 ⟨s, h, ha.symm⟩)
      have hf : (a.id == s.id) = false := by simpa using hne
      simp only [List.filter_cons, hf]
      exact ih hnd.2 h

/-- C7, as amended: registering a sink under an id that is already registered
fails: the registry's `add` answers `AlreadyExists` and `add_file` returns false,
while `add_callback`, which is declared `void`, returns nothing; in every case the
state is left exactly as it was, so the originally registered sink stays
registered unchanged, exactly one sink with that id remains, and
`current_verbosity_cutoff()` is unaffected. -/
theorem duplicate_registration_rejected (F : Formatter) (stderr_verbosity : Verbosity)
    (ops : List Op) (s : Callback) (hs : s ∈ (state_after F stderr_verbosity ops).sinks)
    (callback user_data : Nat) (verbosity : Verbosity) (on_close on_flush : Option Nat)
    (mode : FileMode) (opened : FileMode → Option Nat) :
    SinkRegistry.add
        { id := s.id, callback := callback, user_data := user_data, verbosity := verbosity,
          on_close := on_close, on_flush := on_flush } (state_after F stderr_verbosity ops)
      = .error .AlreadyExists ∧
    add_callback s.id callback user_data verbosity on_close on_flush
        (state_after F stderr_verbosity ops) = ((), state_after F stderr_verbosity ops) ∧
    add_file s.id mode verbosity opened (state_after F stderr_verbosity ops)
      = (false, state_after F stderr_verbosity ops) ∧
    (state_after F stderr_verbosity ops).sinks.filter (fun c => c.id == s.id) = [s] ∧
    current_verbosity_cutoff
        (add_callback s.id callback user_data verbosity on_close on_flush
          (state_after F stderr_verbosity ops)).2
      = current_verbosity_cutoff (state_after F stderr_verbosity ops) := by
  have hc := state_after_consistent F stderr_verbosity ops
  have hdup : ∀ c : Callback, c.id = s.id →
      SinkRegistry.add c (state_after F stderr_verbosity ops) = .error .AlreadyExists :=
    fun c hcid => add_duplicate c _ s hs hcid.symm
  have hcb : add_callback s.id callback user_data verbosity on_close on_flush
      (state_after F stderr_verbosity ops) = ((), state_after F stderr_verbosity ops) := by
    unfold add_callback
    rw [hdup ⟨s.id, callback, user_data, verbosity, on_close, on_flush⟩ rfl]
  refine ⟨hdup _ rfl, hcb, ?_, filter_id_eq_singleton _ hc.2 s hs, by rw [hcb]⟩
  unfold add_file
  cases opened mode with
  | none => rfl
  | some handle =>
    simp only
    rw [hdup ⟨s.id, file_log, handle, verbosity, some file_close, some file_flush⟩ rfl]

/-- Instance of the amended C7 (scenario B): "f1" is registered with threshold 0,
and registering "f1" again with threshold 3 changes nothing. -/
theorem duplicate_registration_rejected_witness :
    add_callback "f1" 11 0 3 none none
        (state_after sample_formatter 0 [Op.add_callback "f1" 10 0 0 none none])
      = ((), state_after sample_formatter 0 [Op.add_callback "f1" 10 0 0 none none]) ∧
    (state_after sample_formatter 0 [Op.add_callback "f1" 10 0 0 none none]).sinks.filter
        (fun c => c.id == "f1")
      = [{ id := "f1", callback := 10, user_data := 0, verbosity := 0, on_close := none,
           on_flush := none }] :=
  ⟨(duplicate_registration_rejected sample_formatter 0 [Op.add_callback "f1" 10 0 0 none none]
      { id := "f1", callback := 10, user_data := 0, verbosity := 0, on_close := none,
        on_flush := none } (by decide) 11 0 3 none none FileMode.Truncate (fun _ => none)).2.1,
   (duplicate_registration_rejected sample_formatter 0 [Op.add_callback "f1" 10 0 0 none none]
      { id := "f1", callback := 10, user_data := 0, verbosity := 0, on_close := none,
        on_flush := none } (by decide) 11 0 3 none none FileMode.Truncate
      (fun _ => none)).2.2.2.1⟩

/-- Counterexample to C7 as stated: `add_callback` is declared `void`; the call
that registers "f1" a second time hands the caller the same unit value as the
first, successful call, and leaves the state exactly as it was, so nothing
tells the caller that the registration failed. -/
theorem add_callback_duplicate_reports_nothing :
    (add_callback "f1" 11 0 3 none none
        (add_callback "f1" 10 0 0 none none (World.init 0)).2).1
      = (add_callback "f1" 10 0 0 none none (World.init 0)).1 ∧
    (add_callback "f1" 11 0 3 none none
        (add_callback "f1" 10 0 0 none none (World.init 0)).2).2
      = (add_callback "f1" 10 0 0 none none (World.init 0)).2 ∧
    (add_callback "f1" 10 0 0 none none (World.init 0)).2 ≠ World.init 0 := by
  decide

/-! ### The cutoff `Verbosity_OFF` -/

/-- With `g_stderr_verbosity` set to OFF and no sink above OFF, the cutoff of a
reachable state is OFF. -/
theorem cutoff_off_of_stderr_off (w : World) (h : w.consistent)
    (hstderr : w.g_stderr_verbosity = Verbosity_OFF)
    (hsinks : ∀ s ∈ w.sinks, s.verbosity ≤ Verbosity_OFF) :
    current_verbosity_cutoff w = Verbosity_OFF := by
  rw [cutoff_of_consistent w h]
  apply le_antisymm
  · rcases foldl_max_attained (w.sinks.map fun s => s.verbosity) w.g_stderr_verbosity
      with hm | hm
    · rw [hm, hstderr]
    · obtain ⟨s, hs, hsv⟩ := List.mem_map.1 hm
      rw [← hsv]
      exact hsinks s hs
  · rw [← hstderr]
    exact le_foldl_max_init _ _

/-- C9: when the current cutoff is `Verbosity_OFF`, no message at a deliverable
named level (FATAL, ERROR, WARNING, INFO, 0 .. 9) passes the gate: `LOG_F`,
`VLOG_F`, `RAW_LOG_F` and `RAW_VLOG_F` at that level leave the state as it was,
so neither `log` nor `raw_log` is called and nothing is written. -/
theorem cutoff_off_blocks_deliverable_levels (F : Formatter) (n : NamedVerbosity)
    (file : String) (line : Nat) (va_args : Expr VaArgs) (w : World)
    (hn : n.deliverable = true) (hoff : current_verbosity_cutoff w = Verbosity_OFF) :
    LOG_F F n file line va_args w = w ∧
    VLOG_F F (Expr.value (Verbosity_ n)) file line va_args w = w ∧
    RAW_LOG_F F n file line va_args w = w ∧
    RAW_VLOG_F F (Expr.value (Verbosity_ n)) file line va_args w = w ∧
    new_effects w (LOG_F F n file line va_args w) = [] ∧
    new_effects w (RAW_LOG_F F n file line va_args w) = [] := by
  have hgt : Verbosity_ n > current_verbosity_cutoff w := by
    rw [hoff]
    cases n <;> first | (exact absurd hn (by decide)) | decide
  have h1 : VLOG_F F (Expr.value (Verbosity_ n)) file line va_args w = w := by
    rw [VLOG_F_value, if_pos hgt]
  have h2 : RAW_VLOG_F F (Expr.value (Verbosity_ n)) file line va_args w = w := by
    rw [RAW_VLOG_F_value, if_pos hgt]
  have h3 : LOG_F F n file line va_args w = w := h1
  have h4 : RAW_LOG_F F n file line va_args w = w := h2
  refine ⟨h3, h1, h4, h2, ?_, ?_⟩
  · rw [h3]
    exact new_effects_self w
  · rw [h4]
    exact new_effects_self w

/-- Instance of C9: with `g_stderr_verbosity = Verbosity_OFF` and no sink,
`LOG_F(FATAL, ...)` does nothing. -/
theorem cutoff_off_blocks_deliverable_levels_witness :
    LOG_F sample_formatter NamedVerbosity.FATAL "main.cpp" 7 sample_args
        (World.init Verbosity_OFF) = World.init Verbosity_OFF :=
  (cutoff_off_blocks_deliverable_levels sample_formatter NamedVerbosity.FATAL "main.cpp" 7
    sample_args (World.init Verbosity_OFF) (by decide) (by decide)).1

/-! ### Moving a LogScopeRAII -/

theorem copy_name_upto (n : Nat) (name other : List Char)
    (hlen : name.length = other.length) (hn : n ≤ other.length) :
    (List.range n).foldl (fun acc i => acc.set i (other.getD i (Char.ofNat 0))) name
      = other.take n ++ name.drop n := by
  induction n with
  | zero => simp
  | succ n ih =>
    rw [List.range_succ, List.foldl_append, ih (Nat.le_of_succ_le hn)]
    simp only [List.foldl_cons, List.foldl_nil]
    apply List.ext_getElem
    · simp; omega
    · intro i h1 h2
      simp only [List.getElem_set, List.getElem_append, List.length_take, List.getElem_take,
        List.getElem_drop]
      have hmin : min n other.length = n := by omega
      have hmin2 : min (n + 1) other.length = n + 1 := by omega
      by_cases hi : n = i
      · subst hi
        simp [hmin2]
        rw [List.getElem?_eq_getElem (by omega)]
        rfl
      · simp only [hi, if_false, hmin, hmin2]
        by_cases hlt : i < n
        · simp [hlt, Nat.lt_succ_of_lt hlt]
        · have : ¬ i < n + 1 := by omega
          simp [hlt, this]
          congr 1
          omega

theorem copy_name_eq (name other : List Char) (h1 : name.length = LOG_SCOPE_TEXT_SIZE)
    (h2 : other.length = LOG_SCOPE_TEXT_SIZE) : copy_name name other = other := by
  unfold copy_name
  rw [copy_name_upto _ _ _ (h1.trans h2.symm) (le_of_eq h2.symm), ← h2, List.take_length,
    ← h1.trans h2.symm, List.drop_length, List.append_nil]

/-- The hand-written move constructor (the branch for `_MSC_VER > 1800`) does
what C10 says: the new object carries the source's verbosity, file, line, indent
flag, start time and all `LOG_SCOPE_TEXT_SIZE` characters of its name, whatever
its storage held before, and the moved-from object has a null `_file`, so that
its destruction does nothing. -/
theorem move_msvc_transfers_scope (F : Formatter) (storage_name : List Char)
    (other : LogScopeRAII) (now_ns : Int) (w : World)
    (h1 : storage_name.length = LOG_SCOPE_TEXT_SIZE)
    (h2 : other._name.length = LOG_SCOPE_TEXT_SIZE) :
    (LogScopeRAII.move_msvc storage_name other).1 = other ∧
    (LogScopeRAII.move_msvc storage_name other).2._file = none ∧
    LogScopeRAII.destroy F now_ns (LogScopeRAII.move_msvc storage_name other).2 w = w := by
  refine ⟨?_, rfl, rfl⟩
  simp only [LogScopeRAII.move_msvc]
  rw [copy_name_eq _ _ h1 h2]

/-- C10 fails on the `#else` branch: move-constructing from `sample_scope` with the
defaulted move constructor (no `_MSC_VER`, or `_MSC_VER <= 1800`) leaves the
moved-from object with its `_file` set, so both objects are enabled and the
destruction of the two writes two exit messages; the hand-written constructor
of the other branch leaves one enabled object and one exit message. -/
theorem default_move_leaves_source_enabled :
    (LogScopeRAII.move none sample_storage sample_scope).2._file = some "main.cpp" ∧
    (LogScopeRAII.move none sample_storage sample_scope).1._file = some "main.cpp" ∧
    (LogScopeRAII.move (some 1800) sample_storage sample_scope).2._file = some "main.cpp" ∧
    (new_effects sample_world
      (LogScopeRAII.destroy sample_formatter 3000
        (LogScopeRAII.move none sample_storage sample_scope).1
        (LogScopeRAII.destroy sample_formatter 2000
          (LogScopeRAII.move none sample_storage sample_scope).2 sample_world))).length = 2 ∧
    (LogScopeRAII.move (some 1900) sample_storage sample_scope).2._file = none ∧
    (new_effects sample_world
      (LogScopeRAII.destroy sample_formatter 3000
        (LogScopeRAII.move (some 1900) sample_storage sample_scope).1
        (LogScopeRAII.destroy sample_formatter 2000
          (LogScopeRAII.move (some 1900) sample_storage sample_scope).2
          sample_world))).length = 1 := by
  refine ⟨rfl, rfl, rfl, ?_, rfl, ?_⟩
  · rfl
  · rfl

/-- C8: the named verbosity levels are strictly ordered by severity, lower number
meaning more severe: INVALID < OFF < FATAL < ERROR < WARNING < INFO = 0 < 1 < ... <
9 = MAX, `Verbosity_n = n` for n in 1..9, and OFF lies strictly below every
deliverable level. -/
theorem named_verbosity_order :
    Verbosity_INVALID < Verbosity_OFF ∧ Verbosity_OFF < Verbosity_FATAL ∧
    Verbosity_FATAL < Verbosity_ERROR ∧ Verbosity_ERROR < Verbosity_WARNING ∧
    Verbosity_WARNING < Verbosity_INFO ∧
    Verbosity_INFO = Verbosity_0 ∧ Verbosity_0 = 0 ∧
    Verbosity_0 < Verbosity_1 ∧ Verbosity_1 < Verbosity_2 ∧ Verbosity_2 < Verbosity_3 ∧
    Verbosity_3 < Verbosity_4 ∧ Verbosity_4 < Verbosity_5 ∧ Verbosity_5 < Verbosity_6 ∧
    Verbosity_6 < Verbosity_7 ∧ Verbosity_7 < Verbosity_8 ∧ Verbosity_8 < Verbosity_9 ∧
    Verbosity_9 = Verbosity_MAX ∧
    Verbosity_1 = 1 ∧ Verbosity_2 = 2 ∧ Verbosity_3 = 3 ∧ Verbosity_4 = 4 ∧
    Verbosity_5 = 5 ∧ Verbosity_6 = 6 ∧ Verbosity_7 = 7 ∧ Verbosity_8 = 8 ∧
    Verbosity_9 = 9 ∧
    (∀ n : NamedVerbosity, n.deliverable = true → Verbosity_OFF < Verbosity_ n) ∧
    (∀ n : NamedVerbosity, n.deliverable = true →
      Verbosity_FATAL ≤ Verbosity_ n ∧ Verbosity_ n ≤ Verbosity_9) := by
  refine ⟨by decide, by decide, by decide, by decide, by decide, rfl, rfl,
    by decide, by decide, by decide, by decide, by decide, by decide, by decide,
    by decide, by decide, rfl, rfl, rfl, rfl, rfl, rfl, rfl, rfl, rfl, rfl, ?_, ?_⟩
  · intro n hn
    cases n <;> first | (exact absurd hn (by decide)) | decide
  · intro n hn
    cases n <;> first | (exact absurd hn (by decide)) | decide

/-! ### SignalOptions -/

/-- C15: each fatal signal is individually toggleable: a default-constructed
`SignalOptions` has `unsafe_signal_handler` and all seven signal flags true,
`SignalOptions::none()` has all eight false, and assigning to any one member
gives that member the assigned value and leaves the other seven unchanged. -/
theorem signal_options_individually_toggleable :
    (∀ flag : SignalFlag, ({} : SignalOptions).get flag = true) ∧
    (∀ flag : SignalFlag, SignalOptions.none.get flag = false) ∧
    (∀ (options : SignalOptions) (flag : SignalFlag) (value : Bool),
      (options.set flag value).get flag = value ∧
      ∀ other : SignalFlag, other ≠ flag → (options.set flag value).get other = options.get other) ∧
    ({} : SignalOptions)
      = { unsafe_signal_handler := true, sigabrt := true, sigbus := true, sigfpe := true,
          sigill := true, sigint := true, sigsegv := true, sigterm := true } ∧
    SignalOptions.none
      = { unsafe_signal_handler := false, sigabrt := false, sigbus := false, sigfpe := false,
          sigill := false, sigint := false, sigsegv := false, sigterm := false } := by
  refine ⟨fun flag => by cases flag <;> rfl, fun flag => by cases flag <;> rfl,
    fun options flag value => ⟨by cases flag <;> rfl, fun other hne => ?_⟩, rfl, rfl⟩
  cases flag <;> cases other <;> first | rfl | exact absurd rfl hne

/-! ### The gate of the scope macros -/

theorem scope_calls_append (a b : List Effect) :
    scope_calls (a ++ b) = scope_calls a ++ scope_calls b := by
  simp [scope_calls]

theorem scope_calls_dispatch_effects (F : Formatter) (verbosity : Verbosity) (file : String)
    (line : Nat) (rendered_text : String) (raw : Bool) (w : World) :
    scope_calls (dispatch_effects F verbosity file line rendered_text raw w) = [] := by
  unfold scope_calls
  rw [List.filter_eq_nil_iff]
  intro e he
  unfold dispatch_effects at he
  split_ifs at he with hg hf
  · simp at he
  · rcases List.mem_append.1 he with h | h
    · unfold deliveries at h
      rcases List.mem_append.1 h with h | h
      · split_ifs at h
        · rw [List.mem_singleton.1 h]; simp
        · simp at h
      · obtain ⟨c, _, hc⟩ := List.mem_filterMap.1 h
        split_ifs at hc
        rw [← Option.some.inj hc]; simp
    · obtain ⟨c, _, hc⟩ := List.mem_filterMap.1 h
      cases hfl : c.on_flush with
      | none => simp [hfl] at hc
      | some x => simp [hfl] at hc; rw [← hc]; simp
  · rw [List.append_nil] at he
    unfold deliveries at he
    rcases List.mem_append.1 he with h | h
    · split_ifs at h
      · rw [List.mem_singleton.1 h]; simp
      · simp at h
    · obtain ⟨c, _, hc⟩ := List.mem_filterMap.1 h
      split_ifs at hc
      rw [← Option.some.inj hc]; simp

theorem scope_calls_construct (F : Formatter) (now_ns : Int) (storage : LogScopeRAII)
    (v : Verbosity) (file : String) (line : Nat) (format : String) (args : List Arg)
    (w : World) :
    scope_calls (LogScopeRAII.construct F now_ns storage v file line format args w).2.effects
      = scope_calls w.effects ++ [Effect.scope_constructed v file line format args] := by
  unfold LogScopeRAII.construct
  simp only
  split_ifs
  · simp [scope_calls]
  · simp only [dispatch_effects_eq, scope_calls_append, scope_calls_dispatch_effects,
      List.append_nil]
    simp [scope_calls]

theorem VLOG_SCOPE_F_value (F : Formatter) (now_ns : Int) (storage : LogScopeRAII)
    (v : Verbosity) (file : String) (line : Nat) (va_args : Expr VaArgs) (w : World) :
    VLOG_SCOPE_F F now_ns storage (Expr.value v) file line va_args w
      = if v > current_verbosity_cutoff w then (LogScopeRAII.default storage, w)
        else LogScopeRAII.construct F now_ns storage v file line (va_args w).1.format
          (va_args w).1.args (va_args w).2 := by
  simp [VLOG_SCOPE_F, Expr.value]

/-- C11: for every verbosity `v` greater than `current_verbosity_cutoff()`,
`VLOG_SCOPE_F(v, ...)` (and `LOG_SCOPE_F` for a name standing for `v`) yields the
default-constructed `LogScopeRAII`, whose `_file` is null, and leaves the state
as it was: the logging constructor is not called and the format arguments are
not evaluated; for `v <= cutoff` the macro is exactly one call of the logging
constructor with `v`, the file and line of the call site and the evaluated
format arguments. -/
theorem scope_macros_gate (F : Formatter) (now_ns : Int) (storage : LogScopeRAII)
    (v : Verbosity) (file : String) (line : Nat) (va_args : Expr VaArgs) (w : World) :
    (v > current_verbosity_cutoff w →
      VLOG_SCOPE_F F now_ns storage (Expr.value v) file line va_args w
        = (LogScopeRAII.default storage, w) ∧
      (VLOG_SCOPE_F F now_ns storage (Expr.value v) file line va_args w).1._file = none) ∧
    (v ≤ current_verbosity_cutoff w →
      VLOG_SCOPE_F F now_ns storage (Expr.value v) file line va_args w
        = LogScopeRAII.construct F now_ns storage v file line (va_args w).1.format
            (va_args w).1.args (va_args w).2 ∧
      scope_calls (VLOG_SCOPE_F F now_ns storage (Expr.value v) file line va_args w).2.effects
        = scope_calls (va_args w).2.effects ++
            [Effect.scope_constructed v file line (va_args w).1.format (va_args w).1.args]) ∧
    (∀ n : NamedVerbosity, Verbosity_ n = v →
      LOG_SCOPE_F F now_ns storage n file line va_args w
        = VLOG_SCOPE_F F now_ns storage (Expr.value v) file line va_args w) := by
  refine ⟨fun h => ?_, fun h => ?_, fun n hn => ?_⟩
  · rw [VLOG_SCOPE_F_value, if_pos h]
    exact ⟨rfl, rfl⟩
  · have hn : ¬ v > current_verbosity_cutoff w := not_lt.2 h
    rw [VLOG_SCOPE_F_value, if_neg hn]
    exact ⟨rfl, scope_calls_construct _ _ _ _ _ _ _ _ _⟩
  · subst hn
    rfl

/-- Instance of C11 in a state with cutoff 0: `VLOG_SCOPE_F(1, ...)` yields a
disabled object and leaves the state untouched, although evaluating its
arguments would change it; `VLOG_SCOPE_F(0, ...)` calls the logging constructor
once. -/
theorem scope_macros_gate_witness :
    (VLOG_SCOPE_F sample_formatter 1000 sample_scope (Expr.value 1) "main.cpp" 42 sample_args
        sample_world).1._file = none ∧
    (VLOG_SCOPE_F sample_formatter 1000 sample_scope (Expr.value 1) "main.cpp" 42 sample_args
        sample_world).2 = sample_world ∧
    scope_calls (VLOG_SCOPE_F sample_formatter 1000 sample_scope (Expr.value 0) "main.cpp" 42
        sample_args sample_world).2.effects
      = [Effect.scope_constructed 0 "main.cpp" 42 "x=%d" [Arg.int 1]] :=
  ⟨((scope_macros_gate sample_formatter 1000 sample_scope 1 "main.cpp" 42 sample_args
      sample_world).1 (by decide)).2,
   congrArg Prod.snd ((scope_macros_gate sample_formatter 1000 sample_scope 1 "main.cpp" 42
      sample_args sample_world).1 (by decide)).1,
   ((scope_macros_gate sample_formatter 1000 sample_scope 0 "main.cpp" 42 sample_args
      sample_world).2.1 (by decide)).2⟩

/-! ### The error context -/

/-- C12: an error-context entry's value is rendered lazily: constructing an
`EcEntryData` (which is what `ERROR_CONTEXT` does on scope entry) stores the data
and the printer and leaves the state the printer acts on untouched, so the
printer is not invoked; each call of `print_value` invokes the printer exactly
once, on the stored data, and hands exactly the text it returns to
`stream_print`, which appends it to the stream. -/
theorem ec_entry_value_rendered_lazily {σ T : Type} (file : String) (line : Nat)
    (descr : String) (data : T) (printer : Printer σ T) (th : EcThread σ)
    (out : StringStream) (s : σ) :
    ERROR_CONTEXT printer file line descr data th
      = EcEntryData.construct file line descr data printer th ∧
    (EcEntryData.construct file line descr data printer th).1._data = data ∧
    (EcEntryData.construct file line descr data printer th).1._printer = printer ∧
    (EcEntryData.construct file line descr data printer th).2.user = th.user ∧
    (EcEntryData.construct file line descr data printer th).1.print_value out s
      = (stream_print out (printer data s).1.c_str, (printer data s).2) ∧
    (∀ text : String, (printer data s).1 = { _str := some text } →
      ((EcEntryData.construct file line descr data printer th).1.print_value out s).1
        = { str := out.str ++ text }) :=
  ⟨rfl, rfl, rfl, rfl, rfl, fun text h => by
    show stream_print out (printer data s).1.c_str = _
    rw [h]
    rfl⟩

/-- Instance of C12 with a printer that counts its invocations: after the
construction of the entry the count is still 0, after one `print_value` it is 1
and the stream holds the printed text, after a second `print_value` it is 2. -/
theorem ec_entry_value_rendered_lazily_witness :
    (EcEntryData.construct "main.cpp" 417 "Customer index" "42" counting_printer
        (EcThread.init 0)).2.user = 0 ∧
    (EcEntryData.construct "main.cpp" 417 "Customer index" "42" counting_printer
        (EcThread.init 0)).1.print_value { str := "" } 0 = ({ str := "42" }, 1) ∧
    (EcEntryData.construct "main.cpp" 417 "Customer index" "42" counting_printer
        (EcThread.init 0)).1.print_value { str := "42" } 1 = ({ str := "4242" }, 2) :=
  ⟨(ec_entry_value_rendered_lazily "main.cpp" 417 "Customer index" "42" counting_printer
      (EcThread.init 0) { str := "" } 0).2.2.2.1,
   (ec_entry_value_rendered_lazily "main.cpp" 417 "Customer index" "42" counting_printer
      (EcThread.init 0) { str := "" } 0).2.2.2.2.1.trans (by decide),
   (ec_entry_value_rendered_lazily "main.cpp" 417 "Customer index" "42" counting_printer
      (EcThread.init 0) { str := "42" } 1).2.2.2.2.1.trans (by decide)⟩

theorem ec_run_serials {σ T : Type} (ops : List (EcOp σ T)) (th : EcThread σ) :
    (ec_run ops th).top.map (fun e => e.serial)
      = open_scopes ops th.next_serial (th.top.map fun e => e.serial) := by
  induction ops generalizing th with
  | nil => rfl
  | cons op ops ih =>
    cases op with
    | enter file line descr data ec_to_text =>
      exact ih _
    | exit =>
      have h := ih (EcEntryBase.pop th)
      simp only [EcEntryBase.pop, EcHandle.previous, List.map_tail] at h
      exact h

theorem ec_step_ordered {σ T : Type} (op : EcOp σ T) (th : EcThread σ) (h : th.ordered) :
    (ec_step op th).ordered := by
  cases op with
  | enter file line descr data ec_to_text =>
    refine ⟨?_, ?_⟩
    · show ((_ :: th.top).map fun e => e.serial).Pairwise _
      rw [List.map_cons, List.pairwise_cons]
      refine ⟨fun a ha => ?_, h.1⟩
      obtain ⟨e, he, hs⟩ := List.mem_map.1 ha
      rw [← hs]
      exact h.2 e he
    · intro e he
      show e.serial < th.next_serial + 1
      rcases List.mem_cons.1 he with h1 | h1
      · rw [h1]
        exact Nat.lt_succ_self _
      · exact Nat.lt_succ_of_lt (h.2 e h1)
  | exit =>
    refine ⟨?_, fun e he => h.2 e (List.mem_of_mem_tail he)⟩
    show (th.top.tail.map fun e => e.serial).Pairwise _
    rw [List.map_tail]
    exact List.Pairwise.sublist (List.tail_sublist _) h.1

theorem ec_run_ordered {σ T : Type} (ops : List (EcOp σ T)) (th : EcThread σ)
    (h : th.ordered) : (ec_run ops th).ordered := by
  induction ops generalizing th with
  | nil => exact h
  | cons op ops ih => exact ih _ (ec_step_ordered op th h)

theorem ec_run_absent {σ T : Type} (ops : List (EcOp σ T)) (th : EcThread σ) (k : Nat)
    (hk : k < th.next_serial) (h : ∀ e ∈ th.top, e.serial ≠ k) :
    ∀ e ∈ (ec_run ops th).top, e.serial ≠ k := by
  induction ops generalizing th with
  | nil => exact h
  | cons op ops ih =>
    cases op with
    | enter file line descr data ec_to_text =>
      refine ih _ (Nat.lt_succ_of_lt hk) (fun e he => ?_)
      rcases List.mem_cons.1 he with h1 | h1
      · rw [h1]
        exact fun heq => absurd hk (by rw [← heq]; exact Nat.lt_irrefl _)
      · exact h e h1
    | exit =>
      exact ih _ hk (fun e he => h e (List.mem_of_mem_tail he))

theorem string_foldl_append (l : List String) (acc : String) :
    l.foldl (fun r t => r ++ t) acc = acc ++ l.foldl (fun r t => r ++ t) "" := by
  induction l generalizing acc with
  | nil => simp
  | cons a l ih =>
    rw [List.foldl_cons, List.foldl_cons, ih, ih ("" ++ a)]
    simp [String.append_assoc]

theorem string_join_cons (a : String) (l : List String) :
    String.join (a :: l) = a ++ String.join l := by
  unfold String.join
  rw [List.foldl_cons, string_foldl_append]
  simp

theorem render_lines_serials {σ : Type} (h : EcHandle σ) (s : σ) :
    (render_lines h s).1.map (fun l => l.serial) = h.map (fun e => e.serial) := by
  induction h generalizing s with
  | nil => rfl
  | cons e previous ih =>
    show (render_entry e s).1.serial ::
        (render_lines previous (render_entry e s).2).1.map (fun l => l.serial) = _
    rw [ih]
    rfl

theorem render_lines_mem {σ : Type} (h : EcHandle σ) (s : σ) (l : EcLine)
    (hl : l ∈ (render_lines h s).1) : ∃ e ∈ h, e.serial = l.serial := by
  have hm : l.serial ∈ (render_lines h s).1.map (fun l => l.serial) :=
    List.mem_map.2 ⟨l, hl, rfl⟩
  rw [render_lines_serials] at hm
  exact List.mem_map.1 hm

/-- C13: for any sequence of nested `ERROR_CONTEXT` scope entries and exits on one
thread, walking from the top entry through `previous()` visits exactly the
entries currently in scope, most recent first; `get_error_context()` called at
that point returns the lines of exactly these entries in this order, the line of
the most recent entry first and after it the error context of the chain its
`previous()` points to, each line of an `ERROR_CONTEXT` entry being
"file:line  descr:  value" and a line break; and after a scope has exited, no
later render of that thread has a line of its entry. -/
theorem error_context_lists_open_scopes {σ T : Type} (user : σ) (ops : List (EcOp σ T)) :
    (get_thread_ec_handle (ec_run ops (EcThread.init user))).map (fun e => e.serial)
      = open_scopes ops 0 [] ∧
    (∀ s : σ,
      (render_lines (get_thread_ec_handle (ec_run ops (EcThread.init user))) s).1.map
          (fun l => l.serial)
        = open_scopes ops 0 []) ∧
    (∀ th : EcThread σ,
      (get_error_context th).1
        = { _str := some (String.join
              ((render_lines (get_thread_ec_handle th) th.user).1.map fun l => l.text)) }) ∧
    (∀ (e : EcEntryBase σ) (previous : EcHandle σ),
      get_thread_ec_handle (ec_run ops (EcThread.init user)) = e :: previous →
      (get_error_context (ec_run ops (EcThread.init user))).1.chars
        = (render_entry e (ec_run ops (EcThread.init user)).user).1.text ++
          (get_error_context_for previous
            (render_entry e (ec_run ops (EcThread.init user)).user).2).1.chars) ∧
    (get_error_context_for ([] : EcHandle σ) user).1 = { _str := some "" } ∧
    (∀ (d : EcEntryData σ T) (s : σ) (value : String),
      (d._printer d._data s).1 = { _str := some value } →
      (render_entry d.toBase s).1
        = { serial := d.serial,
            text := d._file ++ ":" ++ toString d._line ++ "  " ++ d._descr ++ ":  " ++ value ++
              "\n" }) ∧
    (∀ (e : EcEntryBase σ) (later : List (EcOp σ T)) (s : σ),
      (get_thread_ec_handle (ec_run ops (EcThread.init user))).head? = some e →
      ∀ l ∈ (render_lines
          (get_thread_ec_handle
            (ec_run later (EcEntryBase.pop (ec_run ops (EcThread.init user))))) s).1,
        l.serial ≠ e.serial) := by
  have hs := ec_run_serials ops (EcThread.init user)
  refine ⟨hs, fun s => ?_, fun th => rfl, fun e previous he => ?_, rfl, fun d s value hv => ?_,
    fun e later s he l hl => ?_⟩
  · rw [render_lines_serials]
    exact hs
  · unfold get_error_context
    rw [he]
    simp only [get_error_context_for, render_lines, Text.chars, TextOf.c_str, Option.getD_some,
      List.map_cons]
    exact string_join_cons _ _
  · unfold render_entry EcEntryData.toBase EcEntryData.print_value
    simp only [hv, stream_print, TextOf.c_str]
    simp
  · have hord := ec_run_ordered ops (EcThread.init user)
      ⟨List.Pairwise.nil, fun e he => by cases he⟩
    obtain ⟨x, hx, hxl⟩ := render_lines_mem _ s l hl
    rw [← hxl]
    unfold get_thread_ec_handle at he hx
    cases htop : (ec_run ops (EcThread.init user)).top with
    | nil => rw [htop] at he; cases he
    | cons e0 rest =>
      rw [htop] at he
      have he0 : e0 = e := Option.some.inj he
      subst he0
      have hp := hord.1
      rw [htop, List.map_cons, List.pairwise_cons] at hp
      refine ec_run_absent later _ e0.serial ?_ ?_ x hx
      · exact hord.2 e0 (by rw [htop]; exact List.mem_cons_self _ _)
      · intro y hy hey
        have hy2 : y ∈ rest := by
          have : (EcEntryBase.pop (ec_run ops (EcThread.init user))).top = rest := by
            simp [EcEntryBase.pop, EcHandle.previous, htop]
          rwa [this] at hy
        exact absurd (hp.1 y.serial (List.mem_map.2 ⟨y, hy2, rfl⟩)) (by rw [hey]; exact Nat.lt_irrefl _)

/-- The example documented in the header (loguru.hpp:699-707) under this order:
the scope of "Processing file" (entry 0, main.cpp:416) encloses the scope of
"Customer index" (entry 1, main.cpp:417); the line of "Customer index" comes
first, and each printer has been invoked once. -/
theorem documented_example_most_recent_first :
    open_scopes documented_example 0 [] = [1, 0] ∧
    (get_error_context (ec_run documented_example (EcThread.init 0))).1
      = { _str := some
            "main.cpp:417  Customer index:  42\nmain.cpp:416  Processing file:  customers.json\n" } ∧
    (get_error_context (ec_run documented_example (EcThread.init 0))).2.user = 2 := by
  refine ⟨rfl, ?_, ?_⟩ <;> decide

/-! ### The boolean check macros -/

/-- C14: there is no soft check: for every boolean test, `CHECK_F(test, ...)`,
`CHECK_WITH_INFO_F` and `CHECK_NOTNULL_F` evaluate the test exactly once; if it
is true nothing else happens and the user-message arguments are not evaluated;
if it is false the macro calls the non-returning `log_and_abort` with
`stack_trace_skip` 0, the expression text "CHECK FAILED:  " followed by the text
of the test (`#test`, `info`, or `#x " != nullptr"`) and two spaces, the file and
line of the call site, and the optional user message. -/
theorem check_macros_abort_or_pass (test : Expr Bool) (info : String) (file : String)
    (line : Nat) (args : Expr VaArgs) (x : Expr (Option Nat)) (x_text : String) (w : World) :
    ((test w).1 = true →
      CHECK_WITH_INFO_F test info file line none w = .passed (test w).2 ∧
      CHECK_WITH_INFO_F test info file line (some args) w = .passed (test w).2) ∧
    ((test w).1 = false →
      CHECK_WITH_INFO_F test info file line none w
        = .aborted { stack_trace_skip := 0, expr := "CHECK FAILED:  " ++ info ++ "  ",
                     file := file, line := line, message := none } (test w).2 ∧
      CHECK_WITH_INFO_F test info file line (some args) w
        = .aborted { stack_trace_skip := 0, expr := "CHECK FAILED:  " ++ info ++ "  ",
                     file := file, line := line, message := some (args (test w).2).1 }
            (args (test w).2).2) ∧
    (∀ va, CHECK_F test info file line va w = CHECK_WITH_INFO_F test info file line va w) ∧
    ((x w).1 ≠ none →
      CHECK_NOTNULL_F x x_text file line none w = .passed (x w).2 ∧
      CHECK_NOTNULL_F x x_text file line (some args) w = .passed (x w).2) ∧
    ((x w).1 = none →
      CHECK_NOTNULL_F x x_text file line none w
        = .aborted { stack_trace_skip := 0,
                     expr := "CHECK FAILED:  " ++ (x_text ++ " != nullptr") ++ "  ",
                     file := file, line := line, message := none } (x w).2 ∧
      CHECK_NOTNULL_F x x_text file line (some args) w
        = .aborted { stack_trace_skip := 0,
                     expr := "CHECK FAILED:  " ++ (x_text ++ " != nullptr") ++ "  ",
                     file := file, line := line, message := some (args (x w).2).1 }
            (args (x w).2).2) := by
  refine ⟨fun h => ?_, fun h => ?_, fun va => rfl, fun h => ?_, fun h => ?_⟩
  · simp [CHECK_WITH_INFO_F, h]
  · simp [CHECK_WITH_INFO_F, h, log_and_abort]
  · simp [CHECK_NOTNULL_F, CHECK_WITH_INFO_F, h]
  · simp [CHECK_NOTNULL_F, CHECK_WITH_INFO_F, h, log_and_abort]

/-- Instance of C14: a failing test with a side effect is evaluated exactly once
(the indentation depth goes from 1 to 2) before `log_and_abort` is called. -/
theorem check_macros_abort_or_pass_witness :
    CHECK_F sample_test "ready" "main.cpp" 7 none sample_world
      = .aborted { stack_trace_skip := 0, expr := "CHECK FAILED:  ready  ", file := "main.cpp",
                   line := 7, message := none }
          { sample_world with indent_depth := 2 } :=
  ((check_macros_abort_or_pass sample_test "ready" "main.cpp" 7 sample_args
      (Expr.value none) "p" sample_world).2.2.1 none).trans
    (((check_macros_abort_or_pass sample_test "ready" "main.cpp" 7 sample_args
      (Expr.value none) "p" sample_world).2.1 rfl).1.trans (by decide))

/-! ### Conditional logging -/

/-- C16: for every verbosity `v`, cutoff `c` and condition `cond`:
`VLOG_IF_F(v, cond, ...)` (and `LOG_IF_F`) calls `log`, and `VLOG_IF_S(v, cond)`
(and `LOG_IF_S`) constructs a `StreamLogger`, if and only if `v <= c` and `cond`
is true; when `v > c` the condition is not evaluated at all, and whenever the
gate is closed the format arguments and the streamed operands are not
evaluated. -/
theorem conditional_macros_gate (F : Formatter) (v : Verbosity) (cond : Expr Bool)
    (file : String) (line : Nat) (va_args : Expr VaArgs) (operands : Expr (List String))
    (w : World) :
    (v > current_verbosity_cutoff w →
      VLOG_IF_F F (Expr.value v) cond file line va_args w = w ∧
      VLOG_IF_S (Expr.value v) cond file line operands w = (none, w)) ∧
    (v ≤ current_verbosity_cutoff w → (cond w).1 = false →
      VLOG_IF_F F (Expr.value v) cond file line va_args w = (cond w).2 ∧
      VLOG_IF_S (Expr.value v) cond file line operands w = (none, (cond w).2)) ∧
    (v ≤ current_verbosity_cutoff w → (cond w).1 = true →
      VLOG_IF_F F (Expr.value v) cond file line va_args w
        = log F v file line (va_args (cond w).2).1.format (va_args (cond w).2).1.args
            (va_args (cond w).2).2 ∧
      log_calls (VLOG_IF_F F (Expr.value v) cond file line va_args w).effects
        = log_calls (va_args (cond w).2).2.effects ++
            [Effect.log_called v file line (va_args (cond w).2).1.format
              (va_args (cond w).2).1.args] ∧
      VLOG_IF_S (Expr.value v) cond file line operands w
        = (some ((operands (cond w).2).1.foldl StreamLogger.shl
              (StreamLogger.construct v file line)),
            (operands (cond w).2).2)) ∧
    ((VLOG_IF_S (Expr.value v) cond file line operands w).1.isSome = true ↔
      v ≤ current_verbosity_cutoff w ∧ (cond w).1 = true) ∧
    (∀ n : NamedVerbosity, Verbosity_ n = v →
      LOG_IF_F F n cond file line va_args w
        = VLOG_IF_F F (Expr.value v) cond file line va_args w ∧
      LOG_IF_S n cond file line operands w
        = VLOG_IF_S (Expr.value v) cond file line operands w) := by
  have hF : VLOG_IF_F F (Expr.value v) cond file line va_args w
      = if v > current_verbosity_cutoff w then w
        else if (cond w).1 == false then (cond w).2
        else log F v file line (va_args (cond w).2).1.format (va_args (cond w).2).1.args
          (va_args (cond w).2).2 := by
    simp [VLOG_IF_F, Expr.value]
  have hS : VLOG_IF_S (Expr.value v) cond file line operands w
      = if v > current_verbosity_cutoff w then (none, w)
        else if (cond w).1 == false then (none, (cond w).2)
        else (some ((operands (cond w).2).1.foldl StreamLogger.shl
              (StreamLogger.construct v file line)), (operands (cond w).2).2) := by
    simp [VLOG_IF_S, Expr.value]
  refine ⟨fun h => ?_, fun h hc => ?_, fun h hc => ?_, ?_, fun n hn => ?_⟩
  · rw [hF, hS, if_pos h, if_pos h]
    exact ⟨rfl, rfl⟩
  · have hn : ¬ v > current_verbosity_cutoff w := not_lt.2 h
    rw [hF, hS, if_neg hn, if_neg hn, hc]
    exact ⟨rfl, rfl⟩
  · have hn : ¬ v > current_verbosity_cutoff w := not_lt.2 h
    rw [hF, hS, if_neg hn, if_neg hn, hc]
    exact ⟨rfl, log_calls_log _ _ _ _ _ _ _, rfl⟩
  · rw [hS]
    by_cases h : v > current_verbosity_cutoff w
    · simp [h, not_le.2 h]
    · cases hc : (cond w).1 <;> simp [h, hc, not_lt.1 h]
  · subst hn
    exact ⟨rfl, rfl⟩

/-- Instance of C16 in a state with cutoff 0: at verbosity 1 the condition, which
has a side effect, is not evaluated; at verbosity 0 it is evaluated once, is
false, and neither `log` is called nor a `StreamLogger` constructed. -/
theorem conditional_macros_gate_witness :
    VLOG_IF_F sample_formatter (Expr.value 1) sample_test "main.cpp" 7 sample_args sample_world
      = sample_world ∧
    VLOG_IF_S (Expr.value 0) sample_test "main.cpp" 7 (Expr.value ["a"]) sample_world
      = (none, { sample_world with indent_depth := 2 }) :=
  ⟨((conditional_macros_gate sample_formatter 1 sample_test "main.cpp" 7 sample_args
      (Expr.value ["a"]) sample_world).1 (by decide)).1,
   (((conditional_macros_gate sample_formatter 0 sample_test "main.cpp" 7 sample_args
      (Expr.value ["a"]) sample_world).2.1 (by decide) rfl).2).trans (by decide)⟩

/-! ### The comparison check macros -/

theorem printf_chars_plain (c : Char) (rest : List Char) (args : List Arg) (h : c ≠ '%') :
    printf_chars (c :: rest) args = (fun out => c :: out) <$> printf_chars rest args := by
  rw [printf_chars.eq_def]
  simp [h]

theorem printf_chars_s (rest : List Char) (t : String) (args : List Arg) :
    printf_chars ('%' :: 's' :: rest) (Arg.str t :: args)
      = (fun out => t.toList ++ out) <$> printf_chars rest args := by
  rw [printf_chars.eq_def]
  simp

/-- What `textprintf` makes of the template of `CHECK_OP_F`. -/
theorem check_failed_template (el op er L R : String) :
    textprintf "CHECK FAILED:  %s %s %s  (%s %s %s)  "
        [Arg.str el, Arg.str op, Arg.str er, Arg.str L, Arg.str op, Arg.str R]
      = .ok { _str := some ("CHECK FAILED:  " ++ el ++ " " ++ op ++ " " ++ er ++ "  (" ++ L ++
          " " ++ op ++ " " ++ R ++ ")  ") } := by
  unfold textprintf
  simp [printf_chars_plain, printf_chars_s, printf_chars]
  apply String.ext
  simp

theorem format_value_other (value : Int) :
    format_value { type := .other, value := value } = .ok { _str := some "N/A" } := by
  simp [format_value, textprintf, printf_chars_plain, printf_chars]

/-- The specialisations of `format_value` pass a format string that ends inside
a conversion specification, so that their result is not defined. -/
theorem format_value_specialised (type : CType) (value : Int) (h : type ≠ .other) :
    format_value { type := type, value := value } = .error .incomplete_conversion := by
  cases type <;> first | exact absurd rfl h | simp [format_value, textprintf, printf_chars]

/-- C17, as amended: `CHECK_OP_F` (and `CHECK_EQ_F` ... `CHECK_GE_F`, which hand their
operands on to it) evaluates each operand expression exactly once, the left one
first; if `left op right` holds it does nothing further; otherwise, when
`format_value` renders the operands as `L` and `R`, it calls `log_and_abort` with
skip 0, the prefix "CHECK FAILED:  <left text> <op> <right text>  (L <op> R)  ",
the file and line of the call site, and the already-rendered user message (the
empty text if there is none) passed through the fixed format "%s".  For an
operand of a type without a `format_value` specialisation the text `L` is "N/A",
not the value. -/
theorem check_op_f_contract (I : Implementation) (expr_left expr_right : Expr CValue)
    (left_text right_text : String) (op : CmpOp) (file : String) (line : Nat)
    (args : Expr VaArgs) (w : World) :
    (I.compare op (expr_left w).1 (expr_right (expr_left w).2).1 = true →
      ∀ va, CHECK_OP_F I expr_left expr_right left_text right_text op file line va w
        = .passed (expr_right (expr_left w).2).2) ∧
    (I.compare op (expr_left w).1 (expr_right (expr_left w).2).1 = false →
      ∀ L R : Text, format_value (expr_left w).1 = .ok L →
        format_value (expr_right (expr_left w).2).1 = .ok R →
        CHECK_OP_F I expr_left expr_right left_text right_text op file line none w
          = .aborted
              { stack_trace_skip := 0,
                expr := "CHECK FAILED:  " ++ left_text ++ " " ++ op.text ++ " " ++ right_text ++
                  "  (" ++ L.chars ++ " " ++ op.text ++ " " ++ R.chars ++ ")  ",
                file := file, line := line,
                message := some { format := "%s", args := [Arg.str ""] } }
              (expr_right (expr_left w).2).2 ∧
        ∀ user_msg : Text,
          user_message I (some (args (expr_right (expr_left w).2).2).1) = .ok user_msg →
          CHECK_OP_F I expr_left expr_right left_text right_text op file line (some args) w
            = .aborted
              { stack_trace_skip := 0,
                expr := "CHECK FAILED:  " ++ left_text ++ " " ++ op.text ++ " " ++ right_text ++
                  "  (" ++ L.chars ++ " " ++ op.text ++ " " ++ R.chars ++ ")  ",
                file := file, line := line,
                message := some { format := "%s", args := [Arg.str user_msg.chars] } }
                (args (expr_right (expr_left w).2).2).2) ∧
    (∀ value : Int, format_value { type := .other, value := value } = .ok { _str := some "N/A" }) ∧
    (∀ (format : String) (va : List Arg),
      (∀ t : Text, textprintf format va = .ok t →
        user_message I (some { format := format, args := va }) = .ok t) ∧
      (textprintf format va = .error .unsupported_conversion →
        user_message I (some { format := format, args := va })
          = .ok (I.textprintf_other format va))) ∧
    (∀ (a b : Expr CValue) (ta tb : MacroArg String) (va : Option (Expr VaArgs)),
      CHECK_EQ_F I a b ta tb file line va w
        = CHECK_OP_F I a b ta.replaced tb.replaced .EQ file line va w ∧
      CHECK_NE_F I a b ta tb file line va w
        = CHECK_OP_F I a b ta.replaced tb.replaced .NE file line va w ∧
      CHECK_LT_F I a b ta tb file line va w
        = CHECK_OP_F I a b ta.replaced tb.replaced .LT file line va w ∧
      CHECK_GT_F I a b ta tb file line va w
        = CHECK_OP_F I a b ta.replaced tb.replaced .GT file line va w ∧
      CHECK_LE_F I a b ta tb file line va w
        = CHECK_OP_F I a b ta.replaced tb.replaced .LE file line va w ∧
      CHECK_GE_F I a b ta tb file line va w
        = CHECK_OP_F I a b ta.replaced tb.replaced .GE file line va w) ∧
    CmpOp.EQ.text = "==" ∧ CmpOp.NE.text = "!=" ∧ CmpOp.LT.text = "<" ∧ CmpOp.GT.text = ">" ∧
      CmpOp.LE.text = "<=" ∧ CmpOp.GE.text = ">=" := by
  refine ⟨fun h va => ?_, fun h L R hL hR => ⟨?_, fun user_msg hU => ?_⟩,
    format_value_other, fun format va => ⟨fun t ht => ?_, fun ht => ?_⟩,
    fun a b ta tb va => ⟨rfl, rfl, rfl, rfl, rfl, rfl⟩, rfl, rfl, rfl, rfl, rfl, rfl⟩
  · simp [CHECK_OP_F, h]
  · simp [CHECK_OP_F, h, hL, hR, check_failed_template, user_message, textprintf_empty,
      log_and_abort, Text.chars, TextOf.c_str]
  · simp [CHECK_OP_F, h, hL, hR, check_failed_template, hU, log_and_abort,
      Text.chars, TextOf.c_str]
  · simp [user_message, ht]
  · simp [user_message, ht]

/-- Instance of the amended C17: `CHECK_EQ_F(a, b)` on two operands of a type
without a `format_value` specialisation that hold 1 and 0. -/
theorem check_op_f_contract_witness :
    CHECK_OP_F sample_implementation (other_operand 1) (other_operand 0) "a" "b" .EQ "main.cpp" 7
        none sample_world
      = .aborted
          { stack_trace_skip := 0,
            expr := "CHECK FAILED:  " ++ "a" ++ " " ++ CmpOp.EQ.text ++ " " ++ "b" ++
              "  (" ++ Text.chars { _str := some "N/A" } ++ " " ++ CmpOp.EQ.text ++ " " ++
              Text.chars { _str := some "N/A" } ++ ")  ",
            file := "main.cpp", line := 7,
            message := some { format := "%s", args := [Arg.str ""] } }
          sample_world :=
  ((check_op_f_contract sample_implementation (other_operand 1) (other_operand 0) "a" "b" .EQ
      "main.cpp" 7 sample_args sample_world).2.1 (by decide) { _str := some "N/A" }
      { _str := some "N/A" } (format_value_other 1) (format_value_other 0)).1

/-- Counterexample to C17 as stated: `CHECK_EQ_F(a, b)` on two operands of a type
without a `format_value` specialisation that hold 1 and 0 fails with the prefix
"CHECK FAILED:  a == b  (N/A == N/A)  ", in which neither operand value
appears. -/
theorem check_op_f_prints_no_value :
    CHECK_EQ_F sample_implementation (other_operand 1) (other_operand 0) (MacroArg.plain "a")
        (MacroArg.plain "b") "main.cpp" 7 none sample_world
      = .aborted
          { stack_trace_skip := 0, expr := "CHECK FAILED:  a == b  (N/A == N/A)  ",
            file := "main.cpp", line := 7,
            message := some { format := "%s", args := [Arg.str ""] } }
          sample_world := by
  decide

/-- The specialisations of `format_value` are of no help either: on two `int`
operands that hold 1 and 2, `CHECK_EQ_F(a, b)` reaches `textprintf("%", v)`, whose
format string ends inside a conversion specification. -/
theorem check_op_f_int_operands_undefined :
    CHECK_EQ_F sample_implementation (int_operand 1) (int_operand 2) (MacroArg.plain "a")
        (MacroArg.plain "b") "main.cpp" 7 none sample_world
      = .undefined .incomplete_conversion := by
  decide

/-- The comparison is the one of the language: in `CHECK_LT_F(a, b)` on an `int`
that holds -1 and an `unsigned int` that holds 1, the `int` is converted and
`a < b` is false, so that the check does not pass but goes on to `format_value`;
on two `int` operands that hold -1 and 1 it passes. -/
theorem check_lt_f_converts_operands :
    CHECK_LT_F sample_implementation (int_operand (-1)) (unsigned_operand 1) (MacroArg.plain "a")
        (MacroArg.plain "b") "main.cpp" 7 none sample_world
      = .undefined .incomplete_conversion ∧
    CHECK_LT_F sample_implementation (int_operand (-1)) (int_operand 1) (MacroArg.plain "a")
        (MacroArg.plain "b") "main.cpp" 7 none sample_world
      = .passed sample_world := by
  constructor <;> decide

/-- A user message with a conversion specification that `printf_chars` does not
cover is rendered by the C library and handed to `log_and_abort` through "%s";
the operand texts are those of the macro-replaced operands. -/
theorem check_op_f_user_message_rendered :
    CHECK_EQ_F sample_implementation (other_operand 1) (other_operand 0)
        { spelling := "n", replaced := "n" } { spelling := "LIMIT", replaced := "10" }
        "main.cpp" 7 (some (Expr.value { format := "%u items", args := [Arg.int 3] }))
        sample_world
      = .aborted
          { stack_trace_skip := 0, expr := "CHECK FAILED:  n == 10  (N/A == N/A)  ",
            file := "main.cpp", line := 7,
            message := some { format := "%s", args := [Arg.str "?"] } }
          sample_world := by
  decide

/-! ### The helpers of the stream-style comparison checks -/

theorem define_check_op_impl_eq {T1 T2 : Type} (holds : T1 → T2 → Bool) (put1 : T1 → String)
    (put2 : T2 → String) (expr : String) (v1 : T1) (op_str : String) (v2 : T2) :
    DEFINE_CHECK_OP_IMPL holds put1 put2 expr v1 op_str v2
      = if holds v1 v2 = true then none
        else some (check_failed_string expr (put1 v1) op_str (put2 v2)) := rfl

theorem check_op_s_value (function_name : String → Int → String → Int → Option String)
    (v1 v2 : Int) (t1 op_text t2 : String) (file : String) (line : Nat) (w : World) :
    CHECK_OP_S function_name (Expr.value v1) (Expr.value v2) t1 op_text t2 file line w
      = ((function_name (t1 ++ " " ++ op_text ++ " " ++ t2) v1 op_text v2).map
          (fun error_string => AbortLogger.construct error_string file line), w) := by
  unfold CHECK_OP_S Expr.value referenceable_value
  simp only
  cases function_name (t1 ++ " " ++ op_text ++ " " ++ t2) v1 op_text v2 <;> rfl

/-- C18: each of `check_EQ_impl`, `check_NE_impl`, `check_LE_impl`, `check_LT_impl`,
`check_GE_impl`, `check_GT_impl` returns null if and only if its comparison
(`==`, `!=`, `<=`, `<`, `>=`, `>`) holds of `v1` and `v2`, and otherwise returns
exactly the string "CHECK FAILED:  " + expr + "  (" + v1 + " " + op_str + " " + v2 +
")  " (so does the template for any operand types); consequently `CHECK_xx_S(a, b)`
constructs an `AbortLogger` if and only if the comparison fails, and the logger
it constructs has that string, for `expr` the operand texts around the operator,
as its `_expr`, the file and line of the call site as its `_file` and `_line`,
and nothing streamed into it. -/
theorem check_impl_null_iff_holds (expr op_str : String) (v1 v2 : Int) (t1 t2 : MacroArg String)
    (file : String) (line : Nat) (w : World) :
    (∀ p1 p2 : String, check_failed_string expr p1 op_str p2
      = "CHECK FAILED:  " ++ expr ++ "  (" ++ p1 ++ " " ++ op_str ++ " " ++ p2 ++ ")  ") ∧
    (∀ (T1 T2 : Type) (holds : T1 → T2 → Bool) (put1 : T1 → String) (put2 : T2 → String)
        (a : T1) (b : T2),
      (DEFINE_CHECK_OP_IMPL holds put1 put2 expr a op_str b = none ↔ holds a b = true) ∧
      (holds a b = false → DEFINE_CHECK_OP_IMPL holds put1 put2 expr a op_str b
        = some (check_failed_string expr (put1 a) op_str (put2 b)))) ∧
    ((check_EQ_impl expr v1 op_str v2 = none ↔ v1 = v2) ∧
      (¬ v1 = v2 → check_EQ_impl expr v1 op_str v2
        = some (check_failed_string expr (toString v1) op_str (toString v2)))) ∧
    ((check_NE_impl expr v1 op_str v2 = none ↔ v1 ≠ v2) ∧
      (¬ v1 ≠ v2 → check_NE_impl expr v1 op_str v2
        = some (check_failed_string expr (toString v1) op_str (toString v2)))) ∧
    ((check_LE_impl expr v1 op_str v2 = none ↔ v1 ≤ v2) ∧
      (¬ v1 ≤ v2 → check_LE_impl expr v1 op_str v2
        = some (check_failed_string expr (toString v1) op_str (toString v2)))) ∧
    ((check_LT_impl expr v1 op_str v2 = none ↔ v1 < v2) ∧
      (¬ v1 < v2 → check_LT_impl expr v1 op_str v2
        = some (check_failed_string expr (toString v1) op_str (toString v2)))) ∧
    ((check_GE_impl expr v1 op_str v2 = none ↔ v1 ≥ v2) ∧
      (¬ v1 ≥ v2 → check_GE_impl expr v1 op_str v2
        = some (check_failed_string expr (toString v1) op_str (toString v2)))) ∧
    ((check_GT_impl expr v1 op_str v2 = none ↔ v1 > v2) ∧
      (¬ v1 > v2 → check_GT_impl expr v1 op_str v2
        = some (check_failed_string expr (toString v1) op_str (toString v2)))) ∧
    (((CHECK_EQ_S (Expr.value v1) (Expr.value v2) t1 t2 file line w).1.isSome = true
        ↔ ¬ v1 = v2) ∧
      (¬ v1 = v2 → CHECK_EQ_S (Expr.value v1) (Expr.value v2) t1 t2 file line w
        = (some { _expr := check_failed_string (t1.replaced ++ " " ++ "==" ++ " " ++ t2.replaced)
                      (toString v1) "==" (toString v2),
                    _file := file, _line := line, _ss := "" }, w))) ∧
    (((CHECK_NE_S (Expr.value v1) (Expr.value v2) t1 t2 file line w).1.isSome = true
        ↔ ¬ v1 ≠ v2) ∧
      (¬ v1 ≠ v2 → CHECK_NE_S (Expr.value v1) (Expr.value v2) t1 t2 file line w
        = (some { _expr := check_failed_string (t1.replaced ++ " " ++ "!=" ++ " " ++ t2.replaced)
                      (toString v1) "!=" (toString v2),
                    _file := file, _line := line, _ss := "" }, w))) ∧
    (((CHECK_LE_S (Expr.value v1) (Expr.value v2) t1 t2 file line w).1.isSome = true
        ↔ ¬ v1 ≤ v2) ∧
      (¬ v1 ≤ v2 → CHECK_LE_S (Expr.value v1) (Expr.value v2) t1 t2 file line w
        = (some { _expr := check_failed_string (t1.replaced ++ " " ++ "<=" ++ " " ++ t2.replaced)
                      (toString v1) "<=" (toString v2),
                    _file := file, _line := line, _ss := "" }, w))) ∧
    (((CHECK_LT_S (Expr.value v1) (Expr.value v2) t1 t2 file line w).1.isSome = true
        ↔ ¬ v1 < v2) ∧
      (¬ v1 < v2 → CHECK_LT_S (Expr.value v1) (Expr.value v2) t1 t2 file line w
        = (some { _expr := check_failed_string (t1.replaced ++ " " ++ "<" ++ " " ++ t2.replaced)
                      (toString v1) "<" (toString v2),
                    _file := file, _line := line, _ss := "" }, w))) ∧
    (((CHECK_GE_S (Expr.value v1) (Expr.value v2) t1 t2 file line w).1.isSome = true
        ↔ ¬ v1 ≥ v2) ∧
      (¬ v1 ≥ v2 → CHECK_GE_S (Expr.value v1) (Expr.value v2) t1 t2 file line w
        = (some { _expr := check_failed_string (t1.replaced ++ " " ++ ">=" ++ " " ++ t2.replaced)
                      (toString v1) ">=" (toString v2),
                    _file := file, _line := line, _ss := "" }, w))) ∧
    (((CHECK_GT_S (Expr.value v1) (Expr.value v2) t1 t2 file line w).1.isSome = true
        ↔ ¬ v1 > v2) ∧
      (¬ v1 > v2 → CHECK_GT_S (Expr.value v1) (Expr.value v2) t1 t2 file line w
        = (some { _expr := check_failed_string (t1.replaced ++ " " ++ ">" ++ " " ++ t2.replaced)
                      (toString v1) ">" (toString v2),
                    _file := file, _line := line, _ss := "" }, w))) := by
  have hgen : ∀ (holds : Int → Int → Bool) (e : String) (o : String) (P : Prop)
      (_ : holds v1 v2 = true ↔ P),
      (DEFINE_CHECK_OP_IMPL holds toString toString e v1 o v2 = none ↔ P) ∧
      (¬ P → DEFINE_CHECK_OP_IMPL holds toString toString e v1 o v2
        = some (check_failed_string e (toString v1) o (toString v2))) := by
    intro holds e o P hP
    rw [define_check_op_impl_eq]
    by_cases h : holds v1 v2 = true
    · simp [h, hP.1 h]
    · have hnP : ¬ P := fun hp => h (hP.2 hp)
      simp [h, hnP]
  have hS : ∀ (f : String → Int → String → Int → Option String) (o : String) (P : Prop)
      (_ : (f (t1.replaced ++ " " ++ o ++ " " ++ t2.replaced) v1 o v2 = none ↔ P) ∧
        (¬ P → f (t1.replaced ++ " " ++ o ++ " " ++ t2.replaced) v1 o v2
          = some (check_failed_string (t1.replaced ++ " " ++ o ++ " " ++ t2.replaced)
              (toString v1) o (toString v2)))),
      ((CHECK_OP_S f (Expr.value v1) (Expr.value v2) t1.replaced o t2.replaced file line
          w).1.isSome = true ↔ ¬ P) ∧
      (¬ P → CHECK_OP_S f (Expr.value v1) (Expr.value v2) t1.replaced o t2.replaced file line w
        = (some { _expr := check_failed_string (t1.replaced ++ " " ++ o ++ " " ++ t2.replaced)
                      (toString v1) o (toString v2),
                  _file := file, _line := line, _ss := "" }, w)) := by
    intro f o P hf
    rw [check_op_s_value]
    by_cases hp : P
    · simp [hf.1.2 hp, hp]
    · simp [hf.2 hp, hp, AbortLogger.construct]
  refine ⟨fun p1 p2 => rfl, fun T1 T2 holds put1 put2 a b => ?_,
    hgen _ expr op_str _ (by simp), hgen _ expr op_str _ (by simp),
    hgen _ expr op_str _ (by simp), hgen _ expr op_str _ (by simp),
    hgen _ expr op_str _ (by simp), hgen _ expr op_str _ (by simp),
    hS check_EQ_impl "==" _ (hgen _ _ _ _ (by simp)),
    hS check_NE_impl "!=" _ (hgen _ _ _ _ (by simp)),
    hS check_LE_impl "<=" _ (hgen _ _ _ _ (by simp)),
    hS check_LT_impl "<" _ (hgen _ _ _ _ (by simp)),
    hS check_GE_impl ">=" _ (hgen _ _ _ _ (by simp)),
    hS check_GT_impl ">" _ (hgen _ _ _ _ (by simp))⟩
  rw [define_check_op_impl_eq]
  cases h : holds a b <;> simp

/-- C19: the six check helpers are pairwise complementary on integers: for all
ints `a` and `b` (and whatever texts are passed along), exactly one of
`check_EQ_impl` and `check_NE_impl` returns null, exactly one of `check_LT_impl`
and `check_GE_impl` returns null, and exactly one of `check_LE_impl` and
`check_GT_impl` returns null; and `check_LE_impl` returns null if and only if
`check_LT_impl` or `check_EQ_impl` does. -/
theorem check_impls_complementary (a b : Int) (e1 o1 e2 o2 e3 o3 : String) :
    ((check_EQ_impl e1 a o1 b = none ∧ check_NE_impl e2 a o2 b ≠ none) ∨
      (check_EQ_impl e1 a o1 b ≠ none ∧ check_NE_impl e2 a o2 b = none)) ∧
    ((check_LT_impl e1 a o1 b = none ∧ check_GE_impl e2 a o2 b ≠ none) ∨
      (check_LT_impl e1 a o1 b ≠ none ∧ check_GE_impl e2 a o2 b = none)) ∧
    ((check_LE_impl e1 a o1 b = none ∧ check_GT_impl e2 a o2 b ≠ none) ∨
      (check_LE_impl e1 a o1 b ≠ none ∧ check_GT_impl e2 a o2 b = none)) ∧
    (check_LE_impl e1 a o1 b = none ↔
      (check_LT_impl e2 a o2 b = none ∨ check_EQ_impl e3 a o3 b = none)) := by
  have hnull : ∀ (holds : Int → Int → Bool) (e o : String),
      (DEFINE_CHECK_OP_IMPL holds toString toString e a o b = none ↔ holds a b = true) := by
    intro holds e o
    rw [define_check_op_impl_eq]
    cases h : holds a b <;> simp
  unfold check_EQ_impl check_NE_impl check_LT_impl check_GE_impl check_LE_impl check_GT_impl
  simp only [ne_eq, hnull, decide_eq_true_eq]
  refine ⟨?_, ?_, ?_, ?_⟩
  · by_cases h : a = b
    · exact Or.inl ⟨h, fun hn => hn h⟩
    · exact Or.inr ⟨h, h⟩
  · by_cases h : a < b
    · exact Or.inl ⟨h, not_le.2 h⟩
    · exact Or.inr ⟨h, not_lt.1 h⟩
  · by_cases h : a ≤ b
    · exact Or.inl ⟨h, not_lt.2 h⟩
    · exact Or.inr ⟨h, not_le.1 h⟩
  · exact le_iff_lt_or_eq

/-- C20: the printf-style and the stream-style comparison checks build the same
failure prefix: for all expression texts `el`, `er`, operator text `op` and
operand value texts `L`, `R`, the text that `CHECK_OP_F` builds from the template
"CHECK FAILED:  %s %s %s  (%s %s %s)  " with (el, op, er, L, op, R) is the string
that a helper defined by `DEFINE_CHECK_OP_IMPL` builds for
`expr = el + " " + op + " " + er`, `op_str = op` and operands printing as `L` and
`R`, which is how `CHECK_OP_S` passes them. -/
theorem check_prefix_f_equals_s (el op er L R : String) {T1 T2 : Type}
    (holds : T1 → T2 → Bool) (put1 : T1 → String) (put2 : T2 → String) (v1 : T1) (v2 : T2)
    (hfail : holds v1 v2 = false) (h1 : put1 v1 = L) (h2 : put2 v2 = R) :
    textprintf "CHECK FAILED:  %s %s %s  (%s %s %s)  "
        [Arg.str el, Arg.str op, Arg.str er, Arg.str L, Arg.str op, Arg.str R]
      = .ok { _str := DEFINE_CHECK_OP_IMPL holds put1 put2 (el ++ " " ++ op ++ " " ++ er)
                v1 op v2 } := by
  rw [check_failed_template, define_check_op_impl_eq, hfail, h1, h2]
  simp only [Bool.false_eq_true, if_false, check_failed_string, String.append_assoc]

/-- Instance of C20: `CHECK_EQ_F(a, b)` and `CHECK_EQ_S(a, b)` on operands that
print as "1" and "2". -/
theorem check_prefix_f_equals_s_witness :
    textprintf "CHECK FAILED:  %s %s %s  (%s %s %s)  "
        [Arg.str "a", Arg.str "==", Arg.str "b", Arg.str "1", Arg.str "==", Arg.str "2"]
      = .ok { _str := check_EQ_impl ("a" ++ " " ++ "==" ++ " " ++ "b") 1 "==" 2 } :=
  check_prefix_f_equals_s "a" "==" "b" "1" "2" (fun a b : Int => decide (a = b)) toString
    toString 1 2 (by decide) (by decide) (by decide)

/-! ### The debug macros -/

/-- C21, as amended: with debug checks disabled (`LOG_DEBUG_CHECKS = 0`) no DCHECK
macro can abort, whatever its operands: `DCHECK_S`, `DCHECK_NOTNULL_S` and
`DCHECK_xx_S` are `CHECK_S(true || ...)`, whose test is true without the operands
being evaluated, so that no `AbortLogger` is constructed and the state is left
as it was, and `DCHECK_F`, `DCHECK_NOTNULL_F` and `DCHECK_xx_F` expand to nothing;
with debug logging disabled (`LOG_DEBUG_LOGGING = 0`) `DVLOG_IF_S` (and
`DLOG_IF_S`, `DVLOG_S`, `DLOG_S`) never constructs a `StreamLogger` and `DLOG_F`
(and `DVLOG_F`, `DLOG_IF_F`, `DVLOG_IF_F`, `DRAW_LOG_F`, `DRAW_VLOG_F`) expands to
nothing.  With them enabled each D-macro is its non-D counterpart on the
arguments the D-macro hands on: `DCHECK_F`, `DCHECK_NOTNULL_F`, `DCHECK_S` and
`DCHECK_NOTNULL_S` are their counterparts with the text of the macro-replaced
operand where the counterpart has the text of the operand as written; `DLOG_F`,
`DLOG_IF_F`, `DRAW_LOG_F`, `DLOG_IF_S` and `DLOG_S` are their counterparts on the
macro-replaced verbosity name; the other D-macros, and these on an operand or a
name in which no macro is replaced, are exactly their counterparts. -/
theorem debug_macros_disabled_or_counterpart (F : Formatter) (I : Implementation)
    (cond : Expr Bool) (cond_text : MacroArg String) (x : Expr (Option Nat))
    (x_text : MacroArg String) (a b : Expr Int) (fa fb : Expr CValue)
    (a_text b_text : MacroArg String) (verbosity : Expr Verbosity)
    (n : MacroArg NamedVerbosity) (file : String) (line : Nat) (va : Option (Expr VaArgs))
    (va_args : Expr VaArgs) (operands : Expr (List String)) (w : World) :
    (DCHECK_S false cond cond_text file line w = (none, w) ∧
      DCHECK_NOTNULL_S false x x_text file line w = (none, w) ∧
      DCHECK_EQ_S false a b a_text b_text file line w = (none, w) ∧
      DCHECK_NE_S false a b a_text b_text file line w = (none, w) ∧
      DCHECK_LT_S false a b a_text b_text file line w = (none, w) ∧
      DCHECK_LE_S false a b a_text b_text file line w = (none, w) ∧
      DCHECK_GT_S false a b a_text b_text file line w = (none, w) ∧
      DCHECK_GE_S false a b a_text b_text file line w = (none, w)) ∧
    (DCHECK_F false cond cond_text file line va w = .passed w ∧
      DCHECK_NOTNULL_F false x x_text file line va w = .passed w ∧
      DCHECK_EQ_F false I fa fb a_text b_text file line va w = .passed w ∧
      DCHECK_NE_F false I fa fb a_text b_text file line va w = .passed w ∧
      DCHECK_LT_F false I fa fb a_text b_text file line va w = .passed w ∧
      DCHECK_LE_F false I fa fb a_text b_text file line va w = .passed w ∧
      DCHECK_GT_F false I fa fb a_text b_text file line va w = .passed w ∧
      DCHECK_GE_F false I fa fb a_text b_text file line va w = .passed w) ∧
    (DVLOG_IF_S false verbosity cond file line operands w = (none, w) ∧
      DLOG_IF_S false n cond file line operands w = (none, w) ∧
      DVLOG_S false verbosity file line operands w = (none, w) ∧
      DLOG_S false n file line operands w = (none, w)) ∧
    (DLOG_F false F n file line va_args w = w ∧
      DVLOG_F false F verbosity file line va_args w = w ∧
      DLOG_IF_F false F n cond file line va_args w = w ∧
      DVLOG_IF_F false F verbosity cond file line va_args w = w ∧
      DRAW_LOG_F false F n file line va_args w = w ∧
      DRAW_VLOG_F false F verbosity file line va_args w = w) ∧
    (DCHECK_S true cond cond_text file line w = CHECK_S cond cond_text.replaced file line w ∧
      DCHECK_NOTNULL_S true x x_text file line w
        = CHECK_NOTNULL_S x x_text.replaced file line w ∧
      DCHECK_EQ_S true a b a_text b_text file line w
        = CHECK_EQ_S a b a_text b_text file line w ∧
      DCHECK_NE_S true a b a_text b_text file line w
        = CHECK_NE_S a b a_text b_text file line w ∧
      DCHECK_LT_S true a b a_text b_text file line w
        = CHECK_LT_S a b a_text b_text file line w ∧
      DCHECK_LE_S true a b a_text b_text file line w
        = CHECK_LE_S a b a_text b_text file line w ∧
      DCHECK_GT_S true a b a_text b_text file line w
        = CHECK_GT_S a b a_text b_text file line w ∧
      DCHECK_GE_S true a b a_text b_text file line w
        = CHECK_GE_S a b a_text b_text file line w) ∧
    (DCHECK_F true cond cond_text file line va w
        = CHECK_F cond cond_text.replaced file line va w ∧
      DCHECK_NOTNULL_F true x x_text file line va w
        = CHECK_NOTNULL_F x x_text.replaced file line va w ∧
      DCHECK_EQ_F true I fa fb a_text b_text file line va w
        = CHECK_EQ_F I fa fb a_text b_text file line va w ∧
      DCHECK_NE_F true I fa fb a_text b_text file line va w
        = CHECK_NE_F I fa fb a_text b_text file line va w ∧
      DCHECK_LT_F true I fa fb a_text b_text file line va w
        = CHECK_LT_F I fa fb a_text b_text file line va w ∧
      DCHECK_LE_F true I fa fb a_text b_text file line va w
        = CHECK_LE_F I fa fb a_text b_text file line va w ∧
      DCHECK_GT_F true I fa fb a_text b_text file line va w
        = CHECK_GT_F I fa fb a_text b_text file line va w ∧
      DCHECK_GE_F true I fa fb a_text b_text file line va w
        = CHECK_GE_F I fa fb a_text b_text file line va w) ∧
    (DVLOG_IF_S true verbosity cond file line operands w
        = VLOG_IF_S verbosity cond file line operands w ∧
      DLOG_IF_S true n cond file line operands w
        = LOG_IF_S n.replaced cond file line operands w ∧
      DVLOG_S true verbosity file line operands w = VLOG_S verbosity file line operands w ∧
      DLOG_S true n file line operands w = LOG_S n.replaced file line operands w) ∧
    (DLOG_F true F n file line va_args w = LOG_F F n.replaced file line va_args w ∧
      DVLOG_F true F verbosity file line va_args w = VLOG_F F verbosity file line va_args w ∧
      DLOG_IF_F true F n cond file line va_args w
        = LOG_IF_F F n.replaced cond file line va_args w ∧
      DVLOG_IF_F true F verbosity cond file line va_args w
        = VLOG_IF_F F verbosity cond file line va_args w ∧
      DRAW_LOG_F true F n file line va_args w = RAW_LOG_F F n.replaced file line va_args w ∧
      DRAW_VLOG_F true F verbosity file line va_args w
        = RAW_VLOG_F F verbosity file line va_args w) ∧
    (cond_text.replaced = cond_text.spelling →
      DCHECK_S true cond cond_text file line w = CHECK_S cond cond_text.spelling file line w ∧
      DCHECK_F true cond cond_text file line va w
        = CHECK_F cond cond_text.spelling file line va w) ∧
    (x_text.replaced = x_text.spelling →
      DCHECK_NOTNULL_S true x x_text file line w
        = CHECK_NOTNULL_S x x_text.spelling file line w ∧
      DCHECK_NOTNULL_F true x x_text file line va w
        = CHECK_NOTNULL_F x x_text.spelling file line va w) ∧
    (n.replaced = n.spelling →
      DLOG_IF_S true n cond file line operands w
        = LOG_IF_S n.spelling cond file line operands w ∧
      DLOG_S true n file line operands w = LOG_S n.spelling file line operands w ∧
      DLOG_F true F n file line va_args w = LOG_F F n.spelling file line va_args w ∧
      DLOG_IF_F true F n cond file line va_args w
        = LOG_IF_F F n.spelling cond file line va_args w ∧
      DRAW_LOG_F true F n file line va_args w
        = RAW_LOG_F F n.spelling file line va_args w) :=
  ⟨⟨rfl, rfl, rfl, rfl, rfl, rfl, rfl, rfl⟩, ⟨rfl, rfl, rfl, rfl, rfl, rfl, rfl, rfl⟩,
    ⟨rfl, rfl, rfl, rfl⟩, ⟨rfl, rfl, rfl, rfl, rfl, rfl⟩,
    ⟨rfl, rfl, rfl, rfl, rfl, rfl, rfl, rfl⟩, ⟨rfl, rfl, rfl, rfl, rfl, rfl, rfl, rfl⟩,
    ⟨rfl, rfl, rfl, rfl⟩, ⟨rfl, rfl, rfl, rfl, rfl, rfl⟩,
    fun h => ⟨congrArg (fun t => CHECK_S cond t file line w) h,
      congrArg (fun t => CHECK_F cond t file line va w) h⟩,
    fun h => ⟨congrArg (fun t => CHECK_NOTNULL_S x t file line w) h,
      congrArg (fun t => CHECK_NOTNULL_F x t file line va w) h⟩,
    fun h => ⟨congrArg (fun t => LOG_IF_S t cond file line operands w) h,
      congrArg (fun t => LOG_S t file line operands w) h,
      congrArg (fun t => LOG_F F t file line va_args w) h,
      congrArg (fun t => LOG_IF_F F t cond file line va_args w) h,
      congrArg (fun t => RAW_LOG_F F t file line va_args w) h⟩⟩

/-- Instance of the amended C21 on operands with side effects that would fail the
check: with debug checks disabled `DCHECK_EQ_S(a, b)` constructs no `AbortLogger`
and leaves the state untouched, while with debug checks enabled it evaluates both
operands and constructs one; and with debug checks enabled `DCHECK_F(n < LIMIT)`,
where `LIMIT` is a macro for `10`, is `CHECK_F(n < 10)`. -/
theorem debug_macros_disabled_or_counterpart_witness :
    DCHECK_EQ_S false (sample_operand 1) (sample_operand 2) (MacroArg.plain "a")
        (MacroArg.plain "b") "main.cpp" 7 sample_world
      = (none, sample_world) ∧
    DCHECK_EQ_S true (sample_operand 1) (sample_operand 2) (MacroArg.plain "a")
        (MacroArg.plain "b") "main.cpp" 7 sample_world
      = (some { _expr := "CHECK FAILED:  a == b  (1 == 2)  ", _file := "main.cpp", _line := 7,
                _ss := "" },
         { sample_world with indent_depth := 3 }) ∧
    DCHECK_F true sample_test { spelling := "n < LIMIT", replaced := "n < 10" } "main.cpp" 7 none
        sample_world
      = CHECK_F sample_test "n < 10" "main.cpp" 7 none sample_world :=
  ⟨(debug_macros_disabled_or_counterpart sample_formatter sample_implementation sample_test
      { spelling := "n < LIMIT", replaced := "n < 10" } (Expr.value none) (MacroArg.plain "p")
      (sample_operand 1) (sample_operand 2) (int_operand 1) (int_operand 2) (MacroArg.plain "a")
      (MacroArg.plain "b") (Expr.value 0) (MacroArg.plain NamedVerbosity.INFO) "main.cpp" 7 none
      sample_args (Expr.value []) sample_world).1.2.2.1,
   ((debug_macros_disabled_or_counterpart sample_formatter sample_implementation sample_test
      { spelling := "n < LIMIT", replaced := "n < 10" } (Expr.value none) (MacroArg.plain "p")
      (sample_operand 1) (sample_operand 2) (int_operand 1) (int_operand 2) (MacroArg.plain "a")
      (MacroArg.plain "b") (Expr.value 0) (MacroArg.plain NamedVerbosity.INFO) "main.cpp" 7 none
      sample_args (Expr.value []) sample_world).2.2.2.2.1.2.2.1).trans (by decide),
   (debug_macros_disabled_or_counterpart sample_formatter sample_implementation sample_test
      { spelling := "n < LIMIT", replaced := "n < 10" } (Expr.value none) (MacroArg.plain "p")
      (sample_operand 1) (sample_operand 2) (int_operand 1) (int_operand 2) (MacroArg.plain "a")
      (MacroArg.plain "b") (Expr.value 0) (MacroArg.plain NamedVerbosity.INFO) "main.cpp" 7 none
      sample_args (Expr.value []) sample_world).2.2.2.2.2.1.1⟩

/-- Counterexample to C21 as stated: with debug checks enabled and `LIMIT` a macro
for `10`, the failing `DCHECK_F(n < LIMIT)` calls `log_and_abort` with
"CHECK FAILED:  n < 10  " while its counterpart `CHECK_F(n < LIMIT)` calls it with
"CHECK FAILED:  n < LIMIT  "; and with debug logging enabled and `ERROR` a macro
for `0`, `DLOG_F(ERROR, ...)` is `LOG_F(0, ...)`, which logs at verbosity 0, while
its counterpart `LOG_F(ERROR, ...)` logs at `Verbosity_ERROR`. -/
theorem debug_macro_differs_from_counterpart :
    DCHECK_F true sample_test { spelling := "n < LIMIT", replaced := "n < 10" } "main.cpp" 7 none
        sample_world
      = .aborted
          { stack_trace_skip := 0, expr := "CHECK FAILED:  n < 10  ", file := "main.cpp",
            line := 7, message := none }
          { sample_world with indent_depth := 2 } ∧
    CHECK_F sample_test "n < LIMIT" "main.cpp" 7 none sample_world
      = .aborted
          { stack_trace_skip := 0, expr := "CHECK FAILED:  n < LIMIT  ", file := "main.cpp",
            line := 7, message := none }
          { sample_world with indent_depth := 2 } ∧
    DCHECK_F true sample_test { spelling := "n < LIMIT", replaced := "n < 10" } "main.cpp" 7 none
        sample_world
      ≠ CHECK_F sample_test "n < LIMIT" "main.cpp" 7 none sample_world ∧
    log_calls (DLOG_F true sample_formatter
        { spelling := NamedVerbosity.ERROR, replaced := NamedVerbosity.n0 } "main.cpp" 7
        sample_args sample_world).effects
      = [Effect.log_called 0 "main.cpp" 7 "x=%d" [Arg.int 1]] ∧
    log_calls (LOG_F sample_formatter NamedVerbosity.ERROR "main.cpp" 7 sample_args
        sample_world).effects
      = [Effect.log_called (-2) "main.cpp" 7 "x=%d" [Arg.int 1]] := by
  refine ⟨?_, ?_, ?_, ?_, ?_⟩ <;> decide

/-! ### Ownership of a `Text` -/

theorem headD_nul_iff (l : List Char) :
    (l.headD (Char.ofNat 0) == Char.ofNat 0) = true ↔ (c_string l).length = 0 := by
  unfold c_string
  cases l with
  | nil => simp
  | cons c rest =>
    by_cases h : c = Char.ofNat 0
    · simp [h, List.takeWhile_cons]
    · simp [h, List.takeWhile_cons]

theorem held_pointers_at {P : Type} (objects : List (TextOf P)) (i : Nat) (t t2 : TextOf P)
    (h : objects[i]? = some t) :
    held_pointers objects
      = held_pointers (objects.take i) ++ held_pointers [t] ++
          held_pointers (objects.drop (i + 1)) ∧
    held_pointers (objects.set i t2)
      = held_pointers (objects.take i) ++ held_pointers [t2] ++
          held_pointers (objects.drop (i + 1)) := by
  obtain ⟨hi, ht⟩ := List.getElem?_eq_some_iff.1 h
  have hsplit : objects = objects.take i ++ t :: objects.drop (i + 1) := by
    rw [← ht, ← List.drop_eq_getElem_cons hi, List.take_append_drop]
  have hset : objects.set i t2 = objects.take i ++ t2 :: objects.drop (i + 1) := by
    rw [List.set_eq_take_append_cons_drop, if_pos hi]
  constructor
  · conv_lhs => rw [hsplit]
    simp [held_pointers, List.filterMap_append, List.filterMap_cons]
    cases t._str <;> rfl
  · rw [hset]
    simp [held_pointers, List.filterMap_append, List.filterMap_cons]
    cases t2._str <;> rfl

theorem text_step_nodup {P : Type} (op : TextOp) (objects : List (TextOf P))
    (h : (held_pointers objects).Nodup) : (held_pointers (text_step op objects)).Nodup := by
  cases op with
  | move i =>
    unfold text_step
    simp only
    cases hget : objects[i]? with
    | none => exact h
    | some t =>
      simp only
      obtain ⟨h1, h2⟩ := held_pointers_at objects i t t.move.2 hget
      have hnew : held_pointers [t.move.1] = held_pointers [t] := rfl
      have hold : held_pointers [t.move.2] = [] := rfl
      have happ : held_pointers (objects.set i t.move.2 ++ [t.move.1])
          = held_pointers (objects.set i t.move.2) ++ held_pointers [t.move.1] := by
        simp [held_pointers, List.filterMap_append]
      rw [happ, h2, hnew, hold, List.append_nil]
      rw [h1] at h
      refine List.Perm.nodup ?_ h
      rw [List.append_assoc, List.append_assoc]
      exact List.Perm.append_left _ List.perm_append_comm
  | release i =>
    unfold text_step
    simp only
    cases hget : objects[i]? with
    | none => exact h
    | some t =>
      simp only
      obtain ⟨h1, h2⟩ := held_pointers_at objects i t t.release.2 hget
      have hold : held_pointers [t.release.2] = [] := rfl
      rw [h2, hold, List.append_nil]
      rw [h1] at h
      exact List.Nodup.sublist
        ((List.sublist_append_left _ _).append (List.Sublist.refl _)) h

theorem text_run_nodup {P : Type} (ops : List TextOp) (objects : List (TextOf P))
    (h : (held_pointers objects).Nodup) : (held_pointers (text_run ops objects)).Nodup := by
  induction ops generalizing objects with
  | nil => exact h
  | cons op ops ih => exact ih _ (text_step_nodup op objects h)

/-- C22: `Text` keeps single ownership of its string: `release()` returns the
pointer the `Text` held and leaves the `Text` holding null, so that `empty()` is
then true, `c_str()` is null and a second `release()` returns null;
move-construction gives the new `Text` exactly the source's pointer and leaves the
source holding null; `empty()` is true if and only if the held pointer is null or
points to a zero-length string; and no sequence of moves and releases on objects
of which no two hold the same non-null pointer leaves two objects holding the
same non-null pointer. -/
theorem text_single_ownership {P : Type} (pointee : P → String) (t : TextOf P) :
    t.release.1 = t.c_str ∧
    t.release.2._str = none ∧
    t.release.2.empty pointee = true ∧
    t.release.2.c_str = none ∧
    t.release.2.release.1 = none ∧
    t.move.1._str = t._str ∧
    t.move.2._str = none ∧
    (t.empty pointee = true ↔
      t._str = none ∨ ∃ p, t._str = some p ∧ (c_string (pointee p).data).length = 0) ∧
    (∀ (objects : List (TextOf P)) (ops : List TextOp),
      (held_pointers objects).Nodup → (held_pointers (text_run ops objects)).Nodup) := by
  refine ⟨rfl, rfl, rfl, rfl, rfl, rfl, rfl, ?_, fun objects ops h => text_run_nodup ops objects h⟩
  unfold TextOf.empty
  cases hs : t._str with
  | none => simp
  | some p =>
    simp only [reduceCtorEq, false_or, Option.some.injEq, exists_eq_left']
    exact headD_nul_iff _

/-- Instance of C22 on three `Text` objects, two holding the pointers 10 and 11
and one holding null: after a move from the first object, a release of the second
and a move from the new object, the pointer 10 is held by the newest object only
and no other pointer is held. -/
theorem text_single_ownership_witness :
    (held_pointers
        ([{ _str := some 10 }, { _str := some 11 }, { _str := none }] : List (TextOf Nat))).Nodup ∧
    text_run [TextOp.move 0, TextOp.release 1, TextOp.move 3]
        ([{ _str := some 10 }, { _str := some 11 }, { _str := none }] : List (TextOf Nat))
      = [{ _str := none }, { _str := none }, { _str := none }, { _str := none },
         { _str := some 10 }] ∧
    (held_pointers (text_run [TextOp.move 0, TextOp.release 1, TextOp.move 3]
        ([{ _str := some 10 }, { _str := some 11 }, { _str := none }] : List (TextOf Nat)))).Nodup :=
  ⟨by decide, by decide,
   (text_single_ownership (fun _ : Nat => "") { _str := some 10 }).2.2.2.2.2.2.2.2
     [{ _str := some 10 }, { _str := some 11 }, { _str := none }]
     [TextOp.move 0, TextOp.release 1, TextOp.move 3] (by decide)⟩

end aer.log
